import Mathlib

/-!
# google_bcl.c : battery current limiter, threshold codec and debounce engine

Shallow embedding of `drivers/thermal/google/google_bcl.c`.

* Device memory (`struct bcl_device`) is a record; arrays indexed by the
  enumerators of the driver are functions on `Source`.
* The PMIC register file behind the I2C transport and the sequence of calls
  the driver makes into the kernel (bus transfers, mutexes, thermal-zone
  updates, delayed work) are two ghost fields `regs` and `trace` of the record.
* What the outside world answers (transport return codes, the return value of
  `set_trip_temp`, battery telemetry, the interface-PMIC callbacks) is an `Env`.
* Constants that live in headers outside this source file are the fields of
  `Header`.
* A dereference of a NULL thermal-zone pointer is the result `none`.
* Cached levels (`gra_lvl`, `bcl_lvl`, `bcl_read_lvl`) are `unsigned int`, the
  debounce counters are `int`, the occurrence counters are `atomic_t`, as the
  locals of `google_bcl_miti_read_level` and the `atomic_inc` calls show; the
  value a `get_temp` callback hands back is an `int`.
* `thermal_zone_device_update` is recorded as a call in the trace; the read of
  the `get_temp` callback by the governor is a step of its own.
-/

namespace GoogleBcl

/-! ## Constants of google_bcl.c -/

def OCP_WARN_MASK : Nat := 0x1F
def SMPL_WARN_MASK : Nat := 0xE0
def B3M_UPPER_LIMIT : Nat := 9600
def B3M_LOWER_LIMIT : Nat := 3400
def B3M_STEP : Nat := 200
def B2M_UPPER_LIMIT : Nat := 14400
def B2M_LOWER_LIMIT : Nat := 5100
def B2M_STEP : Nat := 300
def B10M_UPPER_LIMIT : Nat := 14400
def B10M_LOWER_LIMIT : Nat := 5100
def B10M_STEP : Nat := 300
def B2S_UPPER_LIMIT : Nat := 14400
def B2S_LOWER_LIMIT : Nat := 5100
def B2S_STEP : Nat := 300
def SMPL_BATTERY_VOLTAGE : Nat := 4200
def SMPL_UPPER_LIMIT : Nat := 3300
def SMPL_LOWER_LIMIT : Nat := 2600
def SMPL_STEP : Nat := 100
def THERMAL_IRQ_COUNTER_LIMIT : Int := 5
def ONE_SECOND : Nat := 1000
def CLKDIVSTEP : Nat := 0x830
def CLUSTER0_GENERAL_CTRL_64 : Nat := 0x1404
def CLUSTER0_MPMM : Nat := 0x1408
def CLUSTER0_PPM : Nat := 0x140c
def MPMMEN_MASK : Nat := 0xF <<< 21
def PPMEN_MASK : Nat := 0x3 <<< 8
def THERMAL_DELAY_INIT_MS : Nat := 1000

/-! ## errno values (linux/errno.h) -/

def EIO : Int := 5
def EBUSY : Int := 16
def ENODEV : Int := 19
def EINVAL : Int := 22

/-! ## Machine integers -/

/-- Value of an integer expression stored into a `u8`. -/
def u8 (x : Nat) : Nat := x % 256

/-- Value of an integer expression stored into an `unsigned int`. -/
def u32 (x : Int) : Nat := (x % 4294967296).toNat

/-- Value of an integer expression stored into an `int` (two's complement). -/
def s32 (x : Int) : Int := (x + 2147483648) % 4294967296 - 2147483648

/-! ## Index types -/

/-- The two companion chips: `MAIN` is S2MPG10, `SUB` is S2MPG11. -/
inductive Pmic
| MAIN
| SUB
deriving DecidableEq, Repr

/-- Enumerators used by the driver to index the `gra_*` and `bcl_*` arrays. -/
inductive Source
| SMPL_WARN
| OCP_WARN_CPUCL1
| SOFT_OCP_WARN_CPUCL1
| OCP_WARN_CPUCL2
| SOFT_OCP_WARN_CPUCL2
| OCP_WARN_TPU
| SOFT_OCP_WARN_TPU
| OCP_WARN_GPU
| SOFT_OCP_WARN_GPU
| PMIC_120C
| PMIC_140C
| PMIC_OVERHEAT
| PMIC_SOC
| UVLO1
| UVLO2
| BATOILO
deriving DecidableEq, Repr

/-- The enumeration `SUBSYSTEM_SOURCE` indexing `base_mem`, `SUBSYSTEM_SOURCE_MAX`
left out. -/
inductive SUBSYSTEM_SOURCE
| CPU0
| CPU1
| CPU2
| TPU
| GPU
deriving DecidableEq, Repr

inductive Lock
| gra_irq_lock (id : Source)
| bcl_irq_lock (id : Source)
| ratio_lock
| sysreg_lock
| state_trans_lock
deriving DecidableEq, Repr

inductive Zone
| gra_tz (id : Source)
| bcl_tz (id : Source)
deriving DecidableEq, Repr

inductive Work
| gra_irq_work (id : Source)
| bcl_irq_work (id : Source)
| bcl_intf_work (id : Source)
| init_work
deriving DecidableEq, Repr

/-- Calls the driver makes into the rest of the kernel, in program order. -/
inductive Event
| reg_read (pmic : Pmic) (addr : Nat)
| reg_write (pmic : Pmic) (addr : Nat) (value : Nat)
| mutex_lock (l : Lock)
| mutex_unlock (l : Lock)
| thermal_zone_device_update (tz : Zone)
| set_trip_temp (tz : Zone) (trip : Nat) (temp : Int)
| queue_delayed_work (w : Work) (delay_ms : Nat)
| mod_delayed_work (w : Work) (delay_ms : Nat)
| raw_readl (i : SUBSYSTEM_SOURCE) (offset : Nat)
| raw_writel (i : SUBSYSTEM_SOURCE) (offset : Nat) (value : Nat)
| sysreg_readl (offset : Nat)
| sysreg_writel (offset : Nat) (value : Nat)
deriving DecidableEq, Repr

/-- Whether an event is a transfer on the PMIC register bus. -/
def Event.is_bus : Event → Bool
| Event.reg_read _ _ => true
| Event.reg_write _ _ _ => true
| _ => false

/-- Whether an event is a register write. -/
def Event.is_write : Event → Bool
| Event.reg_write _ _ _ => true
| _ => false

/-! ## Header constants, environment, device record -/

/-- Constants the driver takes from headers that are not part of this source
file (`soc/google/bcl.h`, `linux/mfd/samsung/s2mpg1x-register.h`). -/
structure Header where
  THERMAL_HYST_LEVEL : Nat
  OCP_WARN_LVL_SHIFT : Nat
  SMPL_WARN_SHIFT : Nat
  SMPL_WARN_CTRL : Nat
  B3M_OCP_WARN : Nat
  B3M_SOFT_OCP_WARN : Nat
  B2M_OCP_WARN : Nat
  B2M_SOFT_OCP_WARN : Nat
  B10M_OCP_WARN : Nat
  B10M_SOFT_OCP_WARN : Nat
  B2S_OCP_WARN : Nat
  B2S_SOFT_OCP_WARN : Nat
  VD_BATTERY_VOLTAGE : Nat
  VD_LOWER_LIMIT : Nat
  VD_UPPER_LIMIT : Nat
  VD_DELAY : Nat
  BO_LOWER_LIMIT : Nat
  BO_UPPER_LIMIT : Nat

/-- Snapshot of battery state, `struct ocpsmpl_stats`. -/
structure ocpsmpl_stats where
  time : Int
  capacity : Int
  voltage : Int
deriving DecidableEq, Repr

/-- Callback table `struct bcl_ifpmic_ops`; a field is `true` when the function
pointer is not NULL. -/
structure bcl_ifpmic_ops where
  cb_get_vdroop_ok : Bool
  cb_uvlo_read : Bool
  cb_uvlo_write : Bool
  cb_batoilo_read : Bool
  cb_batoilo_write : Bool
deriving DecidableEq, Repr

/-- Answers of the external collaborators during one call of the driver. -/
structure Env where
  /-- return code of `s2mpg1x_read_reg` for a chip and address, 0 on success -/
  read_ret : Pmic → Nat → Int
  /-- return code of `s2mpg1x_write_reg` for a chip and address, 0 on success -/
  write_ret : Pmic → Nat → Int
  /-- return code of the thermal zone's `set_trip_temp` -/
  set_trip_temp_ret : Int
  /-- `ktime_to_ms(ktime_get())` -/
  ktime_ms : Int
  /-- return code and value of `power_supply_get_property(.., CAPACITY, ..)` -/
  capacity_ret : Int
  capacity_val : Int
  /-- return code and value of `power_supply_get_property(.., VOLTAGE_NOW, ..)` -/
  voltage_ret : Int
  voltage_val : Int
  /-- return code and output of the `cb_get_vdroop_ok` callback -/
  vdroop_ok_ret : Int
  vdroop_ok_val : Bool
  /-- return code and output of the `cb_uvlo_read` callback for a mode -/
  uvlo_read_ret : Source → Int
  uvlo_read_val : Source → Nat
  /-- return code of the `cb_uvlo_write` callback for a mode -/
  uvlo_write_ret : Source → Int
  /-- return code and output of the `cb_batoilo_read` callback -/
  batoilo_read_ret : Int
  batoilo_read_val : Nat
  /-- return code of the `cb_batoilo_write` callback -/
  batoilo_write_ret : Int
  /-- whether `google_get_power_supply` finds the battery power supply -/
  psy_found : Bool
  /-- whether `thermal_zone_of_sensor_register` succeeds for a zone -/
  tz_register_ok : Zone → Bool
  /-- whether `devm_ioremap` succeeds for a subsystem block, and for `SYSREG_CPUCL0_BASE` -/
  ioremap_ok : SUBSYSTEM_SOURCE → Bool
  ioremap_sysreg_ok : Bool
  /-- the device-tree properties `ppm_settings` and `mpmm_settings`, `none` when absent -/
  ppm_settings : Option Nat
  mpmm_settings : Option Nat

/-- The driver state `struct bcl_device`, with the PMIC register file `regs`,
the memory-mapped registers `iomem` behind `base_mem`, the system registers
`sysreg` behind `sysreg_cpucl0` and the call trace `trace` as ghost fields.
Pointers are `true` when not NULL; a thermal zone pointer is `true` when it
points to a registered zone. -/
structure bcl_device where
  gra_lvl : Source → Nat
  gra_cnt : Source → Int
  gra_tz_cnt : Source → Int
  gra_tz : Source → Bool
  gra_stats : Source → ocpsmpl_stats
  bcl_lvl : Source → Nat
  bcl_read_lvl : Source → Nat
  bcl_cnt : Source → Int
  bcl_tz_cnt : Source → Int
  bcl_tz : Source → Bool
  bcl_stats : Source → ocpsmpl_stats
  batt_psy : Bool
  batt_psy_initialized : Bool
  main_pmic_i2c : Bool
  sub_pmic_i2c : Bool
  intf_pmic_i2c : Bool
  pmic_ops : Option bcl_ifpmic_ops
  enabled : Bool
  gpu_clkdivstep : Nat
  tpu_clkdivstep : Nat
  base_mem : SUBSYSTEM_SOURCE → Bool
  iomem : SUBSYSTEM_SOURCE → Nat → Nat
  sysreg_cpucl0 : Bool
  sysreg : Nat → Nat
  regs : Pmic → Nat → Nat
  trace : List Event

/-- Array store `a[i] = v`. -/
def upd {β : Type} (a : Source → β) (i : Source) (v : β) : Source → β :=
  fun j => if j = i then v else a j

/-- Append one call to the trace. -/
def emit (s : bcl_device) (e : Event) : bcl_device :=
  { s with trace := s.trace ++ [e] }

/-- The zero-filled record `devm_kzalloc` returns, all registers reading 0. -/
def bcl_device.zero : bcl_device where
  gra_lvl := fun _ => 0
  gra_cnt := fun _ => 0
  gra_tz_cnt := fun _ => 0
  gra_tz := fun _ => false
  gra_stats := fun _ => ⟨0, 0, 0⟩
  bcl_lvl := fun _ => 0
  bcl_read_lvl := fun _ => 0
  bcl_cnt := fun _ => 0
  bcl_tz_cnt := fun _ => 0
  bcl_tz := fun _ => false
  bcl_stats := fun _ => ⟨0, 0, 0⟩
  batt_psy := false
  batt_psy_initialized := false
  main_pmic_i2c := false
  sub_pmic_i2c := false
  intf_pmic_i2c := false
  pmic_ops := none
  enabled := false
  gpu_clkdivstep := 0
  tpu_clkdivstep := 0
  base_mem := fun _ => false
  iomem := fun _ _ => 0
  sysreg_cpucl0 := false
  sysreg := fun _ => 0
  regs := fun _ _ => 0
  trace := []

/-! ## Register transport -/

/-- The macro `S2MPG1X_READ(pmic, bcl_dev, ret, addr, &value)`: returns `ret`,
the new content of `value` and the device. A failed transfer leaves `value`
as it was. -/
def S2MPG1X_READ (env : Env) (s : bcl_device) (pmic : Pmic) (addr : Nat) (value : Nat) :
    Int × Nat × bcl_device :=
  let s1 := emit s (Event.reg_read pmic addr)
  if env.read_ret pmic addr = 0 then (0, u8 (s.regs pmic addr), s1)
  else (env.read_ret pmic addr, value, s1)

/-- The macro `S2MPG1X_WRITE(pmic, bcl_dev, ret, addr, value)`: returns `ret`
and the device. A failed transfer leaves the register as it was. -/
def S2MPG1X_WRITE (env : Env) (s : bcl_device) (pmic : Pmic) (addr : Nat) (value : Nat) :
    Int × bcl_device :=
  let s1 := emit s (Event.reg_write pmic addr value)
  if env.write_ret pmic addr = 0 then
    (0, { s1 with regs := fun p a => if p = pmic ∧ a = addr then u8 value else s1.regs p a })
  else (env.write_ret pmic addr, s1)

/-! ## Threshold codec and programmer -/

/-- The function `get_ocp_lvl(bcl_dev, &val, addr, pmic, mask, limit, step)`:
returns the return code, the content of `*val` after the call (`val` is its
content before) and the device. `ocp_warn_lvl` is an `unsigned int`. -/
def get_ocp_lvl (env : Env) (s : bcl_device) (val : Nat) (addr : Nat) (pmic : Pmic)
    (mask limit step : Nat) : Int × Nat × bcl_device :=
  let r := S2MPG1X_READ env s pmic addr 0
  if r.1 ≠ 0 then (-EBUSY, val, r.2.2)
  else
    let value := r.2.1 &&& mask
    let ocp_warn_lvl := u32 ((limit : Int) - ((value * step : Nat) : Int))
    (0, ocp_warn_lvl, r.2.2)

/-- The function `set_ocp_lvl(bcl_dev, val, addr, pmic, mask, llimit, ulimit, step, id)`.
In `value &= ~(OCP_WARN_MASK) << OCP_WARN_LVL_SHIFT` the complement is taken
first and then shifted. `gra_tz[id]->ops->set_trip_temp` dereferences
`gra_tz[id]` before the NULL test that follows the unlock. -/
def set_ocp_lvl (env : Env) (hd : Header) (s : bcl_device) (val : Nat) (addr : Nat)
    (pmic : Pmic) (_mask llimit ulimit step : Nat) (id : Source) : Option (Int × bcl_device) :=
  if val < llimit ∨ val > ulimit then some (-EBUSY, s)
  else
    let s1 := emit s (Event.mutex_lock (Lock.gra_irq_lock id))
    let r := S2MPG1X_READ env s1 pmic addr 0
    if r.1 ≠ 0 then some (-EBUSY, emit r.2.2 (Event.mutex_unlock (Lock.gra_irq_lock id)))
    else
      let value1 := r.2.1 &&& u8 ((4294967295 - OCP_WARN_MASK) <<< hd.OCP_WARN_LVL_SHIFT)
      let value2 := u8 (value1 ||| (((ulimit - val) / step) <<< hd.OCP_WARN_LVL_SHIFT))
      let w := S2MPG1X_WRITE env r.2.2 pmic addr value2
      if w.1 = 0 then
        if w.2.gra_tz id then
          let lvl := u32 ((val : Int) - (hd.THERMAL_HYST_LEVEL : Int))
          let s2 : bcl_device := { w.2 with gra_lvl := upd w.2.gra_lvl id lvl }
          let s3 := emit s2 (Event.set_trip_temp (Zone.gra_tz id) 0 (s32 (val : Int)))
          let s4 := emit s3 (Event.mutex_unlock (Lock.gra_irq_lock id))
          some (env.set_trip_temp_ret, emit s4 (Event.thermal_zone_device_update (Zone.gra_tz id)))
        else none
      else
        let s4 := emit w.2 (Event.mutex_unlock (Lock.gra_irq_lock id))
        if s4.gra_tz id then
          some (w.1, emit s4 (Event.thermal_zone_device_update (Zone.gra_tz id)))
        else some (w.1, s4)

/-- The byte `set_ocp_lvl` hands to the register write when the register
holds `b`: the two statements `value &= ..` and `value |= ..`. -/
def set_ocp_lvl_byte (hd : Header) (b val ulimit step : Nat) : Nat :=
  u8 ((u8 b &&& u8 ((4294967295 - OCP_WARN_MASK) <<< hd.OCP_WARN_LVL_SHIFT))
    ||| (((ulimit - val) / step) <<< hd.OCP_WARN_LVL_SHIFT))

/-- The byte `smpl_lvl_store` hands to the register write when the register
holds `b`. -/
def smpl_lvl_store_byte (hd : Header) (b val : Nat) : Nat :=
  u8 ((u8 b &&& u8 (4294967295 - SMPL_WARN_MASK))
    ||| (((val - SMPL_LOWER_LIMIT) / 100) <<< hd.SMPL_WARN_SHIFT))

/-- The function `smpl_lvl_show`: the error code, or the level printed into
the buffer. -/
def smpl_lvl_show (env : Env) (hd : Header) (s : bcl_device) : Except Int Nat × bcl_device :=
  if !s.main_pmic_i2c then (Except.error (-EBUSY), s)
  else
    let r := S2MPG1X_READ env s Pmic.MAIN hd.SMPL_WARN_CTRL 0
    if r.1 ≠ 0 then (Except.error (-EINVAL), r.2.2)
    else
      let value := r.2.1 >>> hd.SMPL_WARN_SHIFT
      (Except.ok (u32 ((value * 100 + SMPL_LOWER_LIMIT : Nat) : Int)), r.2.2)

/-- The function `smpl_lvl_store` after `kstrtou32` has parsed `val`; `size`
is the length of the written buffer. -/
def smpl_lvl_store (env : Env) (hd : Header) (s : bcl_device) (val : Nat) (size : Nat) :
    Option (Int × bcl_device) :=
  if val < SMPL_LOWER_LIMIT ∨ val > SMPL_UPPER_LIMIT then some (-EINVAL, s)
  else if !s.main_pmic_i2c then some (- EIO, s)
  else
    let r := S2MPG1X_READ env s Pmic.MAIN hd.SMPL_WARN_CTRL 0
    if r.1 ≠ 0 then some (-EBUSY, r.2.2)
    else
      let value1 := r.2.1 &&& u8 (4294967295 - SMPL_WARN_MASK)
      let value2 := u8 (value1 ||| (((val - SMPL_LOWER_LIMIT) / 100) <<< hd.SMPL_WARN_SHIFT))
      let w := S2MPG1X_WRITE env r.2.2 Pmic.MAIN hd.SMPL_WARN_CTRL value2
      if w.1 ≠ 0 then some (w.1, w.2)
      else
        let lvl := u32 ((SMPL_BATTERY_VOLTAGE : Int) - (val : Int) - (hd.THERMAL_HYST_LEVEL : Int))
        let s2 : bcl_device := { w.2 with gra_lvl := upd w.2.gra_lvl Source.SMPL_WARN lvl }
        if s2.gra_tz Source.SMPL_WARN then
          let s3 := emit s2 (Event.set_trip_temp (Zone.gra_tz Source.SMPL_WARN) 0
                      (s32 ((SMPL_BATTERY_VOLTAGE : Int) - (val : Int))))
          some ((size : Int),
                emit s3 (Event.thermal_zone_device_update (Zone.gra_tz Source.SMPL_WARN)))
        else none

/-- Common body of the eight `*ocp_*_lvl_show` functions. -/
def ocp_lvl_show (env : Env) (s : bcl_device) (addr : Nat) (pmic : Pmic) (limit step : Nat) :
    Except Int Nat × bcl_device :=
  let r := get_ocp_lvl env s 0 addr pmic OCP_WARN_MASK limit step
  if r.1 < 0 then (Except.error (-EINVAL), r.2.2) else (Except.ok r.2.1, r.2.2)

def ocp_cpu1_lvl_show (env : Env) (hd : Header) (s : bcl_device) : Except Int Nat × bcl_device :=
  ocp_lvl_show env s hd.B3M_OCP_WARN Pmic.MAIN B3M_UPPER_LIMIT B3M_STEP

def ocp_cpu2_lvl_show (env : Env) (hd : Header) (s : bcl_device) : Except Int Nat × bcl_device :=
  ocp_lvl_show env s hd.B2M_OCP_WARN Pmic.MAIN B2M_UPPER_LIMIT B2M_STEP

def ocp_tpu_lvl_show (env : Env) (hd : Header) (s : bcl_device) : Except Int Nat × bcl_device :=
  ocp_lvl_show env s hd.B10M_OCP_WARN Pmic.MAIN B10M_UPPER_LIMIT B10M_STEP

def ocp_gpu_lvl_show (env : Env) (hd : Header) (s : bcl_device) : Except Int Nat × bcl_device :=
  ocp_lvl_show env s hd.B2S_OCP_WARN Pmic.SUB B2S_UPPER_LIMIT B2S_STEP

def soft_ocp_cpu1_lvl_show (env : Env) (hd : Header) (s : bcl_device) :
    Except Int Nat × bcl_device :=
  ocp_lvl_show env s hd.B3M_SOFT_OCP_WARN Pmic.MAIN B3M_UPPER_LIMIT B3M_STEP

def soft_ocp_cpu2_lvl_show (env : Env) (hd : Header) (s : bcl_device) :
    Except Int Nat × bcl_device :=
  ocp_lvl_show env s hd.B2M_SOFT_OCP_WARN Pmic.MAIN B2M_UPPER_LIMIT B2M_STEP

def soft_ocp_tpu_lvl_show (env : Env) (hd : Header) (s : bcl_device) :
    Except Int Nat × bcl_device :=
  ocp_lvl_show env s hd.B10M_SOFT_OCP_WARN Pmic.MAIN B10M_UPPER_LIMIT B10M_STEP

def soft_ocp_gpu_lvl_show (env : Env) (hd : Header) (s : bcl_device) :
    Except Int Nat × bcl_device :=
  ocp_lvl_show env s hd.B2S_SOFT_OCP_WARN Pmic.SUB B2S_UPPER_LIMIT B2S_STEP

/-- Common body of the eight `*ocp_*_lvl_store` functions after `kstrtou32`
has parsed `value`. -/
def ocp_lvl_store (env : Env) (hd : Header) (s : bcl_device) (value : Nat) (size : Nat)
    (addr : Nat) (pmic : Pmic) (llimit ulimit step : Nat) (id : Source) :
    Option (Int × bcl_device) :=
  match set_ocp_lvl env hd s value addr pmic OCP_WARN_MASK llimit ulimit step id with
  | none => none
  | some r => if r.1 < 0 then some (-EINVAL, r.2) else some ((size : Int), r.2)

def ocp_cpu1_lvl_store (env : Env) (hd : Header) (s : bcl_device) (value size : Nat) :
    Option (Int × bcl_device) :=
  ocp_lvl_store env hd s value size hd.B3M_OCP_WARN Pmic.MAIN
    B3M_LOWER_LIMIT B3M_UPPER_LIMIT B3M_STEP Source.OCP_WARN_CPUCL1

def ocp_cpu2_lvl_store (env : Env) (hd : Header) (s : bcl_device) (value size : Nat) :
    Option (Int × bcl_device) :=
  ocp_lvl_store env hd s value size hd.B2M_OCP_WARN Pmic.MAIN
    B2M_LOWER_LIMIT B2M_UPPER_LIMIT B2M_STEP Source.OCP_WARN_CPUCL2

def ocp_tpu_lvl_store (env : Env) (hd : Header) (s : bcl_device) (value size : Nat) :
    Option (Int × bcl_device) :=
  ocp_lvl_store env hd s value size hd.B10M_OCP_WARN Pmic.MAIN
    B10M_LOWER_LIMIT B10M_UPPER_LIMIT B10M_STEP Source.OCP_WARN_TPU

def ocp_gpu_lvl_store (env : Env) (hd : Header) (s : bcl_device) (value size : Nat) :
    Option (Int × bcl_device) :=
  ocp_lvl_store env hd s value size hd.B2S_OCP_WARN Pmic.SUB
    B2S_LOWER_LIMIT B2S_UPPER_LIMIT B2S_STEP Source.OCP_WARN_GPU

def soft_ocp_cpu1_lvl_store (env : Env) (hd : Header) (s : bcl_device) (value size : Nat) :
    Option (Int × bcl_device) :=
  ocp_lvl_store env hd s value size hd.B3M_SOFT_OCP_WARN Pmic.MAIN
    B3M_LOWER_LIMIT B3M_UPPER_LIMIT B3M_STEP Source.SOFT_OCP_WARN_CPUCL1

def soft_ocp_cpu2_lvl_store (env : Env) (hd : Header) (s : bcl_device) (value size : Nat) :
    Option (Int × bcl_device) :=
  ocp_lvl_store env hd s value size hd.B2M_SOFT_OCP_WARN Pmic.MAIN
    B2M_LOWER_LIMIT B2M_UPPER_LIMIT B2M_STEP Source.SOFT_OCP_WARN_CPUCL2

def soft_ocp_tpu_lvl_store (env : Env) (hd : Header) (s : bcl_device) (value size : Nat) :
    Option (Int × bcl_device) :=
  ocp_lvl_store env hd s value size hd.B10M_SOFT_OCP_WARN Pmic.MAIN
    B10M_LOWER_LIMIT B10M_UPPER_LIMIT B10M_STEP Source.SOFT_OCP_WARN_TPU

def soft_ocp_gpu_lvl_store (env : Env) (hd : Header) (s : bcl_device) (value size : Nat) :
    Option (Int × bcl_device) :=
  ocp_lvl_store env hd s value size hd.B2S_SOFT_OCP_WARN Pmic.SUB
    B2S_LOWER_LIMIT B2S_UPPER_LIMIT B2S_STEP Source.SOFT_OCP_WARN_GPU

/-- The four OCP families `(lower, upper, step)` the show and store functions
pass to the codec: B3M, B2M, B10M, B2S. -/
def ocp_families : List (Nat × Nat × Nat) :=
  [(B3M_LOWER_LIMIT, B3M_UPPER_LIMIT, B3M_STEP),
   (B2M_LOWER_LIMIT, B2M_UPPER_LIMIT, B2M_STEP),
   (B10M_LOWER_LIMIT, B10M_UPPER_LIMIT, B10M_STEP),
   (B2S_LOWER_LIMIT, B2S_UPPER_LIMIT, B2S_STEP)]

/-! ## Debounce engine of the interrupt-line rails -/

/-- The function `triggered_read_level(data, &val, id)`: return code, `*val`
and the device. `gra_lvl` is unsigned, `*val` is an `int`. -/
def triggered_read_level (hd : Header) (s : bcl_device) (id : Source) : Int × Int × bcl_device :=
  if s.gra_tz_cnt id ≠ 0 ∧ s.gra_tz_cnt id < THERMAL_IRQ_COUNTER_LIMIT then
    (0, s32 (u32 ((s.gra_lvl id : Int) + (hd.THERMAL_HYST_LEVEL : Int)) : Int),
      { s with gra_tz_cnt := upd s.gra_tz_cnt id (s.gra_tz_cnt id + 1) })
  else
    (0, s32 (s.gra_lvl id : Int), { s with gra_tz_cnt := upd s.gra_tz_cnt id 0 })

/-- The function `ocpsmpl_read_stats(bcl_dev, dst, psy)`: the content of `*dst`
after the call (`dst` is its content before) and the device. -/
def ocpsmpl_read_stats (env : Env) (s : bcl_device) (dst : ocpsmpl_stats) (psy : Bool) :
    ocpsmpl_stats × bcl_device :=
  if !psy then (dst, s)
  else
    let d1 : ocpsmpl_stats := { dst with time := env.ktime_ms }
    let r1 : ocpsmpl_stats × bcl_device :=
      if env.capacity_ret < 0 then ({ d1 with capacity := -1 }, s)
      else ({ d1 with capacity := env.capacity_val }, { s with batt_psy_initialized := true })
    if env.voltage_ret < 0 then ({ r1.1 with voltage := -1 }, r1.2)
    else ({ r1.1 with voltage := env.voltage_val }, { r1.2 with batt_psy_initialized := true })

/-- The function `irq_handler(irq, data, idx)`; it always returns `IRQ_HANDLED`.
The counter `gra_cnt` is an `atomic_t`. -/
def irq_handler (env : Env) (s : bcl_device) (idx : Source) : bcl_device :=
  let s1 :=
    if s.batt_psy_initialized then
      let s0 : bcl_device := { s with gra_cnt := upd s.gra_cnt idx (s32 (s.gra_cnt idx + 1)) }
      let r := ocpsmpl_read_stats env s0 (s0.gra_stats idx) s0.batt_psy
      { r.2 with gra_stats := upd r.2.gra_stats idx r.1 }
    else s
  if s1.gra_tz_cnt idx = 0 then
    let s2 : bcl_device := { s1 with gra_tz_cnt := upd s1.gra_tz_cnt idx (s1.gra_tz_cnt idx + 1) }
    let s3 := emit s2 (Event.queue_delayed_work (Work.gra_irq_work idx) ONE_SECOND)
    if s3.gra_tz idx then emit s3 (Event.thermal_zone_device_update (Zone.gra_tz idx))
    else s3
  else s1

/-- The device after the first block of `irq_handler`, the one guarded by
`if (bcl_dev->batt_psy_initialized)`. -/
def irq_handler_stats (env : Env) (s : bcl_device) (idx : Source) : bcl_device :=
  if s.batt_psy_initialized then
    let s0 : bcl_device := { s with gra_cnt := upd s.gra_cnt idx (s32 (s.gra_cnt idx + 1)) }
    let r := ocpsmpl_read_stats env s0 (s0.gra_stats idx) s0.batt_psy
    { r.2 with gra_stats := upd r.2.gra_stats idx r.1 }
  else s

/-- Common body of the twelve debounce work functions: `gra_tz_cnt[id] = 0`. -/
def warn_work (s : bcl_device) (id : Source) : bcl_device :=
  { s with gra_tz_cnt := upd s.gra_tz_cnt id 0 }

def google_smpl_warn_work (s : bcl_device) : bcl_device := warn_work s Source.SMPL_WARN
def google_cpu1_warn_work (s : bcl_device) : bcl_device := warn_work s Source.OCP_WARN_CPUCL1
def google_cpu2_warn_work (s : bcl_device) : bcl_device := warn_work s Source.OCP_WARN_CPUCL2
def google_soft_cpu1_warn_work (s : bcl_device) : bcl_device :=
  warn_work s Source.SOFT_OCP_WARN_CPUCL1
def google_soft_cpu2_warn_work (s : bcl_device) : bcl_device :=
  warn_work s Source.SOFT_OCP_WARN_CPUCL2
def google_tpu_warn_work (s : bcl_device) : bcl_device := warn_work s Source.OCP_WARN_TPU
def google_soft_tpu_warn_work (s : bcl_device) : bcl_device :=
  warn_work s Source.SOFT_OCP_WARN_TPU
def google_gpu_warn_work (s : bcl_device) : bcl_device := warn_work s Source.OCP_WARN_GPU
def google_soft_gpu_warn_work (s : bcl_device) : bcl_device :=
  warn_work s Source.SOFT_OCP_WARN_GPU
def google_pmic_120c_work (s : bcl_device) : bcl_device := warn_work s Source.PMIC_120C
def google_pmic_140c_work (s : bcl_device) : bcl_device := warn_work s Source.PMIC_140C
def google_pmic_overheat_work (s : bcl_device) : bcl_device :=
  warn_work s Source.PMIC_OVERHEAT

/-- The rails served by `irq_handler` and read through `triggered_read_level`. -/
def irq_rails : List Source :=
  [Source.SMPL_WARN, Source.OCP_WARN_CPUCL1, Source.OCP_WARN_CPUCL2,
   Source.SOFT_OCP_WARN_CPUCL1, Source.SOFT_OCP_WARN_CPUCL2, Source.OCP_WARN_TPU,
   Source.SOFT_OCP_WARN_TPU, Source.OCP_WARN_GPU, Source.SOFT_OCP_WARN_GPU,
   Source.PMIC_120C, Source.PMIC_140C, Source.PMIC_OVERHEAT]

/-- The debounce work function the driver defines for each interrupt-line rail
(`google_smpl_warn_work` for `SMPL_WARN`, `google_cpu1_warn_work` for
`OCP_WARN_CPUCL1`, ...); the other enumerators have none. -/
def debounce_work (s : bcl_device) : Source → bcl_device
| Source.SMPL_WARN => google_smpl_warn_work s
| Source.OCP_WARN_CPUCL1 => google_cpu1_warn_work s
| Source.OCP_WARN_CPUCL2 => google_cpu2_warn_work s
| Source.SOFT_OCP_WARN_CPUCL1 => google_soft_cpu1_warn_work s
| Source.SOFT_OCP_WARN_CPUCL2 => google_soft_cpu2_warn_work s
| Source.OCP_WARN_TPU => google_tpu_warn_work s
| Source.SOFT_OCP_WARN_TPU => google_soft_tpu_warn_work s
| Source.OCP_WARN_GPU => google_gpu_warn_work s
| Source.SOFT_OCP_WARN_GPU => google_soft_gpu_warn_work s
| Source.PMIC_120C => google_pmic_120c_work s
| Source.PMIC_140C => google_pmic_140c_work s
| Source.PMIC_OVERHEAT => google_pmic_overheat_work s
| _ => s

/-- The `get_temp` callbacks of the interrupt-line rails. -/
def smpl_warn_read_voltage (hd : Header) (s : bcl_device) : Int × Int × bcl_device :=
  triggered_read_level hd s Source.SMPL_WARN

def ocp_cpu1_read_current (hd : Header) (s : bcl_device) : Int × Int × bcl_device :=
  triggered_read_level hd s Source.OCP_WARN_CPUCL1

/-! ## Engine of the polled rails -/

/-- The function `google_bcl_miti_read_level(data, &val, id)`. -/
def google_bcl_miti_read_level (hd : Header) (s : bcl_device) (id : Source) :
    Int × Int × bcl_device :=
  let bcl_tz_cnt := s.bcl_tz_cnt id
  let bcl_lvl := s.bcl_read_lvl id
  if bcl_tz_cnt ≠ 0 ∧ bcl_tz_cnt < THERMAL_IRQ_COUNTER_LIMIT then
    (0, s32 (u32 ((bcl_lvl : Int) + (hd.THERMAL_HYST_LEVEL : Int)) : Int),
      { s with bcl_tz_cnt := upd s.bcl_tz_cnt id (bcl_tz_cnt + 1) })
  else
    (0, s32 (bcl_lvl : Int), { s with bcl_tz_cnt := upd s.bcl_tz_cnt id 0 })

def google_bcl_uvlo1_read_temp (hd : Header) (s : bcl_device) : Int × Int × bcl_device :=
  google_bcl_miti_read_level hd s Source.UVLO1

def google_bcl_uvlo2_read_temp (_hd : Header) (s : bcl_device) : Int × Int × bcl_device :=
  (0, s32 (s.bcl_read_lvl Source.UVLO2 : Int), s)

def google_bcl_batoilo_read_temp (_hd : Header) (s : bcl_device) : Int × Int × bcl_device :=
  (0, s32 (s.bcl_read_lvl Source.BATOILO : Int), s)

/-- The `get_temp` callback registered for a polled rail (`uvlo1_tz_ops`,
`uvlo2_tz_ops`, `batoilo_tz_ops`). -/
def polled_read_temp (hd : Header) (s : bcl_device) : Source → Int × Int × bcl_device
| Source.UVLO1 => google_bcl_uvlo1_read_temp hd s
| Source.UVLO2 => google_bcl_uvlo2_read_temp hd s
| Source.BATOILO => google_bcl_batoilo_read_temp hd s
| _ => (0, 0, s)

/-- The rails polled through the interface PMIC. -/
def polled_rails : List Source := [Source.UVLO1, Source.UVLO2, Source.BATOILO]

/-- The function `google_bcl_intf_pmic_enable_timer(bcl_dev, index)`. -/
def google_bcl_intf_pmic_enable_timer (hd : Header) (s : bcl_device) (index : Source) :
    bcl_device :=
  let s1 := emit s (Event.mutex_lock (Lock.bcl_irq_lock index))
  let s2 :=
    if s1.bcl_tz_cnt index = 0 then
      let s3 : bcl_device := { s1 with bcl_tz_cnt := upd s1.bcl_tz_cnt index (s1.bcl_tz_cnt index + 1) }
      if s3.bcl_tz index then
        emit { s3 with bcl_read_lvl := upd s3.bcl_read_lvl index (s3.bcl_lvl index) }
          (Event.thermal_zone_device_update (Zone.bcl_tz index))
      else s3
    else s1
  let s4 := emit s2 (Event.mod_delayed_work (Work.bcl_irq_work index) hd.VD_DELAY)
  emit s4 (Event.mutex_unlock (Lock.bcl_irq_lock index))

/-- The macro `bcl_cb_vdroop_ok(bcl, v)`: return code and `*v` (`v` is its
content before). Calling a NULL callback is `none`. -/
def bcl_cb_vdroop_ok (env : Env) (s : bcl_device) (v : Bool) : Option (Int × Bool) :=
  match s.pmic_ops with
  | some ops =>
    if s.intf_pmic_i2c then
      if ops.cb_get_vdroop_ok then
        some (env.vdroop_ok_ret, if env.vdroop_ok_ret < 0 then v else env.vdroop_ok_val)
      else none
    else some (-ENODEV, v)
  | none => some (-ENODEV, v)

/-- The function `google_bcl_intf_pmic_work(bcl_dev, idx)`. The call
`thermal_zone_device_update(bcl_dev->bcl_tz[idx], ..)` is not guarded by a
NULL test. -/
def google_bcl_intf_pmic_work (env : Env) (hd : Header) (s : bcl_device) (idx : Source) :
    Option (Int × bcl_device) :=
  let s1 := emit s (Event.mutex_lock (Lock.bcl_irq_lock idx))
  match bcl_cb_vdroop_ok env s1 false with
  | none => none
  | some (ret, vdroop_ok) =>
    if ret < 0 then some (-ENODEV, emit s1 (Event.mutex_unlock (Lock.bcl_irq_lock idx)))
    else if vdroop_ok then
      let lvl := u32 ((s1.bcl_lvl idx : Int) - (hd.THERMAL_HYST_LEVEL : Int))
      let s2 : bcl_device := { s1 with bcl_read_lvl := upd s1.bcl_read_lvl idx lvl }
      if s2.bcl_tz_cnt idx ≠ 0 then
        if s2.bcl_tz idx then
          let s3 := emit s2 (Event.thermal_zone_device_update (Zone.bcl_tz idx))
          let s4 : bcl_device := { s3 with bcl_tz_cnt := upd s3.bcl_tz_cnt idx 0 }
          some (0, emit s4 (Event.mutex_unlock (Lock.bcl_irq_lock idx)))
        else none
      else
        let s4 : bcl_device := { s2 with bcl_tz_cnt := upd s2.bcl_tz_cnt idx 0 }
        some (0, emit s4 (Event.mutex_unlock (Lock.bcl_irq_lock idx)))
    else
      let s2 : bcl_device := { s1 with bcl_read_lvl := upd s1.bcl_read_lvl idx (s1.bcl_lvl idx) }
      let s3 := emit s2 (Event.mod_delayed_work (Work.bcl_irq_work idx) hd.VD_DELAY)
      some (0, emit s3 (Event.mutex_unlock (Lock.bcl_irq_lock idx)))

/-- The function `google_bcl_irq_changed(bcl_dev, index)` for a non-NULL
`bcl_dev`. -/
def google_bcl_irq_changed (env : Env) (s : bcl_device) (index : Source) : bcl_device :=
  let s0 : bcl_device := { s with bcl_cnt := upd s.bcl_cnt index (s32 (s.bcl_cnt index + 1)) }
  let r := ocpsmpl_read_stats env s0 (s0.bcl_stats index) s0.batt_psy
  let s1 : bcl_device := { r.2 with bcl_stats := upd r.2.bcl_stats index r.1 }
  if s1.bcl_tz_cnt index = 0 then
    emit s1 (Event.mod_delayed_work (Work.bcl_intf_work index) 0)
  else s1

/-- The work functions `google_bcl_uvlo1_intf_work`, `google_bcl_uvlo2_intf_work`
and `google_bcl_batoilo_intf_work`, which `google_bcl_irq_changed` schedules. -/
def google_bcl_uvlo1_intf_work (hd : Header) (s : bcl_device) : bcl_device :=
  google_bcl_intf_pmic_enable_timer hd s Source.UVLO1

def google_bcl_uvlo2_intf_work (hd : Header) (s : bcl_device) : bcl_device :=
  google_bcl_intf_pmic_enable_timer hd s Source.UVLO2

def google_bcl_batoilo_intf_work (hd : Header) (s : bcl_device) : bcl_device :=
  google_bcl_intf_pmic_enable_timer hd s Source.BATOILO

/-- The work functions `google_bcl_uvlo1_irq_work`, `google_bcl_uvlo2_irq_work`
and `google_bcl_batoilo_irq_work`, which the enable-timer arms. -/
def google_bcl_uvlo1_irq_work (env : Env) (hd : Header) (s : bcl_device) :
    Option (Int × bcl_device) :=
  google_bcl_intf_pmic_work env hd s Source.UVLO1

def google_bcl_uvlo2_irq_work (env : Env) (hd : Header) (s : bcl_device) :
    Option (Int × bcl_device) :=
  google_bcl_intf_pmic_work env hd s Source.UVLO2

def google_bcl_batoilo_irq_work (env : Env) (hd : Header) (s : bcl_device) :
    Option (Int × bcl_device) :=
  google_bcl_intf_pmic_work env hd s Source.BATOILO

/-! ## Concrete header, environment and device used in the worked scenarios -/

/-- A sample header: margin 100, level field at bit 0 of the OCP registers and
at bit 5 of the SMPL register, battery voltage 4200 mV; the register addresses
are arbitrary distinct numbers. -/
def hdr0 : Header where
  THERMAL_HYST_LEVEL := 100
  OCP_WARN_LVL_SHIFT := 0
  SMPL_WARN_SHIFT := 5
  SMPL_WARN_CTRL := 0x68
  B3M_OCP_WARN := 0x60
  B3M_SOFT_OCP_WARN := 0x61
  B2M_OCP_WARN := 0x62
  B2M_SOFT_OCP_WARN := 0x63
  B10M_OCP_WARN := 0x64
  B10M_SOFT_OCP_WARN := 0x65
  B2S_OCP_WARN := 0x66
  B2S_SOFT_OCP_WARN := 0x67
  VD_BATTERY_VOLTAGE := 4200
  VD_LOWER_LIMIT := 2600
  VD_UPPER_LIMIT := 3350
  VD_DELAY := 300
  BO_LOWER_LIMIT := 3800
  BO_UPPER_LIMIT := 6800

/-- An environment in which every collaborator succeeds. -/
def env_ok : Env where
  read_ret := fun _ _ => 0
  write_ret := fun _ _ => 0
  set_trip_temp_ret := 0
  ktime_ms := 1000
  capacity_ret := 0
  capacity_val := 80
  voltage_ret := 0
  voltage_val := 4000000
  vdroop_ok_ret := 0
  vdroop_ok_val := true
  uvlo_read_ret := fun _ => 0
  uvlo_read_val := fun _ => 3000
  uvlo_write_ret := fun _ => 0
  batoilo_read_ret := 0
  batoilo_read_val := 5000
  batoilo_write_ret := 0
  psy_found := true
  tz_register_ok := fun _ => true
  ioremap_ok := fun _ => true
  ioremap_sysreg_ok := true
  ppm_settings := none
  mpmm_settings := none

/-- An environment whose register reads fail with `-EIO`. -/
def env_read_fail : Env := { env_ok with read_ret := fun _ _ => - EIO }

/-- An environment whose register writes fail with `-EIO`. -/
def env_write_fail : Env := { env_ok with write_ret := fun _ _ => - EIO }

/-- A probed device: all thermal zones registered, chips present, the
`ocp-cpu1` register holding `0xE0` (enable bits set, level field 0) and the
cached levels of that rail and of the polled rails initialised. -/
def dev0 : bcl_device :=
  { bcl_device.zero with
    gra_tz := fun _ => true
    bcl_tz := fun _ => true
    main_pmic_i2c := true
    sub_pmic_i2c := true
    intf_pmic_i2c := true
    pmic_ops := some ⟨true, true, true, true, true⟩
    gra_lvl := fun _ => 9500
    bcl_lvl := fun _ => 1000
    bcl_read_lvl := fun _ => 900
    regs := fun _ _ => 0xE0 }

/-- The wiring of the eight OCP level attributes: show function, chip, register
address, lower limit, upper limit and step of the family. -/
def ocp_lvl_shows :
    List ((Env → Header → bcl_device → Except Int Nat × bcl_device) × Pmic × (Header → Nat)
      × Nat × Nat × Nat) :=
  [(ocp_cpu1_lvl_show, Pmic.MAIN, Header.B3M_OCP_WARN, B3M_LOWER_LIMIT, B3M_UPPER_LIMIT, B3M_STEP),
   (ocp_cpu2_lvl_show, Pmic.MAIN, Header.B2M_OCP_WARN, B2M_LOWER_LIMIT, B2M_UPPER_LIMIT, B2M_STEP),
   (ocp_tpu_lvl_show, Pmic.MAIN, Header.B10M_OCP_WARN, B10M_LOWER_LIMIT, B10M_UPPER_LIMIT,
     B10M_STEP),
   (ocp_gpu_lvl_show, Pmic.SUB, Header.B2S_OCP_WARN, B2S_LOWER_LIMIT, B2S_UPPER_LIMIT, B2S_STEP),
   (soft_ocp_cpu1_lvl_show, Pmic.MAIN, Header.B3M_SOFT_OCP_WARN, B3M_LOWER_LIMIT, B3M_UPPER_LIMIT,
     B3M_STEP),
   (soft_ocp_cpu2_lvl_show, Pmic.MAIN, Header.B2M_SOFT_OCP_WARN, B2M_LOWER_LIMIT, B2M_UPPER_LIMIT,
     B2M_STEP),
   (soft_ocp_tpu_lvl_show, Pmic.MAIN, Header.B10M_SOFT_OCP_WARN, B10M_LOWER_LIMIT,
     B10M_UPPER_LIMIT, B10M_STEP),
   (soft_ocp_gpu_lvl_show, Pmic.SUB, Header.B2S_SOFT_OCP_WARN, B2S_LOWER_LIMIT, B2S_UPPER_LIMIT,
     B2S_STEP)]

/-- One step of the debounce engine of the interrupt-line rails as the rest of
the kernel drives it: an interrupt, a `get_temp` read by the governor, or the
expiry of a debounce work. None of them programs a threshold. -/
inductive Op
| irq (env : Env) (idx : Source)
| read (idx : Source)
| work (idx : Source)

/-- Effect of one step on the device. -/
def Op.run (hd : Header) (s : bcl_device) : Op → bcl_device
| Op.irq env idx => irq_handler env s idx
| Op.read idx => (triggered_read_level hd s idx).2.2
| Op.work idx => debounce_work s idx

/-- Effect of a sequence of steps, first step first. -/
def run_ops (hd : Header) (s : bcl_device) (ops : List Op) : bcl_device :=
  ops.foldl (Op.run hd) s

/-- The trigger path of a polled rail: `google_bcl_irq_changed`, then the
interface work it schedules, which calls `google_bcl_intf_pmic_enable_timer`. -/
def polled_trigger (env : Env) (hd : Header) (s : bcl_device) (idx : Source) : bcl_device :=
  google_bcl_intf_pmic_enable_timer hd (google_bcl_irq_changed env s idx) idx

/-- The level field of the SMPL register as `smpl_lvl_show` extracts it, after
`smpl_lvl_store` has programmed `val` on the device `s`. -/
def smpl_field_after_store (env : Env) (hd : Header) (s : bcl_device) (val : Nat) : Option Nat :=
  (smpl_lvl_store env hd s val 4).map
    (fun r => u8 (r.2.regs Pmic.MAIN hd.SMPL_WARN_CTRL) >>> hd.SMPL_WARN_SHIFT)

/-- The device `dev0` after `ocp_cpu1` has been programmed to 6000 mA. -/
def dev_6000 : bcl_device :=
  match set_ocp_lvl env_ok hdr0 dev0 6000 hdr0.B3M_OCP_WARN Pmic.MAIN OCP_WARN_MASK
      B3M_LOWER_LIMIT B3M_UPPER_LIMIT B3M_STEP Source.OCP_WARN_CPUCL1 with
  | some r => r.2
  | none => dev0

/-! ## Threshold operations of the polled rails -/

/-- The macro `bcl_cb_uvlo_read(bcl, m, v)`: return code and `*v` (`v` is its
content before). Calling a NULL callback is `none`. -/
def bcl_cb_uvlo_read (env : Env) (s : bcl_device) (m : Source) (v : Nat) : Option (Int × Nat) :=
  match s.pmic_ops with
  | some ops =>
    if s.intf_pmic_i2c then
      if ops.cb_uvlo_read then
        some (env.uvlo_read_ret m, if env.uvlo_read_ret m < 0 then v else env.uvlo_read_val m)
      else none
    else some (-ENODEV, v)
  | none => some (-ENODEV, v)

/-- The macro `bcl_cb_uvlo_write(bcl, m, v)`: the return code. -/
def bcl_cb_uvlo_write (env : Env) (s : bcl_device) (m : Source) (_v : Nat) : Option Int :=
  match s.pmic_ops with
  | some ops =>
    if s.intf_pmic_i2c then
      if ops.cb_uvlo_write then some (env.uvlo_write_ret m) else none
    else some (-ENODEV)
  | none => some (-ENODEV)

/-- The macro `bcl_cb_batoilo_read(bcl, v)`: return code and `*v`. -/
def bcl_cb_batoilo_read (env : Env) (s : bcl_device) (v : Nat) : Option (Int × Nat) :=
  match s.pmic_ops with
  | some ops =>
    if s.intf_pmic_i2c then
      if ops.cb_batoilo_read then
        some (env.batoilo_read_ret, if env.batoilo_read_ret < 0 then v else env.batoilo_read_val)
      else none
    else some (-ENODEV, v)
  | none => some (-ENODEV, v)

/-- The macro `bcl_cb_batoilo_write(bcl, v)`: the return code. -/
def bcl_cb_batoilo_write (env : Env) (s : bcl_device) (_v : Nat) : Option Int :=
  match s.pmic_ops with
  | some ops =>
    if s.intf_pmic_i2c then
      if ops.cb_batoilo_write then some env.batoilo_write_ret else none
    else some (-ENODEV)
  | none => some (-ENODEV)

/-- Common body of `uvlo1_lvl_show` and `uvlo2_lvl_show` for the mode `m`: the
error code or the level printed into the buffer, and the device. -/
def uvlo_lvl_show (env : Env) (hd : Header) (s : bcl_device) (m : Source) :
    Option (Except Int Nat × bcl_device) :=
  if !s.intf_pmic_i2c then some (Except.error (-EBUSY), s)
  else
    match bcl_cb_uvlo_read env s m 0 with
    | none => none
    | some (ret, uvlo_lvl) =>
      if ret < 0 then some (Except.error (-EINVAL), s)
      else
        let lvl := u32 ((hd.VD_BATTERY_VOLTAGE : Int) - (uvlo_lvl : Int))
        let rlvl := u32 ((hd.VD_BATTERY_VOLTAGE : Int) - (uvlo_lvl : Int)
          - (hd.THERMAL_HYST_LEVEL : Int))
        let s1 : bcl_device := { s with bcl_lvl := upd s.bcl_lvl m lvl }
        let s2 : bcl_device := { s1 with bcl_read_lvl := upd s1.bcl_read_lvl m rlvl }
        some (Except.ok uvlo_lvl, s2)

def uvlo1_lvl_show (env : Env) (hd : Header) (s : bcl_device) :
    Option (Except Int Nat × bcl_device) :=
  uvlo_lvl_show env hd s Source.UVLO1

def uvlo2_lvl_show (env : Env) (hd : Header) (s : bcl_device) :
    Option (Except Int Nat × bcl_device) :=
  uvlo_lvl_show env hd s Source.UVLO2

/-- Common body of `uvlo1_lvl_store` and `uvlo2_lvl_store` for the mode `m`, after
`kstrtou32` has parsed `value`. `bcl_tz[m]->ops->set_trip_temp` dereferences
`bcl_tz[m]` before the NULL test. -/
def uvlo_lvl_store (env : Env) (hd : Header) (s : bcl_device) (m : Source) (value size : Nat) :
    Option (Int × bcl_device) :=
  if value < hd.VD_LOWER_LIMIT ∨ value > hd.VD_UPPER_LIMIT then some (-EINVAL, s)
  else if !s.intf_pmic_i2c then some (- EIO, s)
  else
    match bcl_cb_uvlo_write env s m value with
    | none => none
    | some ret =>
      if ret < 0 then some (- EIO, s)
      else
        let lvl := u32 ((hd.VD_BATTERY_VOLTAGE : Int) - (value : Int))
        let rlvl := u32 ((hd.VD_BATTERY_VOLTAGE : Int) - (value : Int)
          - (hd.THERMAL_HYST_LEVEL : Int))
        let s1 : bcl_device := { s with bcl_lvl := upd s.bcl_lvl m lvl }
        let s2 : bcl_device := { s1 with bcl_read_lvl := upd s1.bcl_read_lvl m rlvl }
        if s2.bcl_tz m then
          let s3 := emit s2 (Event.set_trip_temp (Zone.bcl_tz m) 0 (s32 (lvl : Int)))
          some ((size : Int), emit s3 (Event.thermal_zone_device_update (Zone.bcl_tz m)))
        else none

def uvlo1_lvl_store (env : Env) (hd : Header) (s : bcl_device) (value size : Nat) :
    Option (Int × bcl_device) :=
  uvlo_lvl_store env hd s Source.UVLO1 value size

def uvlo2_lvl_store (env : Env) (hd : Header) (s : bcl_device) (value size : Nat) :
    Option (Int × bcl_device) :=
  uvlo_lvl_store env hd s Source.UVLO2 value size

/-- The function `batoilo_lvl_show`. -/
def batoilo_lvl_show (env : Env) (_hd : Header) (s : bcl_device) :
    Option (Except Int Nat × bcl_device) :=
  if !s.intf_pmic_i2c then some (Except.error (-EBUSY), s)
  else
    match bcl_cb_batoilo_read env s 0 with
    | none => none
    | some (ret, batoilo_lvl) =>
      if ret < 0 then some (Except.error (-EINVAL), s)
      else
        some (Except.ok batoilo_lvl,
          { s with bcl_lvl := upd s.bcl_lvl Source.BATOILO (u32 (batoilo_lvl : Int)) })

/-- The function `batoilo_lvl_store` after `kstrtou32` has parsed `value`. -/
def batoilo_lvl_store (env : Env) (hd : Header) (s : bcl_device) (value size : Nat) :
    Option (Int × bcl_device) :=
  if value < hd.BO_LOWER_LIMIT ∨ value > hd.BO_UPPER_LIMIT then some (-EINVAL, s)
  else
    match bcl_cb_batoilo_write env s value with
    | none => none
    | some ret =>
      if ret < 0 then some (- EIO, s)
      else
        let rlvl := u32 ((value : Int) - (hd.THERMAL_HYST_LEVEL : Int))
        let s1 : bcl_device := { s with bcl_lvl := upd s.bcl_lvl Source.BATOILO (u32 (value : Int)) }
        let s2 : bcl_device := { s1 with bcl_read_lvl := upd s1.bcl_read_lvl Source.BATOILO rlvl }
        if s2.bcl_tz Source.BATOILO then
          let s3 := emit s2 (Event.set_trip_temp (Zone.bcl_tz Source.BATOILO) 0 (s32 (value : Int)))
          some ((size : Int),
            emit s3 (Event.thermal_zone_device_update (Zone.bcl_tz Source.BATOILO)))
        else none

/-! ## The mitigation switch -/

/-- One pass of the loop body of `enable_mitigation_store` for the subsystem `i`:
`reg = __raw_readl(addr); __raw_writel(f reg, addr)` under `ratio_lock`, where
`addr = base_mem[i] + CLKDIVSTEP`. An unmapped `base_mem[i]` is `none`. -/
def clkdivstep_update (s : bcl_device) (i : SUBSYSTEM_SOURCE) (f : Nat → Nat) :
    Option bcl_device :=
  if s.base_mem i then
    let s1 := emit s (Event.mutex_lock Lock.ratio_lock)
    let reg := u32 (s1.iomem i CLKDIVSTEP : Int)
    let s2 := emit s1 (Event.raw_readl i CLKDIVSTEP)
    let s3 := emit s2 (Event.raw_writel i CLKDIVSTEP (u32 (f reg : Int)))
    let s4 : bcl_device :=
      { s3 with iomem := fun j off =>
          if j = i ∧ off = CLKDIVSTEP then u32 (f reg : Int) else s3.iomem j off }
    some (emit s4 (Event.mutex_unlock Lock.ratio_lock))
  else none

/-- The loop `for (i = 0; i < TPU; i++)` of `enable_mitigation_store`, which
visits `CPU0`, `CPU1`, `CPU2`. -/
def clkdivstep_loop (s : bcl_device) (f : Nat → Nat) : Option bcl_device :=
  (clkdivstep_update s SUBSYSTEM_SOURCE.CPU0 f).bind fun s1 =>
  (clkdivstep_update s1 SUBSYSTEM_SOURCE.CPU1 f).bind fun s2 =>
  clkdivstep_update s2 SUBSYSTEM_SOURCE.CPU2 f

/-- The function `enable_mitigation_store` after `kstrtobool` has parsed `value`.
`x | 0x1` sets and `x & ~(1 << 0)` clears bit 0 of a 32-bit word. -/
def enable_mitigation_store (s : bcl_device) (value : Bool) (size : Nat) :
    Option (Int × bcl_device) :=
  if s.enabled = value then some ((size : Int), s)
  else
    let s1 : bcl_device := { s with enabled := value }
    if s1.enabled then
      let s2 : bcl_device := { s1 with gpu_clkdivstep := u32 ((s1.gpu_clkdivstep ||| 1 : Nat) : Int) }
      let s3 : bcl_device := { s2 with tpu_clkdivstep := u32 ((s2.tpu_clkdivstep ||| 1 : Nat) : Int) }
      (clkdivstep_loop s3 (fun reg => reg ||| 1)).map fun s4 => ((size : Int), s4)
    else
      let s2 : bcl_device :=
        { s1 with gpu_clkdivstep := u32 ((s1.gpu_clkdivstep &&& 4294967294 : Nat) : Int) }
      let s3 : bcl_device :=
        { s2 with tpu_clkdivstep := u32 ((s2.tpu_clkdivstep &&& 4294967294 : Nat) : Int) }
      (clkdivstep_loop s3 (fun reg => reg &&& 4294967294)).map fun s4 => ((size : Int), s4)

/-! ## Counting calls in the trace, bursts of interrupts -/

/-- Number of governor notifications (`thermal_zone_device_update`) for the zone
of the interrupt-line rail `idx` recorded in a trace. -/
def notify_count (idx : Source) (tr : List Event) : Nat :=
  tr.count (Event.thermal_zone_device_update (Zone.gra_tz idx))

/-- Number of times the debounce work of the rail `idx` was armed
(`queue_delayed_work(system_wq, &gra_irq_work[idx], ONE_SECOND)`) in a trace. -/
def arm_count (idx : Source) (tr : List Event) : Nat :=
  tr.count (Event.queue_delayed_work (Work.gra_irq_work idx) ONE_SECOND)

/-- Whether a step is a governor read. -/
def Op.is_read : Op → Bool
| Op.read _ => true
| _ => false

/-- Whether a step is an interrupt of the rail `idx` or a governor read of it. -/
def Op.on_rail (idx : Source) : Op → Bool
| Op.irq _ j => decide (j = idx)
| Op.read j => decide (j = idx)
| Op.work _ => false

/-- A burst of interrupts of one rail, one environment per interrupt, with no
debounce work and no read in between. -/
def irq_burst (s : bcl_device) (idx : Source) (envs : List Env) : bcl_device :=
  envs.foldl (fun t e => irq_handler e t idx) s

/-- The snapshot `ocpsmpl_read_stats` takes when the power supply answers as in
`env`: a failed query stores -1. -/
def snapshot_of (env : Env) : ocpsmpl_stats :=
  { time := env.ktime_ms
    capacity := if env.capacity_ret < 0 then -1 else env.capacity_val
    voltage := if env.voltage_ret < 0 then -1 else env.voltage_val }

/-! ## Further fixtures -/

/-- The device `dev0` with the power supply found and telemetry initialised. -/
def dev_batt : bcl_device :=
  { dev0 with batt_psy := true, batt_psy_initialized := true }

/-- The device `dev0` with the five register blocks mapped, mitigation enabled
and clock-divider words with bit 0 set. -/
def dev_clk : bcl_device :=
  { dev0 with
    enabled := true
    base_mem := fun _ => true
    gpu_clkdivstep := 0x41
    tpu_clkdivstep := 0x43
    iomem := fun _ _ => 0x45 }

/-- A later moment, with a lower battery reading. -/
def env_later : Env :=
  { env_ok with ktime_ms := 1100, capacity_val := 79, voltage_val := 3900000 }

/-- An environment whose power-supply property queries fail. -/
def env_no_telemetry : Env := { env_ok with capacity_ret := -22, voltage_ret := -22 }

/-- An environment whose interface-PMIC write callbacks fail. -/
def env_cb_write_fail : Env :=
  { env_ok with uvlo_write_ret := fun _ => -5, batoilo_write_ret := -5 }

/-- An environment in which the droop condition is still present. -/
def env_droop : Env := { env_ok with vdroop_ok_val := false }

/-! ## Locks, repeated reads -/

/-- The locks a trace takes, in program order. -/
def locks_taken (tr : List Event) : List Lock :=
  tr.filterMap fun e =>
    match e with
    | Event.mutex_lock l => some l
    | _ => none

/-- The outputs `*val` of `n` successive `triggered_read_level` calls on the rail
`idx`, first call first, and the device they leave. -/
def read_seq (hd : Header) (idx : Source) : Nat → bcl_device → List Int × bcl_device
| 0, s => ([], s)
| n + 1, s =>
  let r := triggered_read_level hd s idx
  let rest := read_seq hd idx n r.2.2
  (r.2.1 :: rest.1, rest.2)

/-! ## Registration of the interface PMIC and its deferred initialisation -/

/-- The function `google_bcl_register_ifpmic(bcl_dev, pmic_ops)`: the return code
and the device; a NULL pointer is `none`. -/
def google_bcl_register_ifpmic (bcl_dev : Option bcl_device) (pmic_ops : Option bcl_ifpmic_ops) :
    Int × Option bcl_device :=
  match bcl_dev with
  | none => (- EIO, none)
  | some s =>
    match pmic_ops with
    | none => (-EINVAL, some s)
    | some ops =>
      if !ops.cb_get_vdroop_ok || !ops.cb_uvlo_read || !ops.cb_uvlo_write ||
          !ops.cb_batoilo_read || !ops.cb_batoilo_write then (-EINVAL, some s)
      else (0, some { s with pmic_ops := some ops })

/-- Registration of the thermal zone `bcl_tz[m]` of a polled rail in
`google_set_intf_pmic_work`. On success the field points to the zone, which is
enabled and updated. On failure `thermal_zone_of_sensor_register` leaves an error
pointer in the field, which is not a zone: it is recorded as `false`, so that the
later dereferences of the field (`bcl_tz[m]->ops->set_trip_temp` in the stores,
`thermal_zone_device_update(bcl_tz[m], ..)` in the poll work) fault in the model
as they do on the error pointer. The record does not tell an error pointer from
NULL: the test `if (bcl_dev->bcl_tz[index])` of
`google_bcl_intf_pmic_enable_timer`, which an error pointer passes, is embedded
for a field that is NULL or a registered zone, and every statement about that
function on a registered zone carries the hypothesis `bcl_tz index = true`. -/
def register_bcl_tz (env : Env) (s : bcl_device) (m : Source) : bcl_device :=
  if env.tz_register_ok (Zone.bcl_tz m) then
    emit { s with bcl_tz := upd s.bcl_tz m true }
      (Event.thermal_zone_device_update (Zone.bcl_tz m))
  else { s with bcl_tz := upd s.bcl_tz m false }

/-- The label `retry_init_work` of `google_set_intf_pmic_work`. -/
def retry_init_work (s : bcl_device) : bcl_device :=
  emit s (Event.queue_delayed_work Work.init_work THERMAL_DELAY_INIT_MS)

/-- The function `google_set_intf_pmic_work(work)`. Calls without effect on the
modelled state (`power_supply_reg_notifier`, `thermal_zone_device_enable`, the
assignments to `bcl_ops[PMIC_SOC]`) are left out. Calling a NULL callback is
`none`. -/
def google_set_intf_pmic_work (env : Env) (hd : Header) (s : bcl_device) : Option bcl_device :=
  if !s.intf_pmic_i2c then some (retry_init_work s)
  else
    match s.pmic_ops with
    | none => some (retry_init_work s)
    | some ops =>
      if !ops.cb_uvlo_read then some (retry_init_work s)
      else
        match bcl_cb_uvlo_read env s Source.UVLO1 0 with
        | none => none
        | some (r1, uvlo1_lvl) =>
          if r1 < 0 then some (retry_init_work s)
          else
            match bcl_cb_uvlo_read env s Source.UVLO2 0 with
            | none => none
            | some (r2, uvlo2_lvl) =>
              if r2 < 0 then some (retry_init_work s)
              else
                match bcl_cb_batoilo_read env s 0 with
                | none => none
                | some (r3, batoilo_lvl) =>
                  if r3 < 0 then some (retry_init_work s)
                  else
                    let s1 : bcl_device := { s with batt_psy := env.psy_found }
                    let s2 : bcl_device :=
                      if env.tz_register_ok (Zone.bcl_tz Source.PMIC_SOC) then
                        emit { s1 with bcl_tz := upd s1.bcl_tz Source.PMIC_SOC true }
                          (Event.thermal_zone_device_update (Zone.bcl_tz Source.PMIC_SOC))
                      else { s1 with bcl_tz := upd s1.bcl_tz Source.PMIC_SOC false }
                    let s3 : bcl_device := { s2 with batt_psy_initialized := false }
                    let l1 := u32 ((hd.VD_BATTERY_VOLTAGE : Int) - (uvlo1_lvl : Int))
                    let l2 := u32 ((hd.VD_BATTERY_VOLTAGE : Int) - (uvlo2_lvl : Int))
                    let l3 := u32 (batoilo_lvl : Int)
                    let lvls := upd (upd (upd s3.bcl_lvl Source.UVLO1 l1) Source.UVLO2 l2)
                      Source.BATOILO l3
                    let s4 : bcl_device := { s3 with bcl_lvl := lvls }
                    let rl1 := u32 ((s4.bcl_lvl Source.UVLO1 : Int) - (hd.THERMAL_HYST_LEVEL : Int))
                    let rl2 := u32 ((s4.bcl_lvl Source.UVLO2 : Int) - (hd.THERMAL_HYST_LEVEL : Int))
                    let rl3 := u32 ((s4.bcl_lvl Source.BATOILO : Int)
                      - (hd.THERMAL_HYST_LEVEL : Int))
                    let rlvls := upd (upd (upd s4.bcl_read_lvl Source.UVLO1 rl1) Source.UVLO2 rl2)
                      Source.BATOILO rl3
                    let s5 : bcl_device := { s4 with bcl_read_lvl := rlvls }
                    some (register_bcl_tz env (register_bcl_tz env
                      (register_bcl_tz env s5 Source.UVLO1) Source.UVLO2) Source.BATOILO)

/-- Consecutive runs of `google_set_intf_pmic_work`, one environment per run. -/
def init_attempts (hd : Header) : List Env → bcl_device → Option bcl_device
| [], s => some s
| e :: es, s => (google_set_intf_pmic_work e hd s).bind (init_attempts hd es)

/-- Whether a run of `google_set_intf_pmic_work` ends at `retry_init_work`: the
interface chip or the callback table is missing, the `cb_uvlo_read` callback is
missing, or one of the three level reads fails. -/
def init_attempt_fails (env : Env) (s : bcl_device) : Bool :=
  !s.intf_pmic_i2c ||
  match s.pmic_ops with
  | none => true
  | some ops =>
    !ops.cb_uvlo_read || decide (env.uvlo_read_ret Source.UVLO1 < 0) ||
    decide (env.uvlo_read_ret Source.UVLO2 < 0) ||
    (ops.cb_batoilo_read && decide (env.batoilo_read_ret < 0))

/-- Number of times `init_work` was queued with the delay `THERMAL_DELAY_INIT_MS`
in a trace. -/
def init_arm_count (tr : List Event) : Nat :=
  tr.count (Event.queue_delayed_work Work.init_work THERMAL_DELAY_INIT_MS)

/-- The trace after `n` consecutive runs of `google_set_intf_pmic_work` under the
same environment (empty if a run faults). -/
def init_retry_trace (hd : Header) (env : Env) (s : bcl_device) (n : Nat) : List Event :=
  match init_attempts hd (List.replicate n env) s with
  | some t => t.trace
  | none => []

/-- The relation the driver sets up between the reported and the cached level
of a polled rail: `bcl_read_lvl[i]` is `bcl_lvl[i]` or
`bcl_lvl[i] - THERMAL_HYST_LEVEL` (unsigned). -/
def lvl_inv (hd : Header) (s : bcl_device) (i : Source) : Bool :=
  decide (s.bcl_read_lvl i = s.bcl_lvl i) ||
  decide (s.bcl_read_lvl i = u32 ((s.bcl_lvl i : Int) - (hd.THERMAL_HYST_LEVEL : Int)))

/-! ## Cached levels computed from the platform data -/

/-- The level fields of `struct s2mpg10_platform_data` (declared in a header that
is not part of this source file) read by `google_set_main_pmic`. -/
structure s2mpg10_platform_data where
  smpl_warn_lvl : Nat
  b3_ocp_warn_lvl : Nat
  b3_soft_ocp_warn_lvl : Nat
  b2_ocp_warn_lvl : Nat
  b2_soft_ocp_warn_lvl : Nat
  b10_ocp_warn_lvl : Nat
  b10_soft_ocp_warn_lvl : Nat

/-- The level fields of `struct s2mpg11_platform_data` read by
`google_set_sub_pmic`. -/
structure s2mpg11_platform_data where
  b2_ocp_warn_lvl : Nat
  b2_soft_ocp_warn_lvl : Nat

/-- The seven assignments `bcl_dev->gra_lvl[..] = ..` of `google_set_main_pmic`,
in program order; they are reached once the main PMIC device has been found. -/
def google_set_main_pmic_gra_lvl (hd : Header) (pdata_main : s2mpg10_platform_data)
    (s : bcl_device) : bcl_device :=
  let g1 := upd s.gra_lvl Source.SMPL_WARN
    (u32 ((SMPL_BATTERY_VOLTAGE : Int)
      - ((pdata_main.smpl_warn_lvl * SMPL_STEP + SMPL_LOWER_LIMIT : Nat) : Int)))
  let g2 := upd g1 Source.OCP_WARN_CPUCL1
    (u32 ((B3M_UPPER_LIMIT : Int) - (hd.THERMAL_HYST_LEVEL : Int)
      - ((pdata_main.b3_ocp_warn_lvl * B3M_STEP : Nat) : Int)))
  let g3 := upd g2 Source.SOFT_OCP_WARN_CPUCL1
    (u32 ((B3M_UPPER_LIMIT : Int) - (hd.THERMAL_HYST_LEVEL : Int)
      - ((pdata_main.b3_soft_ocp_warn_lvl * B3M_STEP : Nat) : Int)))
  let g4 := upd g3 Source.OCP_WARN_CPUCL2
    (u32 ((B2M_UPPER_LIMIT : Int) - (hd.THERMAL_HYST_LEVEL : Int)
      - ((pdata_main.b2_ocp_warn_lvl * B2M_STEP : Nat) : Int)))
  let g5 := upd g4 Source.SOFT_OCP_WARN_CPUCL2
    (u32 ((B2M_UPPER_LIMIT : Int) - (hd.THERMAL_HYST_LEVEL : Int)
      - ((pdata_main.b2_soft_ocp_warn_lvl * B2M_STEP : Nat) : Int)))
  let g6 := upd g5 Source.OCP_WARN_TPU
    (u32 ((B10M_UPPER_LIMIT : Int) - (hd.THERMAL_HYST_LEVEL : Int)
      - ((pdata_main.b10_ocp_warn_lvl * B10M_STEP : Nat) : Int)))
  let g7 := upd g6 Source.SOFT_OCP_WARN_TPU
    (u32 ((B10M_UPPER_LIMIT : Int) - (hd.THERMAL_HYST_LEVEL : Int)
      - ((pdata_main.b10_soft_ocp_warn_lvl * B10M_STEP : Nat) : Int)))
  { s with gra_lvl := g7 }

/-- The two assignments `bcl_dev->gra_lvl[..] = ..` of `google_set_sub_pmic`. -/
def google_set_sub_pmic_gra_lvl (hd : Header) (pdata_sub : s2mpg11_platform_data)
    (s : bcl_device) : bcl_device :=
  let g1 := upd s.gra_lvl Source.OCP_WARN_GPU
    (u32 ((B2S_UPPER_LIMIT : Int) - (hd.THERMAL_HYST_LEVEL : Int)
      - ((pdata_sub.b2_ocp_warn_lvl * B2S_STEP : Nat) : Int)))
  let g2 := upd g1 Source.SOFT_OCP_WARN_GPU
    (u32 ((B2S_UPPER_LIMIT : Int) - (hd.THERMAL_HYST_LEVEL : Int)
      - ((pdata_sub.b2_soft_ocp_warn_lvl * B2S_STEP : Nat) : Int)))
  { s with gra_lvl := g2 }

/-- The wiring of the eight OCP rails: rail, chip, register address, limits and
step of the family, and the platform level field of the rail. -/
def ocp_rails : List (Source × Pmic × (Header → Nat) × Nat × Nat × Nat ×
    (s2mpg10_platform_data → s2mpg11_platform_data → Nat)) :=
  [(Source.OCP_WARN_CPUCL1, Pmic.MAIN, Header.B3M_OCP_WARN, B3M_LOWER_LIMIT, B3M_UPPER_LIMIT,
     B3M_STEP, fun m _ => m.b3_ocp_warn_lvl),
   (Source.SOFT_OCP_WARN_CPUCL1, Pmic.MAIN, Header.B3M_SOFT_OCP_WARN, B3M_LOWER_LIMIT,
     B3M_UPPER_LIMIT, B3M_STEP, fun m _ => m.b3_soft_ocp_warn_lvl),
   (Source.OCP_WARN_CPUCL2, Pmic.MAIN, Header.B2M_OCP_WARN, B2M_LOWER_LIMIT, B2M_UPPER_LIMIT,
     B2M_STEP, fun m _ => m.b2_ocp_warn_lvl),
   (Source.SOFT_OCP_WARN_CPUCL2, Pmic.MAIN, Header.B2M_SOFT_OCP_WARN, B2M_LOWER_LIMIT,
     B2M_UPPER_LIMIT, B2M_STEP, fun m _ => m.b2_soft_ocp_warn_lvl),
   (Source.OCP_WARN_TPU, Pmic.MAIN, Header.B10M_OCP_WARN, B10M_LOWER_LIMIT, B10M_UPPER_LIMIT,
     B10M_STEP, fun m _ => m.b10_ocp_warn_lvl),
   (Source.SOFT_OCP_WARN_TPU, Pmic.MAIN, Header.B10M_SOFT_OCP_WARN, B10M_LOWER_LIMIT,
     B10M_UPPER_LIMIT, B10M_STEP, fun m _ => m.b10_soft_ocp_warn_lvl),
   (Source.OCP_WARN_GPU, Pmic.SUB, Header.B2S_OCP_WARN, B2S_LOWER_LIMIT, B2S_UPPER_LIMIT,
     B2S_STEP, fun _ b => b.b2_ocp_warn_lvl),
   (Source.SOFT_OCP_WARN_GPU, Pmic.SUB, Header.B2S_SOFT_OCP_WARN, B2S_LOWER_LIMIT,
     B2S_UPPER_LIMIT, B2S_STEP, fun _ b => b.b2_soft_ocp_warn_lvl)]

/-! ## The system registers at probe time -/

/-- One `devm_ioremap` of `google_bcl_init_instruction` into `base_mem[i]`. -/
def map_base_mem (env : Env) (s : bcl_device) (i : SUBSYSTEM_SOURCE) : bcl_device :=
  { s with base_mem := fun j => if j = i then env.ioremap_ok i else s.base_mem j }

/-- The statements `reg = __raw_readl(sysreg_cpucl0 + off); reg |= mask;
__raw_writel(reg, sysreg_cpucl0 + off)` on a 32-bit word. -/
def sysreg_set_bits (s : bcl_device) (off mask : Nat) : bcl_device :=
  let reg := u32 (s.sysreg off : Int)
  let s1 := emit s (Event.sysreg_readl off)
  let v := u32 ((reg ||| mask : Nat) : Int)
  let s2 := emit s1 (Event.sysreg_writel off v)
  { s2 with sysreg := fun o => if o = off then v else s2.sysreg o }

/-- The statement `__raw_writel(v, sysreg_cpucl0 + off)`. -/
def sysreg_write (s : bcl_device) (off v : Nat) : bcl_device :=
  let s1 := emit s (Event.sysreg_writel off v)
  { s1 with sysreg := fun o => if o = off then v else s1.sysreg o }

/-- The function `google_bcl_init_instruction(bcl_dev)` for a non-NULL `bcl_dev`:
return code and device. -/
def google_bcl_init_instruction (env : Env) (s : bcl_device) : Int × bcl_device :=
  let s0 := map_base_mem env s SUBSYSTEM_SOURCE.CPU0
  if !s0.base_mem SUBSYSTEM_SOURCE.CPU0 then (- EIO, s0)
  else
    let s1 := map_base_mem env s0 SUBSYSTEM_SOURCE.CPU1
    if !s1.base_mem SUBSYSTEM_SOURCE.CPU1 then (- EIO, s1)
    else
      let s2 := map_base_mem env s1 SUBSYSTEM_SOURCE.CPU2
      if !s2.base_mem SUBSYSTEM_SOURCE.CPU2 then (- EIO, s2)
      else
        let s3 := map_base_mem env s2 SUBSYSTEM_SOURCE.TPU
        if !s3.base_mem SUBSYSTEM_SOURCE.TPU then (- EIO, s3)
        else
          let s4 := map_base_mem env s3 SUBSYSTEM_SOURCE.GPU
          if !s4.base_mem SUBSYSTEM_SOURCE.GPU then (- EIO, s4)
          else
            let s5 : bcl_device := { s4 with sysreg_cpucl0 := env.ioremap_sysreg_ok }
            if !s5.sysreg_cpucl0 then (- EIO, s5)
            else
              let s6 := emit s5 (Event.mutex_lock Lock.sysreg_lock)
              let s7 := sysreg_set_bits s6 CLUSTER0_GENERAL_CTRL_64 MPMMEN_MASK
              let s8 := sysreg_set_bits s7 CLUSTER0_PPM PPMEN_MASK
              (0, emit s8 (Event.mutex_unlock Lock.sysreg_lock))

/-- The result of `of_property_read_u32(np, name, &val)` as used by
`google_set_throttling`: `ret ? 0 : val`. -/
def property_or_zero (p : Option Nat) : Nat :=
  match p with
  | some v => u32 (v : Int)
  | none => 0

/-- The function `google_set_throttling(bcl_dev)`. -/
def google_set_throttling (env : Env) (s : bcl_device) : bcl_device :=
  if !s.sysreg_cpucl0 then s
  else
    let ppm_settings := property_or_zero env.ppm_settings
    let mpmm_settings := property_or_zero env.mpmm_settings
    let s1 := emit s (Event.mutex_lock Lock.sysreg_lock)
    let s2 := sysreg_write s1 CLUSTER0_PPM ppm_settings
    let s3 := sysreg_write s2 CLUSTER0_MPMM mpmm_settings
    emit s3 (Event.mutex_unlock Lock.sysreg_lock)

/-- The first two calls of `google_bcl_probe`: `google_bcl_init_instruction`,
and `google_set_throttling` unless the former failed
(`goto bcl_soc_probe_exit`). -/
def probe_instruction (env : Env) (s : bcl_device) : Int × bcl_device :=
  let r := google_bcl_init_instruction env s
  if r.1 < 0 then r else (0, google_set_throttling env r.2)

/-! ## Fixtures of the later scenarios -/

/-- The probed device without the interface chip. -/
def dev_no_chip : bcl_device := { dev0 with intf_pmic_i2c := false }

/-- The probed device after a successful run of `google_set_intf_pmic_work`
that read 3000 mV for both UVLO levels and 5000 mA for BATOILO. -/
def dev_polled : bcl_device :=
  match google_set_intf_pmic_work env_ok hdr0 dev0 with
  | some t => t
  | none => dev0

/-- An environment in which the BATOILO level reads 5200 mA. -/
def env_batoilo_5200 : Env := { env_ok with batoilo_read_val := 5200 }

/-- Platform data with every level field 3. -/
def pdata_main0 : s2mpg10_platform_data := ⟨3, 3, 3, 3, 3, 3, 3⟩

def pdata_sub0 : s2mpg11_platform_data := ⟨3, 3⟩

/-- An environment whose device tree enables PPM (bits 8 and 9) with control
value 0x1a. -/
def env_ppm : Env := { env_ok with ppm_settings := some 0x31a }

/-- A device whose `SMPL_WARN` occurrence counter stands at `INT_MAX`, telemetry
initialised. -/
def dev_cnt_max : bcl_device :=
  { dev_batt with gra_cnt := fun _ => 2147483647, bcl_cnt := fun _ => 2147483647 }

end GoogleBcl

/-! ## Helper lemmas: machine integers and bit fields -/

namespace GoogleBcl

theorem testBit_small (x n i : Nat) (hx : x < 2 ^ n) (hi : n ≤ i) : x.testBit i = false :=
  Nat.testBit_lt_two_pow (lt_of_lt_of_le hx (Nat.pow_le_pow_right (by decide) hi))

/-- Reading back a 5-bit field that was ORed under the cleared low bits. -/
theorem field_low (b f : Nat) (hf : f < 32) : ((b &&& 224) ||| f) &&& 31 = f := by
  apply Nat.eq_of_testBit_eq
  intro i
  simp only [Nat.testBit_and, Nat.testBit_or]
  by_cases hi : i < 5
  · interval_cases i <;> simp [Nat.testBit]
  · have h1 : Nat.testBit 31 i = false := testBit_small 31 5 i (by decide) (by omega)
    have h2 : Nat.testBit f i = false := testBit_small f 5 i (by simpa using hf) (by omega)
    simp [h1, h2]

theorem field_low_lt (b f : Nat) (hb : b < 256) (hf : f < 32) : ((b &&& 224) ||| f) < 256 := by
  have h1 : b &&& 224 < 2 ^ 8 := lt_of_le_of_lt Nat.and_le_left (by simpa using hb)
  have h2 : f < 2 ^ 8 := by omega
  simpa using Nat.or_lt_two_pow h1 h2

/-- Reading back a field that was ORed at bit 5 above the kept low bits. -/
theorem field_high (b f : Nat) : ((b &&& 31) ||| (f <<< 5)) >>> 5 = f := by
  apply Nat.eq_of_testBit_eq
  intro i
  simp only [Nat.testBit_shiftRight, Nat.testBit_or, Nat.testBit_and, Nat.testBit_shiftLeft]
  have h1 : Nat.testBit 31 (5 + i) = false := testBit_small 31 5 (5 + i) (by decide) (by omega)
  simp [h1]

theorem field_high_lt (b f : Nat) (hf : f < 8) : ((b &&& 31) ||| (f <<< 5)) < 256 := by
  have h1 : b &&& 31 < 2 ^ 8 := lt_of_le_of_lt Nat.and_le_right (by decide)
  have h2 : f <<< 5 < 2 ^ 8 := by rw [Nat.shiftLeft_eq]; omega
  simpa using Nat.or_lt_two_pow h1 h2

theorem u32_natCast (x : Nat) (h : x < 4294967296) : u32 (x : Int) = x := by
  unfold u32
  rw [Int.emod_eq_of_lt (by omega) (by omega)]
  simp

theorem s32_natCast (x : Nat) (h : x < 2147483648) : s32 (x : Int) = x := by
  unfold s32
  omega

theorem u8_lt (x : Nat) : u8 x < 256 := by
  unfold u8; omega

theorem u8_of_lt (x : Nat) (h : x < 256) : u8 x = x := by
  unfold u8; omega

theorem u8_u8 (x : Nat) : u8 (u8 x) = u8 x := by
  unfold u8; omega

/-- The constants of the four OCP families. -/
theorem ocp_families_cases (l u st : Nat) (h : (l, u, st) ∈ ocp_families) :
    (l = 3400 ∧ u = 9600 ∧ st = 200) ∨ (l = 5100 ∧ u = 14400 ∧ st = 300) := by
  simp [ocp_families, B3M_LOWER_LIMIT, B3M_UPPER_LIMIT, B3M_STEP, B2M_LOWER_LIMIT,
    B2M_UPPER_LIMIT, B2M_STEP, B10M_LOWER_LIMIT, B10M_UPPER_LIMIT, B10M_STEP,
    B2S_LOWER_LIMIT, B2S_UPPER_LIMIT, B2S_STEP] at h
  omega

/-- The encoded field of an in-range level fits in five bits. -/
theorem ocp_field_le (l u st v : Nat) (h : (l, u, st) ∈ ocp_families) (hl : l ≤ v) :
    (u - v) / st ≤ 31 := by
  rcases ocp_families_cases l u st h with ⟨h1, h2, h3⟩ | ⟨h1, h2, h3⟩ <;> subst h1 h2 h3 <;> omega

/-! ## Helper lemmas: the threshold programmer -/

/-- What a call of `set_ocp_lvl` that returns 0 went through. -/
theorem set_ocp_lvl_zero_inv (env : Env) (hd : Header) (s s1 : bcl_device) (val addr : Nat)
    (pmic : Pmic) (m ll ul st : Nat) (id : Source)
    (h : set_ocp_lvl env hd s val addr pmic m ll ul st id = some (0, s1)) :
    ll ≤ val ∧ val ≤ ul ∧ env.read_ret pmic addr = 0 ∧ env.write_ret pmic addr = 0 ∧
    s.gra_tz id = true ∧ env.set_trip_temp_ret = 0 ∧
    s1.regs pmic addr = set_ocp_lvl_byte hd (s.regs pmic addr) val ul st ∧
    s1.gra_lvl id = u32 ((val : Int) - (hd.THERMAL_HYST_LEVEL : Int)) ∧
    s1.gra_tz_cnt = s.gra_tz_cnt ∧ s1.gra_tz = s.gra_tz := by
  unfold set_ocp_lvl at h
  by_cases hr : val < ll ∨ val > ul
  · simp [hr, EBUSY] at h
  · by_cases hrd : env.read_ret pmic addr = 0
    · by_cases hwr : env.write_ret pmic addr = 0
      · by_cases htz : s.gra_tz id = true
        · simp [hr, hrd, hwr, htz, S2MPG1X_READ, S2MPG1X_WRITE, emit] at h
          obtain ⟨h0, h1⟩ := h
          subst h1
          simp [set_ocp_lvl_byte, upd, h0, hrd, hwr, htz, u8_u8]
          omega
        · simp [hr, hrd, hwr, htz, S2MPG1X_READ, S2MPG1X_WRITE, emit] at h
      · simp [hr, hrd, hwr, S2MPG1X_READ, S2MPG1X_WRITE, emit] at h
        split_ifs at h <;> simp at h <;> omega
    · simp [hr, hrd, S2MPG1X_READ, emit, EBUSY] at h

end GoogleBcl

namespace GoogleBcl

/-- With the level field at bit 0, the byte written by `set_ocp_lvl` keeps the
three high bits of the old byte and carries the encoded level in its low five. -/
theorem set_ocp_lvl_byte_shift0 (hd : Header) (b v u st : Nat)
    (hshift : hd.OCP_WARN_LVL_SHIFT = 0) (hf : (u - v) / st ≤ 31) :
    set_ocp_lvl_byte hd b v u st = (u8 b &&& 224) ||| ((u - v) / st) ∧
    set_ocp_lvl_byte hd b v u st &&& OCP_WARN_MASK = (u - v) / st := by
  have h224 : u8 ((4294967295 - OCP_WARN_MASK) <<< 0) = 224 := by decide
  have hlt := field_low_lt (u8 b) ((u - v) / st) (u8_lt b) (by omega)
  have e : set_ocp_lvl_byte hd b v u st = (u8 b &&& 224) ||| ((u - v) / st) := by
    unfold set_ocp_lvl_byte
    rw [hshift, h224, Nat.shiftLeft_zero, u8_of_lt _ hlt]
  refine ⟨e, ?_⟩
  rw [e]
  exact field_low (u8 b) ((u - v) / st) (by omega)

/-- What `get_ocp_lvl` returns after a successful register read. -/
theorem get_ocp_lvl_read_ok (env : Env) (s : bcl_device) (out addr : Nat) (pmic : Pmic)
    (mask limit step : Nat) (hrd : env.read_ret pmic addr = 0) :
    get_ocp_lvl env s out addr pmic mask limit step =
      (0, u32 ((limit : Int) - (((u8 (s.regs pmic addr) &&& mask) * step : Nat) : Int)),
        emit s (Event.reg_read pmic addr)) := by
  simp [get_ocp_lvl, S2MPG1X_READ, hrd]

/-- What `get_ocp_lvl` returns after a failed register read. -/
theorem get_ocp_lvl_read_fail (env : Env) (s : bcl_device) (out addr : Nat) (pmic : Pmic)
    (mask limit step : Nat) (hrd : env.read_ret pmic addr ≠ 0) :
    get_ocp_lvl env s out addr pmic mask limit step =
      (-EBUSY, out, emit s (Event.reg_read pmic addr)) := by
  simp [get_ocp_lvl, S2MPG1X_READ, hrd]

/-- Decoding a field of at most 31 steps stays between the family limits. -/
theorem ocp_decode_bounds (l u st f : Nat) (h : (l, u, st) ∈ ocp_families) (hf : f ≤ 31) :
    l ≤ u32 ((u : Int) - ((f * st : Nat) : Int)) ∧ u32 ((u : Int) - ((f * st : Nat) : Int)) ≤ u ∧
    u32 ((u : Int) - ((f * st : Nat) : Int)) = u - f * st := by
  have hst : f * st ≤ u ∧ l ≤ u - f * st ∧ u < 4294967296 := by
    rcases ocp_families_cases l u st h with ⟨h1, h2, h3⟩ | ⟨h1, h2, h3⟩ <;> subst h1 h2 h3 <;> omega
  have e : u32 ((u : Int) - ((f * st : Nat) : Int)) = u - f * st := by
    rw [← Nat.cast_sub hst.1]
    exact u32_natCast _ (by omega)
  rw [e]
  omega

/-! ## C1 : quantization bound of set_ocp_lvl followed by get_ocp_lvl -/

/-- C1: for each of the four OCP families and every level `v`, if `set_ocp_lvl v`
returns 0 (which forces `v` to be in range), a following `get_ocp_lvl` on the same
register whose bus read succeeds returns 0 and the level
`upper - ((upper - v) / step) * step`; that level `w` satisfies `v ≤ w < v + step`,
and `w = v` whenever `step` divides `upper - v`. The level field sits at bit 0. -/
theorem set_ocp_lvl_get_ocp_lvl_quantized (env env2 : Env) (hd : Header) (s s1 : bcl_device)
    (v out addr : Nat) (pmic : Pmic) (id : Source) (lower upper step : Nat)
    (hfam : (lower, upper, step) ∈ ocp_families)
    (hshift : hd.OCP_WARN_LVL_SHIFT = 0)
    (hset : set_ocp_lvl env hd s v addr pmic OCP_WARN_MASK lower upper step id = some (0, s1))
    (hrd : env2.read_ret pmic addr = 0) :
    (get_ocp_lvl env2 s1 out addr pmic OCP_WARN_MASK upper step).1 = 0 ∧
    (get_ocp_lvl env2 s1 out addr pmic OCP_WARN_MASK upper step).2.1
      = upper - ((upper - v) / step) * step ∧
    v ≤ (get_ocp_lvl env2 s1 out addr pmic OCP_WARN_MASK upper step).2.1 ∧
    (get_ocp_lvl env2 s1 out addr pmic OCP_WARN_MASK upper step).2.1 < v + step ∧
    (step ∣ (upper - v) →
      (get_ocp_lvl env2 s1 out addr pmic OCP_WARN_MASK upper step).2.1 = v) := by
  obtain ⟨hl, hu, -, -, -, -, hreg, -, -, -⟩ :=
    set_ocp_lvl_zero_inv env hd s s1 v addr pmic OCP_WARN_MASK lower upper step id hset
  have hf := ocp_field_le lower upper step v hfam hl
  have hb := set_ocp_lvl_byte_shift0 hd (s.regs pmic addr) v upper step hshift hf
  have hlt : set_ocp_lvl_byte hd (s.regs pmic addr) v upper step < 256 := u8_lt _
  rw [get_ocp_lvl_read_ok env2 s1 out addr pmic OCP_WARN_MASK upper step hrd]
  simp only [hreg, u8_of_lt _ hlt, hb.2]
  have hd3 := (ocp_decode_bounds lower upper step ((upper - v) / step) hfam hf).2.2
  simp only [hd3, true_and]
  rcases ocp_families_cases lower upper step hfam with ⟨h1, h2, h3⟩ | ⟨h1, h2, h3⟩ <;>
    subst h1 h2 h3 <;> refine ⟨?_, ?_, ?_⟩ <;> omega

/-- C1 witness: B3M, `v = 6000` on `ocp_cpu1`; the register field becomes 18 and
the level reads back as 6000. -/
theorem set_ocp_lvl_get_ocp_lvl_quantized_witness :
    set_ocp_lvl env_ok hdr0 dev0 6000 hdr0.B3M_OCP_WARN Pmic.MAIN OCP_WARN_MASK
      B3M_LOWER_LIMIT B3M_UPPER_LIMIT B3M_STEP Source.OCP_WARN_CPUCL1 = some (0, dev_6000) ∧
    dev_6000.regs Pmic.MAIN hdr0.B3M_OCP_WARN &&& OCP_WARN_MASK = 18 ∧
    (get_ocp_lvl env_ok dev_6000 0 hdr0.B3M_OCP_WARN Pmic.MAIN OCP_WARN_MASK
      B3M_UPPER_LIMIT B3M_STEP).2.1 = 6000 :=
  ⟨rfl, by decide,
   (set_ocp_lvl_get_ocp_lvl_quantized env_ok env_ok hdr0 dev0 dev_6000 6000 0 hdr0.B3M_OCP_WARN
      Pmic.MAIN Source.OCP_WARN_CPUCL1 B3M_LOWER_LIMIT B3M_UPPER_LIMIT B3M_STEP
      (by simp [ocp_families]) rfl rfl rfl).2.2.2.2 (by decide)⟩

end GoogleBcl

namespace GoogleBcl

/-! ## C2 : out-of-range requests are rejected before any hardware access -/

/-- The state `set_ocp_lvl` reaches on its successful path. -/
theorem set_ocp_lvl_ok (env : Env) (hd : Header) (s : bcl_device) (val addr : Nat)
    (pmic : Pmic) (m ll ul st : Nat) (id : Source) (hl : ll ≤ val) (hu : val ≤ ul)
    (hrd : env.read_ret pmic addr = 0) (hwr : env.write_ret pmic addr = 0)
    (htz : s.gra_tz id = true) :
    ∃ s1, set_ocp_lvl env hd s val addr pmic m ll ul st id = some (env.set_trip_temp_ret, s1) ∧
      s1.gra_lvl = upd s.gra_lvl id (u32 ((val : Int) - (hd.THERMAL_HYST_LEVEL : Int))) ∧
      s1.regs pmic addr = set_ocp_lvl_byte hd (s.regs pmic addr) val ul st ∧
      s1.gra_tz_cnt = s.gra_tz_cnt ∧ s1.gra_tz = s.gra_tz ∧
      s1.trace = s.trace ++ [Event.mutex_lock (Lock.gra_irq_lock id), Event.reg_read pmic addr,
        Event.reg_write pmic addr (set_ocp_lvl_byte hd (s.regs pmic addr) val ul st),
        Event.set_trip_temp (Zone.gra_tz id) 0 (s32 (val : Int)),
        Event.mutex_unlock (Lock.gra_irq_lock id),
        Event.thermal_zone_device_update (Zone.gra_tz id)] := by
  have hr : ¬ (val < ll ∨ val > ul) := by omega
  simp [set_ocp_lvl, hr, hrd, hwr, htz, S2MPG1X_READ, S2MPG1X_WRITE, emit, set_ocp_lvl_byte,
    u8_u8]

/-- Every in-range call of `set_ocp_lvl` that returns takes the lock and issues
the register read. -/
theorem set_ocp_lvl_in_range_reads (env : Env) (hd : Header) (s : bcl_device) (val addr : Nat)
    (pmic : Pmic) (m ll ul st : Nat) (id : Source) (hl : ll ≤ val) (hu : val ≤ ul)
    (r : Int × bcl_device) (h : set_ocp_lvl env hd s val addr pmic m ll ul st id = some r) :
    ∃ rest, r.2.trace = s.trace ++
      [Event.mutex_lock (Lock.gra_irq_lock id), Event.reg_read pmic addr] ++ rest := by
  have hr : ¬ (val < ll ∨ val > ul) := by omega
  unfold set_ocp_lvl at h
  simp only [hr, if_false] at h
  by_cases hrd : env.read_ret pmic addr = 0
  · by_cases hwr : env.write_ret pmic addr = 0
    · by_cases htz : s.gra_tz id = true
      · simp [hrd, hwr, htz, S2MPG1X_READ, S2MPG1X_WRITE, emit] at h
        subst h
        exact ⟨_, by simp; rfl⟩
      · simp [hrd, hwr, htz, S2MPG1X_READ, S2MPG1X_WRITE, emit] at h
    · by_cases htz : s.gra_tz id = true
      · simp [hrd, hwr, htz, S2MPG1X_READ, S2MPG1X_WRITE, emit] at h
        subst h
        exact ⟨_, by simp; rfl⟩
      · simp [hrd, hwr, htz, S2MPG1X_READ, S2MPG1X_WRITE, emit] at h
        subst h
        exact ⟨_, by simp; rfl⟩
  · simp [hrd, S2MPG1X_READ, emit] at h
    subst h
    exact ⟨_, by simp; rfl⟩

/-- C2 (as amended): a value below `llimit` or above `ulimit` makes `set_ocp_lvl`
return the negative error `-EBUSY` with the device exactly as it was (no register
read or write in the trace, no change of `gra_lvl` or of any other field), and a
value outside [2600, 3300] makes `smpl_lvl_store` return `-EINVAL` in the same
way. A value inside `[llimit, ulimit]` is not rejected by the range check: every
call that returns has taken the lock and issued the register read, and when the
bus read and write succeed on a registered zone the call returns the code of the
zone's `set_trip_temp`, which is 0 exactly when the zone accepts the trip point. -/
theorem range_check_rejects_before_hardware (env : Env) (hd : Header) (s : bcl_device)
    (val size addr : Nat) (pmic : Pmic) (mask llimit ulimit step : Nat) (id : Source) :
    ((val < llimit ∨ val > ulimit) →
      set_ocp_lvl env hd s val addr pmic mask llimit ulimit step id = some (-EBUSY, s) ∧
      -EBUSY < 0) ∧
    ((val < SMPL_LOWER_LIMIT ∨ val > SMPL_UPPER_LIMIT) →
      smpl_lvl_store env hd s val size = some (-EINVAL, s) ∧ -EINVAL < 0) ∧
    (llimit ≤ val → val ≤ ulimit →
      (∀ r, set_ocp_lvl env hd s val addr pmic mask llimit ulimit step id = some r →
        ∃ rest, r.2.trace = s.trace ++
          [Event.mutex_lock (Lock.gra_irq_lock id), Event.reg_read pmic addr] ++ rest) ∧
      (env.read_ret pmic addr = 0 → env.write_ret pmic addr = 0 → s.gra_tz id = true →
        ∃ s1, set_ocp_lvl env hd s val addr pmic mask llimit ulimit step id
          = some (env.set_trip_temp_ret, s1)) ∧
      (env.read_ret pmic addr = 0 → env.write_ret pmic addr = 0 → s.gra_tz id = true →
        env.set_trip_temp_ret = 0 →
        ∃ s1, set_ocp_lvl env hd s val addr pmic mask llimit ulimit step id = some (0, s1))) := by
  refine ⟨?_, ?_, ?_⟩
  · intro h
    exact ⟨by simp [set_ocp_lvl, h], by decide⟩
  · intro h
    exact ⟨by simp [smpl_lvl_store, h], by decide⟩
  · intro hl hu
    refine ⟨fun r h => set_ocp_lvl_in_range_reads env hd s val addr pmic mask llimit ulimit
      step id hl hu r h, ?_, ?_⟩
    · intro hrd hwr htz
      obtain ⟨s1, h1, -⟩ :=
        set_ocp_lvl_ok env hd s val addr pmic mask llimit ulimit step id hl hu hrd hwr htz
      exact ⟨s1, h1⟩
    · intro hrd hwr htz h0
      obtain ⟨s1, h1, -⟩ :=
        set_ocp_lvl_ok env hd s val addr pmic mask llimit ulimit step id hl hu hrd hwr htz
      exact ⟨s1, by rw [h1, h0]⟩

/-- C2 witness: 3000 mA on B3M (lower limit 3400) is rejected and the device,
register and cached level included, is unchanged; 2000 mV is rejected by
`smpl_lvl_store`; the boundary value 3400 mA is accepted and returns 0. -/
theorem range_check_rejects_before_hardware_witness :
    (3000 < B3M_LOWER_LIMIT ∨ 3000 > B3M_UPPER_LIMIT) ∧
    set_ocp_lvl env_ok hdr0 dev_6000 3000 hdr0.B3M_OCP_WARN Pmic.MAIN OCP_WARN_MASK
      B3M_LOWER_LIMIT B3M_UPPER_LIMIT B3M_STEP Source.OCP_WARN_CPUCL1
      = some (-EBUSY, dev_6000) ∧
    smpl_lvl_store env_ok hdr0 dev_6000 2000 4 = some (-EINVAL, dev_6000) ∧
    (∃ s1, set_ocp_lvl env_ok hdr0 dev_6000 3400 hdr0.B3M_OCP_WARN Pmic.MAIN OCP_WARN_MASK
      B3M_LOWER_LIMIT B3M_UPPER_LIMIT B3M_STEP Source.OCP_WARN_CPUCL1 = some (0, s1)) :=
  ⟨by decide,
   ((range_check_rejects_before_hardware env_ok hdr0 dev_6000 3000 4 hdr0.B3M_OCP_WARN Pmic.MAIN
      OCP_WARN_MASK B3M_LOWER_LIMIT B3M_UPPER_LIMIT B3M_STEP Source.OCP_WARN_CPUCL1).1
      (by decide)).1,
   ((range_check_rejects_before_hardware env_ok hdr0 dev_6000 2000 4 hdr0.B3M_OCP_WARN Pmic.MAIN
      OCP_WARN_MASK B3M_LOWER_LIMIT B3M_UPPER_LIMIT B3M_STEP Source.OCP_WARN_CPUCL1).2.1
      (by decide)).1,
   ((range_check_rejects_before_hardware env_ok hdr0 dev_6000 3400 4 hdr0.B3M_OCP_WARN Pmic.MAIN
      OCP_WARN_MASK B3M_LOWER_LIMIT B3M_UPPER_LIMIT B3M_STEP Source.OCP_WARN_CPUCL1).2.2
      (by decide) (by decide)).2.2 rfl rfl rfl rfl⟩

/-- C2 counterexample: 6000 mA is inside [3400, 9600] and the register read and
write of `ocp_cpu1` both succeed on the registered zone, but the zone's
`set_trip_temp` answers `-EINVAL`: `set_ocp_lvl` returns -22, not 0, after it has
written the byte 0xF2 to the register and cached 5900. -/
theorem in_range_call_returns_trip_code :
    (B3M_LOWER_LIMIT ≤ 6000 ∧ 6000 ≤ B3M_UPPER_LIMIT) ∧
    env_ok.read_ret Pmic.MAIN hdr0.B3M_OCP_WARN = 0 ∧
    env_ok.write_ret Pmic.MAIN hdr0.B3M_OCP_WARN = 0 ∧
    dev0.gra_tz Source.OCP_WARN_CPUCL1 = true ∧
    (set_ocp_lvl { env_ok with set_trip_temp_ret := -22 } hdr0 dev0 6000 hdr0.B3M_OCP_WARN
        Pmic.MAIN OCP_WARN_MASK B3M_LOWER_LIMIT B3M_UPPER_LIMIT B3M_STEP
        Source.OCP_WARN_CPUCL1).map
        (fun r => (r.1, r.2.regs Pmic.MAIN hdr0.B3M_OCP_WARN,
          r.2.gra_lvl Source.OCP_WARN_CPUCL1))
      = some (-22, 242, 5900) := by
  refine ⟨by decide, rfl, rfl, rfl, ?_⟩
  decide

end GoogleBcl

namespace GoogleBcl

/-! ## C3 : get_ocp_lvl decodes the register byte -/

/-- C3: when the register read succeeds and delivers the byte `b`, `get_ocp_lvl`
returns 0 and stores `limit - (b & mask) * step`, computed as an `unsigned int`,
into `*val`; this is the mathematical difference whenever `(b & mask) * step`
does not exceed `limit`. When the read fails it returns `-EBUSY` and leaves
`*val` as it was. The return value is non-zero exactly when the read fails. -/
theorem get_ocp_lvl_decodes (env : Env) (s : bcl_device) (out addr : Nat) (pmic : Pmic)
    (mask limit step b : Nat) (hb : b < 256) (hreg : s.regs pmic addr = b) :
    (env.read_ret pmic addr = 0 →
      (get_ocp_lvl env s out addr pmic mask limit step).1 = 0 ∧
      (get_ocp_lvl env s out addr pmic mask limit step).2.1
        = u32 ((limit : Int) - (((b &&& mask) * step : Nat) : Int)) ∧
      ((b &&& mask) * step ≤ limit → limit < 4294967296 →
        (get_ocp_lvl env s out addr pmic mask limit step).2.1 = limit - (b &&& mask) * step)) ∧
    (env.read_ret pmic addr ≠ 0 →
      (get_ocp_lvl env s out addr pmic mask limit step).1 = -EBUSY ∧
      (get_ocp_lvl env s out addr pmic mask limit step).2.1 = out) ∧
    ((get_ocp_lvl env s out addr pmic mask limit step).1 ≠ 0 ↔ env.read_ret pmic addr ≠ 0) := by
  have hb8 : u8 (s.regs pmic addr) = b := by rw [hreg]; exact u8_of_lt b hb
  refine ⟨?_, ?_, ?_⟩
  · intro hrd
    rw [get_ocp_lvl_read_ok env s out addr pmic mask limit step hrd, hb8]
    refine ⟨rfl, rfl, ?_⟩
    intro hle hlim
    show u32 ((limit : Int) - (((b &&& mask) * step : Nat) : Int)) = limit - (b &&& mask) * step
    rw [← Nat.cast_sub hle]
    exact u32_natCast _ (by omega)
  · intro hrd
    rw [get_ocp_lvl_read_fail env s out addr pmic mask limit step hrd]
    exact ⟨rfl, rfl⟩
  · by_cases hrd : env.read_ret pmic addr = 0
    · rw [get_ocp_lvl_read_ok env s out addr pmic mask limit step hrd]
      simp [hrd]
    · rw [get_ocp_lvl_read_fail env s out addr pmic mask limit step hrd]
      simp [hrd, EBUSY]

/-- C3 witness: the byte 242 of `ocp_cpu1` decodes to `9600 - 18 * 200 = 6000`, and
a failing read leaves the output cell at its old content 77. -/
theorem get_ocp_lvl_decodes_witness :
    dev_6000.regs Pmic.MAIN hdr0.B3M_OCP_WARN = 242 ∧
    (get_ocp_lvl env_ok dev_6000 77 hdr0.B3M_OCP_WARN Pmic.MAIN OCP_WARN_MASK
      B3M_UPPER_LIMIT B3M_STEP).2.1 = B3M_UPPER_LIMIT - (242 &&& OCP_WARN_MASK) * B3M_STEP ∧
    (get_ocp_lvl env_read_fail dev_6000 77 hdr0.B3M_OCP_WARN Pmic.MAIN OCP_WARN_MASK
      B3M_UPPER_LIMIT B3M_STEP).2.1 = 77 :=
  ⟨rfl,
   ((get_ocp_lvl_decodes env_ok dev_6000 77 hdr0.B3M_OCP_WARN Pmic.MAIN OCP_WARN_MASK
      B3M_UPPER_LIMIT B3M_STEP 242 (by decide) rfl).1 rfl).2.2 (by decide) (by decide),
   ((get_ocp_lvl_decodes env_read_fail dev_6000 77 hdr0.B3M_OCP_WARN Pmic.MAIN OCP_WARN_MASK
      B3M_UPPER_LIMIT B3M_STEP 242 (by decide) rfl).2.1 (by decide)).2⟩

/-! ## C4 : decoded OCP levels stay within the family limits -/

/-- C4: for each of the four OCP families and every register content, the level
`get_ocp_lvl` decodes under `OCP_WARN_MASK` lies in `[lower, upper]` and equals
`upper - (b & 0x1F) * step` without unsigned underflow, and each of the eight
OCP `*_lvl_show` functions prints such a level whenever its register read
succeeds. The largest masked field, 31, is `(upper - lower) / step` in each family. -/
theorem ocp_lvl_show_within_limits (env : Env) (hd : Header) (s : bcl_device) :
    (∀ lower upper step, (lower, upper, step) ∈ ocp_families →
      (upper - lower) / step = OCP_WARN_MASK) ∧
    (∀ lower upper step, (lower, upper, step) ∈ ocp_families →
      ∀ (out addr : Nat) (pmic : Pmic), env.read_ret pmic addr = 0 →
        (u8 (s.regs pmic addr) &&& OCP_WARN_MASK) * step ≤ upper ∧
        (get_ocp_lvl env s out addr pmic OCP_WARN_MASK upper step).2.1
          = upper - (u8 (s.regs pmic addr) &&& OCP_WARN_MASK) * step ∧
        lower ≤ (get_ocp_lvl env s out addr pmic OCP_WARN_MASK upper step).2.1 ∧
        (get_ocp_lvl env s out addr pmic OCP_WARN_MASK upper step).2.1 ≤ upper) ∧
    (∀ e ∈ ocp_lvl_shows, env.read_ret e.2.1 (e.2.2.1 hd) = 0 →
      (e.2.2.2.1, e.2.2.2.2.1, e.2.2.2.2.2) ∈ ocp_families ∧
      ∃ v, (e.1 env hd s).1 = Except.ok v ∧ e.2.2.2.1 ≤ v ∧ v ≤ e.2.2.2.2.1 ∧
        v = e.2.2.2.2.1 - (u8 (s.regs e.2.1 (e.2.2.1 hd)) &&& OCP_WARN_MASK) * e.2.2.2.2.2) := by
  have key : ∀ lower upper step, (lower, upper, step) ∈ ocp_families →
      ∀ (out addr : Nat) (pmic : Pmic), env.read_ret pmic addr = 0 →
        (u8 (s.regs pmic addr) &&& OCP_WARN_MASK) * step ≤ upper ∧
        (get_ocp_lvl env s out addr pmic OCP_WARN_MASK upper step).2.1
          = upper - (u8 (s.regs pmic addr) &&& OCP_WARN_MASK) * step ∧
        lower ≤ (get_ocp_lvl env s out addr pmic OCP_WARN_MASK upper step).2.1 ∧
        (get_ocp_lvl env s out addr pmic OCP_WARN_MASK upper step).2.1 ≤ upper := by
    intro lower upper step hfam out addr pmic hrd
    have hf : u8 (s.regs pmic addr) &&& OCP_WARN_MASK ≤ 31 := Nat.and_le_right
    have hbd := ocp_decode_bounds lower upper step _ hfam hf
    rw [get_ocp_lvl_read_ok env s out addr pmic OCP_WARN_MASK upper step hrd]
    refine ⟨?_, hbd.2.2, hbd.1, hbd.2.1⟩
    rcases ocp_families_cases lower upper step hfam with ⟨h1, h2, h3⟩ | ⟨h1, h2, h3⟩ <;>
      subst h1 h2 h3 <;> omega
  refine ⟨?_, key, ?_⟩
  · intro lower upper step hfam
    rcases ocp_families_cases lower upper step hfam with ⟨h1, h2, h3⟩ | ⟨h1, h2, h3⟩ <;>
      subst h1 h2 h3 <;> decide
  intro e he hrd
  have hmem : (e.2.2.2.1, e.2.2.2.2.1, e.2.2.2.2.2) ∈ ocp_families := by
    simp only [ocp_lvl_shows, List.mem_cons, List.mem_nil_iff, or_false] at he
    rcases he with h | h | h | h | h | h | h | h <;> subst h <;> simp [ocp_families]
  refine ⟨hmem, ?_⟩
  have hk := key _ _ _ hmem 0 (e.2.2.1 hd) e.2.1 hrd
  have hz : (get_ocp_lvl env s 0 (e.2.2.1 hd) e.2.1 OCP_WARN_MASK e.2.2.2.2.1 e.2.2.2.2.2).1 = 0 := by
    rw [get_ocp_lvl_read_ok env s 0 _ _ OCP_WARN_MASK _ _ hrd]
  have hshow : (e.1 env hd s).1 = Except.ok
      (get_ocp_lvl env s 0 (e.2.2.1 hd) e.2.1 OCP_WARN_MASK e.2.2.2.2.1 e.2.2.2.2.2).2.1 := by
    simp only [ocp_lvl_shows, List.mem_cons, List.mem_nil_iff, or_false] at he
    rcases he with h | h | h | h | h | h | h | h <;> subst h <;>
      simp [ocp_cpu1_lvl_show, ocp_cpu2_lvl_show, ocp_tpu_lvl_show, ocp_gpu_lvl_show,
        soft_ocp_cpu1_lvl_show, soft_ocp_cpu2_lvl_show, soft_ocp_tpu_lvl_show,
        soft_ocp_gpu_lvl_show, ocp_lvl_show] at hz ⊢ <;> simp [hz]
  exact ⟨_, hshow, hk.2.2.1, hk.2.2.2, hk.2.1⟩

/-- C4 witness: with the all-ones byte 255 in the register, `ocp_cpu1_lvl_show`
prints the lower limit 3400 of B3M. -/
theorem ocp_lvl_show_within_limits_witness :
    (ocp_cpu1_lvl_show env_ok hdr0 { dev0 with regs := fun _ _ => 255 }).1 = Except.ok 3400 ∧
    ∃ v, (ocp_cpu1_lvl_show env_ok hdr0 { dev0 with regs := fun _ _ => 255 }).1 = Except.ok v ∧
      B3M_LOWER_LIMIT ≤ v ∧ v ≤ B3M_UPPER_LIMIT ∧
      v = B3M_UPPER_LIMIT - (u8 255 &&& OCP_WARN_MASK) * B3M_STEP :=
  ⟨rfl,
   ((ocp_lvl_show_within_limits env_ok hdr0 { dev0 with regs := fun _ _ => 255 }).2.2
      (ocp_cpu1_lvl_show, Pmic.MAIN, Header.B3M_OCP_WARN, B3M_LOWER_LIMIT, B3M_UPPER_LIMIT,
        B3M_STEP) (by simp [ocp_lvl_shows]) rfl).2⟩

end GoogleBcl

namespace GoogleBcl

/-! ## C5 : the encoded level field fits the five-bit mask -/

/-- C5: for each of the four OCP families and every `val` in `[lower, upper]`, with
the level field at bit 0, a call of `set_ocp_lvl` whose register read succeeds
on a registered zone issues the write of the old byte's three high bits ORed
with the field `(upper - val) / step` (truncating division); the field is at
most 31, so under the mask `0x1F` the written byte reads back as exactly that
field, and so does the register once the write succeeds. -/
theorem set_ocp_lvl_field_fits_mask (env : Env) (hd : Header) (s : bcl_device)
    (val addr : Nat) (pmic : Pmic) (id : Source) (lower upper step : Nat)
    (hfam : (lower, upper, step) ∈ ocp_families)
    (hshift : hd.OCP_WARN_LVL_SHIFT = 0)
    (hl : lower ≤ val) (hu : val ≤ upper)
    (hrd : env.read_ret pmic addr = 0) (htz : s.gra_tz id = true) :
    (upper - val) / step ≤ 31 ∧
    ((u8 (s.regs pmic addr) &&& 224) ||| ((upper - val) / step)) &&& OCP_WARN_MASK
      = (upper - val) / step ∧
    ∃ r, set_ocp_lvl env hd s val addr pmic OCP_WARN_MASK lower upper step id = some r ∧
      (∃ rest, r.2.trace = s.trace ++
        [Event.mutex_lock (Lock.gra_irq_lock id), Event.reg_read pmic addr,
         Event.reg_write pmic addr ((u8 (s.regs pmic addr) &&& 224) ||| ((upper - val) / step))]
        ++ rest) ∧
      (env.write_ret pmic addr = 0 →
        r.2.regs pmic addr &&& OCP_WARN_MASK = (upper - val) / step) := by
  have hf := ocp_field_le lower upper step val hfam hl
  have hb := set_ocp_lvl_byte_shift0 hd (s.regs pmic addr) val upper step hshift hf
  have hr : ¬ (val < lower ∨ val > upper) := by omega
  refine ⟨hf, ?_, ?_⟩
  · rw [← hb.1]; exact hb.2
  · by_cases hwr : env.write_ret pmic addr = 0
    · obtain ⟨s1, h1, -, h3, -, -, h6⟩ :=
        set_ocp_lvl_ok env hd s val addr pmic OCP_WARN_MASK lower upper step id hl hu hrd hwr htz
      refine ⟨_, h1, ⟨[Event.set_trip_temp (Zone.gra_tz id) 0 (s32 (val : Int)),
        Event.mutex_unlock (Lock.gra_irq_lock id),
        Event.thermal_zone_device_update (Zone.gra_tz id)], ?_⟩, ?_⟩
      · rw [h6, hb.1]; simp
      · intro _
        show s1.regs pmic addr &&& OCP_WARN_MASK = (upper - val) / step
        rw [h3]; exact hb.2
    · have e : set_ocp_lvl env hd s val addr pmic OCP_WARN_MASK lower upper step id
          = some (env.write_ret pmic addr,
              { s with trace := s.trace ++ [Event.mutex_lock (Lock.gra_irq_lock id),
                  Event.reg_read pmic addr,
                  Event.reg_write pmic addr (set_ocp_lvl_byte hd (s.regs pmic addr) val upper step),
                  Event.mutex_unlock (Lock.gra_irq_lock id),
                  Event.thermal_zone_device_update (Zone.gra_tz id)] }) := by
        simp [set_ocp_lvl, hr, hrd, hwr, htz, S2MPG1X_READ, S2MPG1X_WRITE, emit,
          set_ocp_lvl_byte]
      refine ⟨_, e, ⟨[Event.mutex_unlock (Lock.gra_irq_lock id),
        Event.thermal_zone_device_update (Zone.gra_tz id)], ?_⟩, ?_⟩
      · simp only []
        rw [hb.1]; simp
      · intro h; exact absurd h hwr

/-- C5 witness: on B3M, `val = 6000` is encoded as the field `(9600 - 6000) / 200 = 18`. -/
theorem set_ocp_lvl_field_fits_mask_witness :
    (B3M_UPPER_LIMIT - 6000) / B3M_STEP = 18 ∧
    ((u8 (dev0.regs Pmic.MAIN hdr0.B3M_OCP_WARN) &&& 224) ||| ((B3M_UPPER_LIMIT - 6000) / B3M_STEP))
      &&& OCP_WARN_MASK = (B3M_UPPER_LIMIT - 6000) / B3M_STEP :=
  ⟨by decide,
   (set_ocp_lvl_field_fits_mask env_ok hdr0 dev0 6000 hdr0.B3M_OCP_WARN Pmic.MAIN
      Source.OCP_WARN_CPUCL1 B3M_LOWER_LIMIT B3M_UPPER_LIMIT B3M_STEP (by simp [ocp_families])
      rfl (by decide) (by decide) rfl rfl).2.1⟩

/-! ## C7 : transport failures leave the cached level alone -/

/-- C7: for an in-range request, if the register read fails `set_ocp_lvl` returns
the error `-EBUSY`, issues no register write (the trace gains only lock, read,
unlock) and leaves every field of the device, `gra_lvl` included, as it was; if the
read succeeds and the write fails it returns the non-zero transport code and
again only the trace changes. Whatever the request, a call whose result has a
different `gra_lvl` had both transfers succeed and stored `val - THERMAL_HYST_LEVEL`
(as an `unsigned int`) in `gra_lvl[id]` and nowhere else; and when both succeed on
a registered zone that store does happen. -/
theorem set_ocp_lvl_transport_failure_keeps_level (env : Env) (hd : Header) (s : bcl_device)
    (val addr : Nat) (pmic : Pmic) (mask llimit ulimit step : Nat) (id : Source) :
    (llimit ≤ val → val ≤ ulimit → env.read_ret pmic addr ≠ 0 →
      set_ocp_lvl env hd s val addr pmic mask llimit ulimit step id
        = some (-EBUSY, { s with trace := s.trace ++ [Event.mutex_lock (Lock.gra_irq_lock id),
            Event.reg_read pmic addr, Event.mutex_unlock (Lock.gra_irq_lock id)] }) ∧
      -EBUSY ≠ 0) ∧
    (llimit ≤ val → val ≤ ulimit → env.read_ret pmic addr = 0 →
      env.write_ret pmic addr ≠ 0 →
      ∃ tr, set_ocp_lvl env hd s val addr pmic mask llimit ulimit step id
        = some (env.write_ret pmic addr, { s with trace := tr })) ∧
    (∀ r, set_ocp_lvl env hd s val addr pmic mask llimit ulimit step id = some r →
      r.2.gra_lvl ≠ s.gra_lvl →
      env.read_ret pmic addr = 0 ∧ env.write_ret pmic addr = 0 ∧
      r.2.gra_lvl = upd s.gra_lvl id (u32 ((val : Int) - (hd.THERMAL_HYST_LEVEL : Int)))) ∧
    (llimit ≤ val → val ≤ ulimit → env.read_ret pmic addr = 0 →
      env.write_ret pmic addr = 0 → s.gra_tz id = true →
      ∃ s1, set_ocp_lvl env hd s val addr pmic mask llimit ulimit step id
          = some (env.set_trip_temp_ret, s1) ∧
        s1.gra_lvl id = u32 ((val : Int) - (hd.THERMAL_HYST_LEVEL : Int)) ∧
        (hd.THERMAL_HYST_LEVEL ≤ val → val < 4294967296 →
          s1.gra_lvl id = val - hd.THERMAL_HYST_LEVEL)) := by
  refine ⟨?_, ?_, ?_, ?_⟩
  · intro hl hu hrd
    have hr : ¬ (val < llimit ∨ val > ulimit) := by omega
    exact ⟨by simp [set_ocp_lvl, hr, hrd, S2MPG1X_READ, emit], by decide⟩
  · intro hl hu hrd hwr
    have hr : ¬ (val < llimit ∨ val > ulimit) := by omega
    by_cases htz : s.gra_tz id = true
    · exact ⟨_, by simp [set_ocp_lvl, hr, hrd, hwr, htz, S2MPG1X_READ, S2MPG1X_WRITE, emit]; rfl⟩
    · exact ⟨_, by simp [set_ocp_lvl, hr, hrd, hwr, htz, S2MPG1X_READ, S2MPG1X_WRITE, emit]; rfl⟩
  · intro r h hne
    unfold set_ocp_lvl at h
    by_cases hr : val < llimit ∨ val > ulimit
    · simp [hr] at h
      subst h
      exact absurd rfl hne
    · by_cases hrd : env.read_ret pmic addr = 0
      · by_cases hwr : env.write_ret pmic addr = 0
        · by_cases htz : s.gra_tz id = true
          · simp [hr, hrd, hwr, htz, S2MPG1X_READ, S2MPG1X_WRITE, emit] at h
            subst h
            exact ⟨hrd, hwr, rfl⟩
          · simp [hr, hrd, hwr, htz, S2MPG1X_READ, S2MPG1X_WRITE, emit] at h
        · by_cases htz : s.gra_tz id = true
          · simp [hr, hrd, hwr, htz, S2MPG1X_READ, S2MPG1X_WRITE, emit] at h
            subst h
            exact absurd rfl hne
          · simp [hr, hrd, hwr, htz, S2MPG1X_READ, S2MPG1X_WRITE, emit] at h
            subst h
            exact absurd rfl hne
      · simp [hr, hrd, S2MPG1X_READ, emit] at h
        subst h
        exact absurd rfl hne
  · intro hl hu hrd hwr htz
    obtain ⟨s1, h1, h2, -⟩ :=
      set_ocp_lvl_ok env hd s val addr pmic mask llimit ulimit step id hl hu hrd hwr htz
    refine ⟨s1, h1, by simp [h2, upd], ?_⟩
    intro hh hv
    rw [h2]
    simp only [upd, if_true]
    rw [← Nat.cast_sub hh]
    exact u32_natCast _ (by omega)

/-- C7 witness: on `ocp_cpu1` holding 5900, programming 7000 with a failing read,
and with a failing write, keeps the cached level 5900; with a working bus it
becomes `7000 - 100`. -/
theorem set_ocp_lvl_transport_failure_keeps_level_witness :
    (set_ocp_lvl env_read_fail hdr0 dev_6000 7000 hdr0.B3M_OCP_WARN Pmic.MAIN OCP_WARN_MASK
      B3M_LOWER_LIMIT B3M_UPPER_LIMIT B3M_STEP Source.OCP_WARN_CPUCL1).map
        (fun r => (r.1, r.2.gra_lvl Source.OCP_WARN_CPUCL1)) = some (-16, 5900) ∧
    (∃ tr, set_ocp_lvl env_write_fail hdr0 dev_6000 7000 hdr0.B3M_OCP_WARN Pmic.MAIN
      OCP_WARN_MASK B3M_LOWER_LIMIT B3M_UPPER_LIMIT B3M_STEP Source.OCP_WARN_CPUCL1
        = some (-5, { dev_6000 with trace := tr })) ∧
    (∃ s1, set_ocp_lvl env_ok hdr0 dev_6000 7000 hdr0.B3M_OCP_WARN Pmic.MAIN OCP_WARN_MASK
      B3M_LOWER_LIMIT B3M_UPPER_LIMIT B3M_STEP Source.OCP_WARN_CPUCL1 = some (0, s1) ∧
      s1.gra_lvl Source.OCP_WARN_CPUCL1 = 6900) := by
  have h := set_ocp_lvl_transport_failure_keeps_level env_read_fail hdr0 dev_6000 7000
    hdr0.B3M_OCP_WARN Pmic.MAIN OCP_WARN_MASK B3M_LOWER_LIMIT B3M_UPPER_LIMIT B3M_STEP
    Source.OCP_WARN_CPUCL1
  have hw := set_ocp_lvl_transport_failure_keeps_level env_write_fail hdr0 dev_6000 7000
    hdr0.B3M_OCP_WARN Pmic.MAIN OCP_WARN_MASK B3M_LOWER_LIMIT B3M_UPPER_LIMIT B3M_STEP
    Source.OCP_WARN_CPUCL1
  have ho := set_ocp_lvl_transport_failure_keeps_level env_ok hdr0 dev_6000 7000
    hdr0.B3M_OCP_WARN Pmic.MAIN OCP_WARN_MASK B3M_LOWER_LIMIT B3M_UPPER_LIMIT B3M_STEP
    Source.OCP_WARN_CPUCL1
  refine ⟨?_, hw.2.1 (by decide) (by decide) rfl (by decide), ?_⟩
  · rw [(h.1 (by decide) (by decide) (by decide)).1]
    rfl
  · obtain ⟨s1, h1, -, h3⟩ := ho.2.2.2 (by decide) (by decide) rfl rfl rfl
    exact ⟨s1, h1, h3 (by decide) (by decide)⟩

end GoogleBcl

namespace GoogleBcl

/-! ## C6 : direction of the level encoding -/

/-- With the level field at bit 5, the byte written by `smpl_lvl_store` keeps the
five low bits of the old byte and carries the encoded level above them. -/
theorem smpl_lvl_store_byte_shift5 (hd : Header) (b v : Nat) (hshift : hd.SMPL_WARN_SHIFT = 5)
    (hf : (v - SMPL_LOWER_LIMIT) / 100 < 8) :
    u8 (smpl_lvl_store_byte hd b v) >>> 5 = (v - SMPL_LOWER_LIMIT) / 100 := by
  have h31 : u8 (4294967295 - SMPL_WARN_MASK) = 31 := by decide
  have hlt := field_high_lt (u8 b) ((v - SMPL_LOWER_LIMIT) / 100) hf
  unfold smpl_lvl_store_byte
  rw [hshift, h31, u8_of_lt _ hlt, u8_of_lt _ hlt]
  exact field_high (u8 b) _

/-- The state `smpl_lvl_store` reaches on its successful path. -/
theorem smpl_lvl_store_ok (env : Env) (hd : Header) (s : bcl_device) (val size : Nat)
    (hl : SMPL_LOWER_LIMIT ≤ val) (hu : val ≤ SMPL_UPPER_LIMIT) (hi2c : s.main_pmic_i2c = true)
    (hrd : env.read_ret Pmic.MAIN hd.SMPL_WARN_CTRL = 0)
    (hwr : env.write_ret Pmic.MAIN hd.SMPL_WARN_CTRL = 0)
    (htz : s.gra_tz Source.SMPL_WARN = true) :
    ∃ s1, smpl_lvl_store env hd s val size = some ((size : Int), s1) ∧
      s1.regs Pmic.MAIN hd.SMPL_WARN_CTRL
        = u8 (smpl_lvl_store_byte hd (s.regs Pmic.MAIN hd.SMPL_WARN_CTRL) val) ∧
      s1.gra_lvl = upd s.gra_lvl Source.SMPL_WARN
        (u32 ((SMPL_BATTERY_VOLTAGE : Int) - (val : Int) - (hd.THERMAL_HYST_LEVEL : Int))) := by
  have hr : ¬ (val < SMPL_LOWER_LIMIT ∨ val > SMPL_UPPER_LIMIT) := by omega
  simp [smpl_lvl_store, hr, hi2c, hrd, hwr, htz, S2MPG1X_READ, S2MPG1X_WRITE, emit,
    smpl_lvl_store_byte, upd]

/-- C6 (as amended): for the four OCP families the encoding is inverted: for
in-range `v1 ≤ v2` programmed by `set_ocp_lvl` on the same device, the level field
left in the register for `v2`, `(upper - v2) / step`, is at most the one left for
`v1`. For the SMPL family programmed by `smpl_lvl_store` the encoding ascends: the
field left for `v1`, `(v1 - 2600) / 100`, is at most the one left for `v2`. -/
theorem level_field_direction (env : Env) (hd : Header) (s : bcl_device) (v1 v2 : Nat)
    (h12 : v1 ≤ v2) :
    (∀ lower upper step, (lower, upper, step) ∈ ocp_families → hd.OCP_WARN_LVL_SHIFT = 0 →
      ∀ (addr : Nat) (pmic : Pmic) (id : Source), lower ≤ v1 → v2 ≤ upper →
        env.read_ret pmic addr = 0 → env.write_ret pmic addr = 0 → s.gra_tz id = true →
        ∃ s1 s2,
          set_ocp_lvl env hd s v1 addr pmic OCP_WARN_MASK lower upper step id
            = some (env.set_trip_temp_ret, s1) ∧
          set_ocp_lvl env hd s v2 addr pmic OCP_WARN_MASK lower upper step id
            = some (env.set_trip_temp_ret, s2) ∧
          s1.regs pmic addr &&& OCP_WARN_MASK = (upper - v1) / step ∧
          s2.regs pmic addr &&& OCP_WARN_MASK = (upper - v2) / step ∧
          s2.regs pmic addr &&& OCP_WARN_MASK ≤ s1.regs pmic addr &&& OCP_WARN_MASK) ∧
    (hd.SMPL_WARN_SHIFT = 5 → SMPL_LOWER_LIMIT ≤ v1 → v2 ≤ SMPL_UPPER_LIMIT →
      s.main_pmic_i2c = true → env.read_ret Pmic.MAIN hd.SMPL_WARN_CTRL = 0 →
      env.write_ret Pmic.MAIN hd.SMPL_WARN_CTRL = 0 → s.gra_tz Source.SMPL_WARN = true →
      smpl_field_after_store env hd s v1 = some ((v1 - SMPL_LOWER_LIMIT) / 100) ∧
      smpl_field_after_store env hd s v2 = some ((v2 - SMPL_LOWER_LIMIT) / 100) ∧
      (v1 - SMPL_LOWER_LIMIT) / 100 ≤ (v2 - SMPL_LOWER_LIMIT) / 100) := by
  constructor
  · intro lower upper step hfam hshift addr pmic id hl hu hrd hwr htz
    obtain ⟨s1, e1, -, r1, -⟩ := set_ocp_lvl_ok env hd s v1 addr pmic OCP_WARN_MASK lower upper
      step id hl (by omega) hrd hwr htz
    obtain ⟨s2, e2, -, r2, -⟩ := set_ocp_lvl_ok env hd s v2 addr pmic OCP_WARN_MASK lower upper
      step id (by omega) hu hrd hwr htz
    have f1 := ocp_field_le lower upper step v1 hfam hl
    have f2 := ocp_field_le lower upper step v2 hfam (by omega)
    have b1 := (set_ocp_lvl_byte_shift0 hd (s.regs pmic addr) v1 upper step hshift f1).2
    have b2 := (set_ocp_lvl_byte_shift0 hd (s.regs pmic addr) v2 upper step hshift f2).2
    refine ⟨s1, s2, e1, e2, by rw [r1, b1], by rw [r2, b2], ?_⟩
    rw [r1, r2, b1, b2]
    exact Nat.div_le_div_right (by omega)
  · intro hshift hl hu hi2c hrd hwr htz
    have hl2 : SMPL_LOWER_LIMIT ≤ v2 := by omega
    have hu1 : v1 ≤ SMPL_UPPER_LIMIT := by omega
    have g1 : (v1 - SMPL_LOWER_LIMIT) / 100 < 8 := by
      unfold SMPL_LOWER_LIMIT SMPL_UPPER_LIMIT at *; omega
    have g2 : (v2 - SMPL_LOWER_LIMIT) / 100 < 8 := by
      unfold SMPL_LOWER_LIMIT SMPL_UPPER_LIMIT at *; omega
    obtain ⟨s1, e1, r1, -⟩ := smpl_lvl_store_ok env hd s v1 4 hl hu1 hi2c hrd hwr htz
    obtain ⟨s2, e2, r2, -⟩ := smpl_lvl_store_ok env hd s v2 4 hl2 hu hi2c hrd hwr htz
    refine ⟨?_, ?_, Nat.div_le_div_right (by omega)⟩
    · simp only [smpl_field_after_store, e1, Option.map_some', r1, u8_u8, hshift]
      rw [smpl_lvl_store_byte_shift5 hd _ v1 hshift g1]
    · simp only [smpl_field_after_store, e2, Option.map_some', r2, u8_u8, hshift]
      rw [smpl_lvl_store_byte_shift5 hd _ v2 hshift g2]

/-- C6 witness: on B3M the levels 6000 ≤ 8000 leave the fields 18 ≥ 8; on SMPL the
levels 2600 ≤ 3300 leave the fields 0 ≤ 7. -/
theorem level_field_direction_witness :
    (∃ s1 s2,
      set_ocp_lvl env_ok hdr0 dev0 6000 hdr0.B3M_OCP_WARN Pmic.MAIN OCP_WARN_MASK
        B3M_LOWER_LIMIT B3M_UPPER_LIMIT B3M_STEP Source.OCP_WARN_CPUCL1 = some (0, s1) ∧
      set_ocp_lvl env_ok hdr0 dev0 8000 hdr0.B3M_OCP_WARN Pmic.MAIN OCP_WARN_MASK
        B3M_LOWER_LIMIT B3M_UPPER_LIMIT B3M_STEP Source.OCP_WARN_CPUCL1 = some (0, s2) ∧
      s1.regs Pmic.MAIN hdr0.B3M_OCP_WARN &&& OCP_WARN_MASK = (B3M_UPPER_LIMIT - 6000) / B3M_STEP ∧
      s2.regs Pmic.MAIN hdr0.B3M_OCP_WARN &&& OCP_WARN_MASK = (B3M_UPPER_LIMIT - 8000) / B3M_STEP ∧
      s2.regs Pmic.MAIN hdr0.B3M_OCP_WARN &&& OCP_WARN_MASK
        ≤ s1.regs Pmic.MAIN hdr0.B3M_OCP_WARN &&& OCP_WARN_MASK) ∧
    smpl_field_after_store env_ok hdr0 dev0 2600 = some ((2600 - SMPL_LOWER_LIMIT) / 100) ∧
    smpl_field_after_store env_ok hdr0 dev0 3300 = some ((3300 - SMPL_LOWER_LIMIT) / 100) ∧
    (2600 - SMPL_LOWER_LIMIT) / 100 ≤ (3300 - SMPL_LOWER_LIMIT) / 100 :=
  ⟨(level_field_direction env_ok hdr0 dev0 6000 8000 (by decide)).1
      B3M_LOWER_LIMIT B3M_UPPER_LIMIT B3M_STEP (by simp [ocp_families]) rfl
      hdr0.B3M_OCP_WARN Pmic.MAIN Source.OCP_WARN_CPUCL1 (by decide) (by decide) rfl rfl rfl,
   (level_field_direction env_ok hdr0 dev0 2600 3300 (by decide)).2
      rfl (by decide) (by decide) rfl rfl rfl rfl⟩

/-- C6 counterexample: SMPL is a rail family of the claim, 2600 ≤ 3300 are both
in range, yet the field `smpl_lvl_store` encodes for 3300 is 7 and the field it
encodes for 2600 is 0: the field for the higher level is the larger one. -/
theorem smpl_field_not_inverted :
    SMPL_LOWER_LIMIT ≤ 2600 ∧ 2600 ≤ 3300 ∧ 3300 ≤ SMPL_UPPER_LIMIT ∧
    smpl_field_after_store env_ok hdr0 dev0 2600 = some 0 ∧
    smpl_field_after_store env_ok hdr0 dev0 3300 = some 7 ∧
    ¬ (7 ≤ 0) := by
  refine ⟨by decide, by decide, by decide, rfl, rfl, by decide⟩

end GoogleBcl

namespace GoogleBcl

/-! ## Helper lemmas: the debounce engine -/

theorem u32_cast_emod (x : Int) : ((u32 x : Nat) : Int) = x % 4294967296 := by
  unfold u32
  exact Int.toNat_of_nonneg (Int.emod_nonneg x (by decide))

/-- Adding to a value stored in an `unsigned int` and storing again. -/
theorem u32_u32_add (x y : Int) : u32 ((u32 x : Int) + y) = u32 (x + y) := by
  have h := u32_cast_emod x
  unfold u32 at *
  rw [h, Int.emod_add_emod]

/-- Reading an `unsigned int` through an `int`. -/
theorem s32_u32 (x : Int) : s32 (u32 x : Int) = s32 x := by
  have h := u32_cast_emod x
  unfold s32
  rw [h, Int.emod_add_emod]

theorem s32_of_range (x : Int) (h1 : -2147483648 ≤ x) (h2 : x < 2147483648) : s32 x = x := by
  unfold s32
  omega

theorem irq_handler_gra_lvl (env : Env) (s : bcl_device) (idx : Source) :
    (irq_handler env s idx).gra_lvl = s.gra_lvl := by
  simp only [irq_handler, ocpsmpl_read_stats, emit]
  split_ifs <;> rfl

theorem irq_handler_gra_tz_cnt_idle (env : Env) (s : bcl_device) (idx : Source)
    (h : s.gra_tz_cnt idx = 0) : (irq_handler env s idx).gra_tz_cnt idx = 1 := by
  simp only [irq_handler, ocpsmpl_read_stats, emit]
  split_ifs <;> simp_all [upd]

theorem triggered_read_level_gra_lvl (hd : Header) (s : bcl_device) (idx : Source) :
    (triggered_read_level hd s idx).2.2.gra_lvl = s.gra_lvl := by
  simp only [triggered_read_level]
  split_ifs <;> rfl

theorem debounce_work_gra_lvl (s : bcl_device) (idx : Source) :
    (debounce_work s idx).gra_lvl = s.gra_lvl := by
  cases idx <;> rfl

theorem debounce_work_irq_rail (s : bcl_device) (idx : Source) (h : idx ∈ irq_rails) :
    debounce_work s idx = warn_work s idx := by
  cases idx <;> first | rfl | simp [irq_rails] at h

theorem run_ops_gra_lvl (hd : Header) (ops : List Op) (s : bcl_device) :
    (run_ops hd s ops).gra_lvl = s.gra_lvl := by
  induction ops generalizing s with
  | nil => rfl
  | cons o rest ih =>
    have step : (Op.run hd s o).gra_lvl = s.gra_lvl := by
      cases o with
      | irq env idx => exact irq_handler_gra_lvl env s idx
      | read idx => exact triggered_read_level_gra_lvl hd s idx
      | work idx => exact debounce_work_gra_lvl s idx
    show (run_ops hd (Op.run hd s o) rest).gra_lvl = s.gra_lvl
    rw [ih, step]

/-- The first read after an interrupt that found the rail idle. -/
theorem read_after_irq (env : Env) (hd : Header) (s : bcl_device) (idx : Source)
    (hidle : s.gra_tz_cnt idx = 0) :
    (triggered_read_level hd (irq_handler env s idx) idx).1 = 0 ∧
    (triggered_read_level hd (irq_handler env s idx) idx).2.1
      = s32 ((s.gra_lvl idx : Int) + (hd.THERMAL_HYST_LEVEL : Int)) := by
  have h1 := irq_handler_gra_tz_cnt_idle env s idx hidle
  have h2 := irq_handler_gra_lvl env s idx
  simp only [triggered_read_level, h1, h2, THERMAL_IRQ_COUNTER_LIMIT]
  simp [s32_u32]

/-- The read that follows the expiry of the debounce work. -/
theorem read_after_work (hd : Header) (s : bcl_device) (idx : Source) (h : idx ∈ irq_rails) :
    (triggered_read_level hd (debounce_work s idx) idx).1 = 0 ∧
    (triggered_read_level hd (debounce_work s idx) idx).2.1 = s32 (s.gra_lvl idx : Int) ∧
    (triggered_read_level hd (debounce_work s idx) idx).2.2.gra_tz_cnt idx = 0 := by
  rw [debounce_work_irq_rail s idx h]
  simp [triggered_read_level, warn_work, upd]

end GoogleBcl

namespace GoogleBcl

/-! ## C8 : what the governor reads after a threshold has been programmed -/

/-- C8 (as amended): for rail `ocp-cpu1` (family B3M) that is idle, after
`set_ocp_lvl` has returned 0 for the level `v`, the first `read_level` after an
interrupt returns `v` itself (the cached level `v - THERMAL_HYST_LEVEL` plus the
margin), and a `read_level` made after the debounce work has run returns
`v - THERMAL_HYST_LEVEL`. -/
theorem ocp_cpu1_reads_after_set (env envi : Env) (hd : Header) (s s1 : bcl_device) (v : Nat)
    (hset : set_ocp_lvl env hd s v hd.B3M_OCP_WARN Pmic.MAIN OCP_WARN_MASK B3M_LOWER_LIMIT
      B3M_UPPER_LIMIT B3M_STEP Source.OCP_WARN_CPUCL1 = some (0, s1))
    (hidle : s.gra_tz_cnt Source.OCP_WARN_CPUCL1 = 0)
    (hh : hd.THERMAL_HYST_LEVEL ≤ 2147483648) :
    (ocp_cpu1_read_current hd (irq_handler envi s1 Source.OCP_WARN_CPUCL1)).2.1 = (v : Int) ∧
    (ocp_cpu1_read_current hd (google_cpu1_warn_work
      (ocp_cpu1_read_current hd (irq_handler envi s1 Source.OCP_WARN_CPUCL1)).2.2)).2.1
      = (v : Int) - (hd.THERMAL_HYST_LEVEL : Int) := by
  obtain ⟨hl, hu, -, -, -, -, -, hlvl, hcnt, -⟩ :=
    set_ocp_lvl_zero_inv env hd s s1 v hd.B3M_OCP_WARN Pmic.MAIN OCP_WARN_MASK B3M_LOWER_LIMIT
      B3M_UPPER_LIMIT B3M_STEP Source.OCP_WARN_CPUCL1 hset
  have hidle1 : s1.gra_tz_cnt Source.OCP_WARN_CPUCL1 = 0 := by rw [hcnt]; exact hidle
  have hv : v ≤ 9600 := hu
  constructor
  · show (triggered_read_level hd (irq_handler envi s1 Source.OCP_WARN_CPUCL1)
      Source.OCP_WARN_CPUCL1).2.1 = (v : Int)
    rw [(read_after_irq envi hd s1 Source.OCP_WARN_CPUCL1 hidle1).2, hlvl, ← s32_u32,
      u32_u32_add, s32_u32]
    rw [show (v : Int) - (hd.THERMAL_HYST_LEVEL : Int) + (hd.THERMAL_HYST_LEVEL : Int) = (v : Int)
      by omega]
    exact s32_of_range _ (by omega) (by omega)
  · show (triggered_read_level hd (debounce_work
      (triggered_read_level hd (irq_handler envi s1 Source.OCP_WARN_CPUCL1)
        Source.OCP_WARN_CPUCL1).2.2 Source.OCP_WARN_CPUCL1) Source.OCP_WARN_CPUCL1).2.1
        = (v : Int) - (hd.THERMAL_HYST_LEVEL : Int)
    rw [(read_after_work hd _ Source.OCP_WARN_CPUCL1 (by simp [irq_rails])).2.1,
      triggered_read_level_gra_lvl, irq_handler_gra_lvl, hlvl, s32_u32]
    exact s32_of_range _ (by omega) (by omega)

/-- C8 witness: `ocp_cpu1` programmed to 6000 with margin 100 reads 6000 after an
interrupt and 5900 after the debounce work. -/
theorem ocp_cpu1_reads_after_set_witness :
    set_ocp_lvl env_ok hdr0 dev0 6000 hdr0.B3M_OCP_WARN Pmic.MAIN OCP_WARN_MASK
      B3M_LOWER_LIMIT B3M_UPPER_LIMIT B3M_STEP Source.OCP_WARN_CPUCL1 = some (0, dev_6000) ∧
    (ocp_cpu1_read_current hdr0 (irq_handler env_ok dev_6000 Source.OCP_WARN_CPUCL1)).2.1
      = ((6000 : Nat) : Int) ∧
    (ocp_cpu1_read_current hdr0 (google_cpu1_warn_work
      (ocp_cpu1_read_current hdr0 (irq_handler env_ok dev_6000 Source.OCP_WARN_CPUCL1)).2.2)).2.1
      = ((6000 : Nat) : Int) - (hdr0.THERMAL_HYST_LEVEL : Int) :=
  ⟨rfl, ocp_cpu1_reads_after_set env_ok env_ok hdr0 dev0 dev_6000 6000 rfl rfl (by decide)⟩

/-- C8 counterexample: `ocp_cpu1` is idle and `set_ocp_lvl 6000` returns 0 with
margin 100; the first read after an interrupt is 6000, not 6000 + 100, and the
read after the debounce work is 5900, not 6000. -/
theorem programmed_6000_reads_6000_then_5900 :
    dev0.gra_tz_cnt Source.OCP_WARN_CPUCL1 = 0 ∧
    set_ocp_lvl env_ok hdr0 dev0 6000 hdr0.B3M_OCP_WARN Pmic.MAIN OCP_WARN_MASK
      B3M_LOWER_LIMIT B3M_UPPER_LIMIT B3M_STEP Source.OCP_WARN_CPUCL1 = some (0, dev_6000) ∧
    (ocp_cpu1_read_current hdr0 (irq_handler env_ok dev_6000 Source.OCP_WARN_CPUCL1)).2.1 = 6000 ∧
    (ocp_cpu1_read_current hdr0 (irq_handler env_ok dev_6000 Source.OCP_WARN_CPUCL1)).2.1
      ≠ 6000 + (hdr0.THERMAL_HYST_LEVEL : Int) ∧
    (ocp_cpu1_read_current hdr0 (google_cpu1_warn_work
      (ocp_cpu1_read_current hdr0 (irq_handler env_ok dev_6000 Source.OCP_WARN_CPUCL1)).2.2)).2.1
      = 5900 ∧
    (ocp_cpu1_read_current hdr0 (google_cpu1_warn_work
      (ocp_cpu1_read_current hdr0 (irq_handler env_ok dev_6000 Source.OCP_WARN_CPUCL1)).2.2)).2.1
      ≠ 6000 := by
  refine ⟨rfl, rfl, ?_, ?_, ?_, ?_⟩ <;> decide

/-! ## C9 : the hysteresis margin of the interrupt-line rails -/

/-- C9: for every interrupt-line rail that is idle with cached level `L` (with
`L + THERMAL_HYST_LEVEL` representable in the `int` the callback returns), the
first `read_level` after an interrupt returns `L + THERMAL_HYST_LEVEL`; after any
further interrupts, reads and work expiries (none programs a threshold) and the
run of the rail's debounce work, `read_level` returns `L`. The first value
exceeds the second by exactly `THERMAL_HYST_LEVEL`. -/
theorem irq_rail_margin_exact (env : Env) (hd : Header) (s : bcl_device) (idx : Source)
    (ops : List Op) (hrail : idx ∈ irq_rails) (hidle : s.gra_tz_cnt idx = 0)
    (hrep : s.gra_lvl idx + hd.THERMAL_HYST_LEVEL < 2147483648) :
    (triggered_read_level hd (irq_handler env s idx) idx).2.1
      = (s.gra_lvl idx : Int) + (hd.THERMAL_HYST_LEVEL : Int) ∧
    (triggered_read_level hd (debounce_work
      (run_ops hd (triggered_read_level hd (irq_handler env s idx) idx).2.2 ops) idx) idx).2.1
      = (s.gra_lvl idx : Int) ∧
    (triggered_read_level hd (irq_handler env s idx) idx).2.1
      - (triggered_read_level hd (debounce_work
          (run_ops hd (triggered_read_level hd (irq_handler env s idx) idx).2.2 ops) idx) idx).2.1
      = (hd.THERMAL_HYST_LEVEL : Int) := by
  have h1 : (triggered_read_level hd (irq_handler env s idx) idx).2.1
      = (s.gra_lvl idx : Int) + (hd.THERMAL_HYST_LEVEL : Int) := by
    rw [(read_after_irq env hd s idx hidle).2]
    exact s32_of_range _ (by omega) (by omega)
  have h2 : (triggered_read_level hd (debounce_work
      (run_ops hd (triggered_read_level hd (irq_handler env s idx) idx).2.2 ops) idx) idx).2.1
      = (s.gra_lvl idx : Int) := by
    rw [(read_after_work hd _ idx hrail).2.1, run_ops_gra_lvl, triggered_read_level_gra_lvl,
      irq_handler_gra_lvl]
    exact s32_of_range _ (by omega) (by omega)
  refine ⟨h1, h2, ?_⟩
  rw [h1, h2]
  omega

/-- C9 witness: `SMPL_WARN` idle with cached level 9500 and margin 100, a second
interrupt and two more reads arriving before the work runs: 9600 against 9500. -/
theorem irq_rail_margin_exact_witness :
    (triggered_read_level hdr0 (irq_handler env_ok dev0 Source.SMPL_WARN) Source.SMPL_WARN).2.1
      - (triggered_read_level hdr0 (debounce_work
          (run_ops hdr0
            (triggered_read_level hdr0 (irq_handler env_ok dev0 Source.SMPL_WARN)
              Source.SMPL_WARN).2.2
            [Op.irq env_ok Source.SMPL_WARN, Op.read Source.SMPL_WARN, Op.read Source.SMPL_WARN])
          Source.SMPL_WARN) Source.SMPL_WARN).2.1
      = (hdr0.THERMAL_HYST_LEVEL : Int) :=
  (irq_rail_margin_exact env_ok hdr0 dev0 Source.SMPL_WARN
    [Op.irq env_ok Source.SMPL_WARN, Op.read Source.SMPL_WARN, Op.read Source.SMPL_WARN]
    (by simp [irq_rails]) rfl (by decide)).2.2

end GoogleBcl

namespace GoogleBcl

/-! ## C10 : the hysteresis margin of the polled rails -/

/-- What `ocpsmpl_read_stats` does to the device: nothing, or it sets
`batt_psy_initialized`. -/
theorem ocpsmpl_read_stats_dev (env : Env) (s : bcl_device) (dst : ocpsmpl_stats) (psy : Bool) :
    (ocpsmpl_read_stats env s dst psy).2 = s ∨
    (ocpsmpl_read_stats env s dst psy).2 = { s with batt_psy_initialized := true } := by
  unfold ocpsmpl_read_stats
  split_ifs <;> simp

/-- Fields `google_bcl_irq_changed` leaves alone. -/
theorem google_bcl_irq_changed_frame (env : Env) (s : bcl_device) (idx : Source) :
    (google_bcl_irq_changed env s idx).bcl_tz_cnt = s.bcl_tz_cnt ∧
    (google_bcl_irq_changed env s idx).bcl_lvl = s.bcl_lvl ∧
    (google_bcl_irq_changed env s idx).bcl_tz = s.bcl_tz ∧
    (google_bcl_irq_changed env s idx).pmic_ops = s.pmic_ops ∧
    (google_bcl_irq_changed env s idx).intf_pmic_i2c = s.intf_pmic_i2c ∧
    (google_bcl_irq_changed env s idx).bcl_read_lvl = s.bcl_read_lvl := by
  unfold google_bcl_irq_changed
  rcases ocpsmpl_read_stats_dev env
    { s with bcl_cnt := upd s.bcl_cnt idx (s32 (s.bcl_cnt idx + 1)) }
    (s.bcl_stats idx) s.batt_psy with h | h <;>
  · simp only [h, emit]
    split_ifs <;> exact ⟨rfl, rfl, rfl, rfl, rfl, rfl⟩

/-- The trigger path on an idle polled rail with a registered zone: the rail
becomes pending and the reported level is reset to the cached level. -/
theorem polled_trigger_idle (env : Env) (hd : Header) (s : bcl_device) (idx : Source)
    (htz : s.bcl_tz idx = true) (hidle : s.bcl_tz_cnt idx = 0) :
    (polled_trigger env hd s idx).bcl_tz_cnt idx = 1 ∧
    (polled_trigger env hd s idx).bcl_read_lvl idx = s.bcl_lvl idx ∧
    (polled_trigger env hd s idx).bcl_lvl = s.bcl_lvl ∧
    (polled_trigger env hd s idx).bcl_tz = s.bcl_tz ∧
    (polled_trigger env hd s idx).pmic_ops = s.pmic_ops ∧
    (polled_trigger env hd s idx).intf_pmic_i2c = s.intf_pmic_i2c := by
  have hc := google_bcl_irq_changed_frame env s idx
  obtain ⟨c1, c2, c3, c4, c5, c6⟩ := hc
  have h0 : (google_bcl_irq_changed env s idx).bcl_tz_cnt idx = 0 := by rw [c1]; exact hidle
  have h1 : (google_bcl_irq_changed env s idx).bcl_tz idx = true := by rw [c3]; exact htz
  simp only [polled_trigger, google_bcl_intf_pmic_enable_timer, emit, h0, h1, if_true]
  refine ⟨by simp [upd], by simp [upd, c2], c2, c3, c4, c5⟩

/-- The poll step that finds the condition cleared, on a registered zone. -/
theorem intf_pmic_work_cleared (env : Env) (hd : Header) (t : bcl_device) (idx : Source)
    (ops : bcl_ifpmic_ops) (hops : t.pmic_ops = some ops) (hcb : ops.cb_get_vdroop_ok = true)
    (hi2c : t.intf_pmic_i2c = true) (hq : 0 ≤ env.vdroop_ok_ret) (hok : env.vdroop_ok_val = true)
    (htz : t.bcl_tz idx = true) :
    ∃ s3, google_bcl_intf_pmic_work env hd t idx = some (0, s3) ∧
      s3.bcl_tz_cnt idx = 0 ∧
      s3.bcl_read_lvl idx = u32 ((t.bcl_lvl idx : Int) - (hd.THERMAL_HYST_LEVEL : Int)) ∧
      s3.bcl_lvl = t.bcl_lvl := by
  have hq1 : ¬ env.vdroop_ok_ret < 0 := by omega
  by_cases hc : t.bcl_tz_cnt idx = 0
  · simp [google_bcl_intf_pmic_work, bcl_cb_vdroop_ok, emit, hops, hcb, hi2c, hq1, hok, hc, upd]
  · simp [google_bcl_intf_pmic_work, bcl_cb_vdroop_ok, emit, hops, hcb, hi2c, hq1, hok, hc, htz,
      upd]

/-- C10 (as amended): for a polled rail with its thermal zone registered and
starting idle with cached level `L`, the trigger path followed by the poll path
that sees the condition cleared returns the rail to idle, and the read callback
returns `L - THERMAL_HYST_LEVEL` afterwards. Right after the trigger path the
callbacks of UVLO2 and BATOILO return `L`, exceeding that by exactly
`THERMAL_HYST_LEVEL`, whereas the callback of UVLO1 (`google_bcl_miti_read_level`)
returns `L + THERMAL_HYST_LEVEL`, exceeding it by twice the margin. -/
theorem polled_rail_margin (env env2 : Env) (hd : Header) (s : bcl_device) (idx : Source)
    (ops : bcl_ifpmic_ops) (hrail : idx ∈ polled_rails)
    (htz : s.bcl_tz idx = true) (hidle : s.bcl_tz_cnt idx = 0)
    (hops : s.pmic_ops = some ops) (hcb : ops.cb_get_vdroop_ok = true)
    (hi2c : s.intf_pmic_i2c = true)
    (hq : 0 ≤ env2.vdroop_ok_ret) (hok : env2.vdroop_ok_val = true)
    (hrep : s.bcl_lvl idx + hd.THERMAL_HYST_LEVEL < 2147483648) :
    ∃ s3,
      google_bcl_intf_pmic_work env2 hd
        (polled_read_temp hd (polled_trigger env hd s idx) idx).2.2 idx = some (0, s3) ∧
      s3.bcl_tz_cnt idx = 0 ∧
      (polled_read_temp hd s3 idx).2.1 = (s.bcl_lvl idx : Int) - (hd.THERMAL_HYST_LEVEL : Int) ∧
      (polled_read_temp hd (polled_trigger env hd s idx) idx).2.1
        = (if idx = Source.UVLO1 then (s.bcl_lvl idx : Int) + (hd.THERMAL_HYST_LEVEL : Int)
           else (s.bcl_lvl idx : Int)) ∧
      (polled_read_temp hd (polled_trigger env hd s idx) idx).2.1 - (polled_read_temp hd s3 idx).2.1
        = (if idx = Source.UVLO1 then 2 * (hd.THERMAL_HYST_LEVEL : Int)
           else (hd.THERMAL_HYST_LEVEL : Int)) := by
  obtain ⟨t1, t2, t3, t4, t5, t6⟩ := polled_trigger_idle env hd s idx htz hidle
  have hpost : s32 (u32 ((s.bcl_lvl idx : Int) - (hd.THERMAL_HYST_LEVEL : Int)) : Int)
      = (s.bcl_lvl idx : Int) - (hd.THERMAL_HYST_LEVEL : Int) := by
    rw [s32_u32]; exact s32_of_range _ (by omega) (by omega)
  have hpre : s32 (u32 ((s.bcl_lvl idx : Int) + (hd.THERMAL_HYST_LEVEL : Int)) : Int)
      = (s.bcl_lvl idx : Int) + (hd.THERMAL_HYST_LEVEL : Int) := by
    rw [s32_u32]; exact s32_of_range _ (by omega) (by omega)
  have hcur : s32 (s.bcl_lvl idx : Int) = (s.bcl_lvl idx : Int) :=
    s32_of_range _ (by omega) (by omega)
  simp only [polled_rails, List.mem_cons, List.mem_nil_iff, or_false] at hrail
  rcases hrail with rfl | rfl | rfl
  · -- UVLO1
    have hr1 : polled_read_temp hd (polled_trigger env hd s Source.UVLO1) Source.UVLO1
        = (0, (s.bcl_lvl Source.UVLO1 : Int) + (hd.THERMAL_HYST_LEVEL : Int),
            { polled_trigger env hd s Source.UVLO1 with
              bcl_tz_cnt := upd (polled_trigger env hd s Source.UVLO1).bcl_tz_cnt Source.UVLO1 2 }) := by
      simp [polled_read_temp, google_bcl_uvlo1_read_temp, google_bcl_miti_read_level, t1, t2,
        THERMAL_IRQ_COUNTER_LIMIT, hpre]
    obtain ⟨s3, w1, w2, w3, -⟩ := intf_pmic_work_cleared env2 hd
      (polled_read_temp hd (polled_trigger env hd s Source.UVLO1) Source.UVLO1).2.2 Source.UVLO1
      ops (by rw [hr1]; exact t5.trans hops) hcb (by rw [hr1]; exact t6.trans hi2c) hq hok
      (by rw [hr1]; show (polled_trigger env hd s Source.UVLO1).bcl_tz Source.UVLO1 = true
          rw [t4]; exact htz)
    have hl3 : s3.bcl_read_lvl Source.UVLO1
        = u32 ((s.bcl_lvl Source.UVLO1 : Int) - (hd.THERMAL_HYST_LEVEL : Int)) := by
      rw [w3, hr1]
      show u32 (((polled_trigger env hd s Source.UVLO1).bcl_lvl Source.UVLO1 : Int) - _) = _
      rw [t3]
    have hr2 : (polled_read_temp hd s3 Source.UVLO1).2.1
        = (s.bcl_lvl Source.UVLO1 : Int) - (hd.THERMAL_HYST_LEVEL : Int) := by
      simp [polled_read_temp, google_bcl_uvlo1_read_temp, google_bcl_miti_read_level, w2, hl3,
        hpost]
    refine ⟨s3, w1, w2, hr2, by rw [hr1]; simp, ?_⟩
    rw [hr2, hr1]
    simp only [if_true]
    omega
  · -- UVLO2
    have hr1 : polled_read_temp hd (polled_trigger env hd s Source.UVLO2) Source.UVLO2
        = (0, (s.bcl_lvl Source.UVLO2 : Int), polled_trigger env hd s Source.UVLO2) := by
      simp [polled_read_temp, google_bcl_uvlo2_read_temp, t2, hcur]
    obtain ⟨s3, w1, w2, w3, -⟩ := intf_pmic_work_cleared env2 hd
      (polled_read_temp hd (polled_trigger env hd s Source.UVLO2) Source.UVLO2).2.2 Source.UVLO2
      ops (by rw [hr1]; exact t5.trans hops) hcb (by rw [hr1]; exact t6.trans hi2c) hq hok
      (by rw [hr1]; show (polled_trigger env hd s Source.UVLO2).bcl_tz Source.UVLO2 = true
          rw [t4]; exact htz)
    have hl3 : s3.bcl_read_lvl Source.UVLO2
        = u32 ((s.bcl_lvl Source.UVLO2 : Int) - (hd.THERMAL_HYST_LEVEL : Int)) := by
      rw [w3, hr1]
      show u32 (((polled_trigger env hd s Source.UVLO2).bcl_lvl Source.UVLO2 : Int) - _) = _
      rw [t3]
    have hr2 : (polled_read_temp hd s3 Source.UVLO2).2.1
        = (s.bcl_lvl Source.UVLO2 : Int) - (hd.THERMAL_HYST_LEVEL : Int) := by
      simp [polled_read_temp, google_bcl_uvlo2_read_temp, hl3, hpost]
    refine ⟨s3, w1, w2, hr2, by rw [hr1]; simp, ?_⟩
    rw [hr2, hr1]
    simp
  · -- BATOILO
    have hr1 : polled_read_temp hd (polled_trigger env hd s Source.BATOILO) Source.BATOILO
        = (0, (s.bcl_lvl Source.BATOILO : Int), polled_trigger env hd s Source.BATOILO) := by
      simp [polled_read_temp, google_bcl_batoilo_read_temp, t2, hcur]
    obtain ⟨s3, w1, w2, w3, -⟩ := intf_pmic_work_cleared env2 hd
      (polled_read_temp hd (polled_trigger env hd s Source.BATOILO) Source.BATOILO).2.2
      Source.BATOILO
      ops (by rw [hr1]; exact t5.trans hops) hcb (by rw [hr1]; exact t6.trans hi2c) hq hok
      (by rw [hr1]; show (polled_trigger env hd s Source.BATOILO).bcl_tz Source.BATOILO = true
          rw [t4]; exact htz)
    have hl3 : s3.bcl_read_lvl Source.BATOILO
        = u32 ((s.bcl_lvl Source.BATOILO : Int) - (hd.THERMAL_HYST_LEVEL : Int)) := by
      rw [w3, hr1]
      show u32 (((polled_trigger env hd s Source.BATOILO).bcl_lvl Source.BATOILO : Int) - _) = _
      rw [t3]
    have hr2 : (polled_read_temp hd s3 Source.BATOILO).2.1
        = (s.bcl_lvl Source.BATOILO : Int) - (hd.THERMAL_HYST_LEVEL : Int) := by
      simp [polled_read_temp, google_bcl_batoilo_read_temp, hl3, hpost]
    refine ⟨s3, w1, w2, hr2, by rw [hr1]; simp, ?_⟩
    rw [hr2, hr1]
    simp

/-- C10 witness: BATOILO idle at cached level 1000 with margin 100 reads 1000
after the trigger path and 900 after the poll path. -/
theorem polled_rail_margin_witness :
    ∃ s3,
      google_bcl_intf_pmic_work env_ok hdr0
        (polled_read_temp hdr0 (polled_trigger env_ok hdr0 dev0 Source.BATOILO)
          Source.BATOILO).2.2 Source.BATOILO = some (0, s3) ∧
      (polled_read_temp hdr0 (polled_trigger env_ok hdr0 dev0 Source.BATOILO) Source.BATOILO).2.1
        - (polled_read_temp hdr0 s3 Source.BATOILO).2.1 = (hdr0.THERMAL_HYST_LEVEL : Int) := by
  obtain ⟨s3, h1, -, -, -, h5⟩ := polled_rail_margin env_ok env_ok hdr0 dev0 Source.BATOILO
    ⟨true, true, true, true, true⟩ (by simp [polled_rails]) rfl rfl rfl rfl rfl (by decide) rfl
    (by decide)
  exact ⟨s3, h1, by simpa using h5⟩

/-- C10 counterexample: UVLO1 with its zone registered, idle, cached level 1000
and margin 100: the callback returns 1100 right after the trigger path and 900
after the poll path has returned the rail to idle; the difference is 200, not 100. -/
theorem uvlo1_margin_is_doubled :
    dev0.bcl_tz Source.UVLO1 = true ∧ dev0.bcl_tz_cnt Source.UVLO1 = 0 ∧
    (google_bcl_uvlo1_read_temp hdr0 (polled_trigger env_ok hdr0 dev0 Source.UVLO1)).2.1 = 1100 ∧
    (google_bcl_intf_pmic_work env_ok hdr0
      (google_bcl_uvlo1_read_temp hdr0 (polled_trigger env_ok hdr0 dev0 Source.UVLO1)).2.2
      Source.UVLO1).map
        (fun r => (r.1, r.2.bcl_tz_cnt Source.UVLO1, (google_bcl_uvlo1_read_temp hdr0 r.2).2.1))
      = some (0, 0, 900) ∧
    (1100 : Int) - 900 ≠ (hdr0.THERMAL_HYST_LEVEL : Int) := by
  refine ⟨rfl, rfl, ?_, ?_, ?_⟩ <;> decide

end GoogleBcl

namespace GoogleBcl

/-! ## Helper lemmas: what one interrupt does -/

/-- The snapshot `ocpsmpl_read_stats` leaves when the handle is present does not
depend on the old snapshot. -/
theorem ocpsmpl_read_stats_snapshot (env : Env) (s : bcl_device) (dst : ocpsmpl_stats) :
    (ocpsmpl_read_stats env s dst true).1 = snapshot_of env := by
  simp only [ocpsmpl_read_stats, snapshot_of, Bool.not_true, Bool.false_eq_true, if_false]
  split_ifs <;> rfl

/-- Without a handle `ocpsmpl_read_stats` returns at once. -/
theorem ocpsmpl_read_stats_no_psy (env : Env) (s : bcl_device) (dst : ocpsmpl_stats) :
    ocpsmpl_read_stats env s dst false = (dst, s) := by
  simp [ocpsmpl_read_stats]

/-- Fields of the device `ocpsmpl_read_stats` leaves alone. -/
theorem ocpsmpl_read_stats_fields (env : Env) (s : bcl_device) (dst : ocpsmpl_stats)
    (psy : Bool) :
    (ocpsmpl_read_stats env s dst psy).2.trace = s.trace ∧
    (ocpsmpl_read_stats env s dst psy).2.gra_tz_cnt = s.gra_tz_cnt ∧
    (ocpsmpl_read_stats env s dst psy).2.gra_cnt = s.gra_cnt ∧
    (ocpsmpl_read_stats env s dst psy).2.gra_stats = s.gra_stats ∧
    (ocpsmpl_read_stats env s dst psy).2.gra_tz = s.gra_tz ∧
    (ocpsmpl_read_stats env s dst psy).2.batt_psy = s.batt_psy ∧
    (ocpsmpl_read_stats env s dst psy).2.bcl_cnt = s.bcl_cnt ∧
    (ocpsmpl_read_stats env s dst psy).2.bcl_stats = s.bcl_stats ∧
    (ocpsmpl_read_stats env s dst psy).2.bcl_tz_cnt = s.bcl_tz_cnt ∧
    (s.batt_psy_initialized = true →
      (ocpsmpl_read_stats env s dst psy).2.batt_psy_initialized = true) := by
  rcases ocpsmpl_read_stats_dev env s dst psy with h | h <;> rw [h] <;>
    refine ⟨rfl, rfl, rfl, rfl, rfl, rfl, rfl, rfl, rfl, ?_⟩ <;> intro h1 <;>
    first | exact h1 | rfl

/-- The function `irq_handler` is its telemetry block followed by its debounce
block. -/
theorem irq_handler_eq (env : Env) (s : bcl_device) (idx : Source) :
    irq_handler env s idx =
      if (irq_handler_stats env s idx).gra_tz_cnt idx = 0 then
        if (irq_handler_stats env s idx).gra_tz idx then
          emit (emit { irq_handler_stats env s idx with
              gra_tz_cnt := upd (irq_handler_stats env s idx).gra_tz_cnt idx
                ((irq_handler_stats env s idx).gra_tz_cnt idx + 1) }
            (Event.queue_delayed_work (Work.gra_irq_work idx) ONE_SECOND))
            (Event.thermal_zone_device_update (Zone.gra_tz idx))
        else
          emit { irq_handler_stats env s idx with
              gra_tz_cnt := upd (irq_handler_stats env s idx).gra_tz_cnt idx
                ((irq_handler_stats env s idx).gra_tz_cnt idx + 1) }
            (Event.queue_delayed_work (Work.gra_irq_work idx) ONE_SECOND)
      else irq_handler_stats env s idx := rfl

/-- What the telemetry block of `irq_handler` does. -/
theorem irq_handler_stats_fields (env : Env) (s : bcl_device) (idx : Source) :
    (irq_handler_stats env s idx).trace = s.trace ∧
    (irq_handler_stats env s idx).gra_tz_cnt = s.gra_tz_cnt ∧
    (irq_handler_stats env s idx).gra_tz = s.gra_tz ∧
    (irq_handler_stats env s idx).batt_psy = s.batt_psy ∧
    (s.batt_psy_initialized = true →
      (irq_handler_stats env s idx).batt_psy_initialized = true) ∧
    (irq_handler_stats env s idx).gra_cnt =
      (if s.batt_psy_initialized then upd s.gra_cnt idx (s32 (s.gra_cnt idx + 1))
       else s.gra_cnt) := by
  unfold irq_handler_stats
  by_cases hi : s.batt_psy_initialized = true
  · obtain ⟨f1, f2, f3, -, f5, f6, -, -, -, f10⟩ := ocpsmpl_read_stats_fields env
      { s with gra_cnt := upd s.gra_cnt idx (s32 (s.gra_cnt idx + 1)) }
      (s.gra_stats idx) s.batt_psy
    rw [if_pos hi, if_pos hi]
    exact ⟨f1, f2, f5, f6, fun _ => f10 hi, f3⟩
  · rw [if_neg hi, if_neg hi]
    exact ⟨rfl, rfl, rfl, rfl, fun h => absurd h hi, rfl⟩

/-- The snapshot `ocpsmpl_read_stats` hands back. -/
theorem ocpsmpl_read_stats_result (env : Env) (s : bcl_device) (dst : ocpsmpl_stats)
    (psy : Bool) :
    (ocpsmpl_read_stats env s dst psy).1 = if psy then snapshot_of env else dst := by
  cases psy
  · rw [ocpsmpl_read_stats_no_psy]; rfl
  · rw [ocpsmpl_read_stats_snapshot]; rfl

/-- The snapshots after the telemetry block of `irq_handler`. -/
theorem irq_handler_stats_gra_stats (env : Env) (s : bcl_device) (idx j : Source) :
    (irq_handler_stats env s idx).gra_stats j =
      if s.batt_psy_initialized = true ∧ s.batt_psy = true ∧ j = idx then snapshot_of env
      else s.gra_stats j := by
  unfold irq_handler_stats
  by_cases hi : s.batt_psy_initialized = true
  · rw [if_pos hi]
    show upd (ocpsmpl_read_stats env _ _ _).2.gra_stats idx (ocpsmpl_read_stats env _ _ _).1 j = _
    rw [(ocpsmpl_read_stats_fields env _ _ _).2.2.2.1, ocpsmpl_read_stats_result]
    by_cases hp : s.batt_psy = true <;> by_cases hj : j = idx <;> simp [upd, hi, hp, hj]
  · rw [if_neg hi]
    simp [hi]

end GoogleBcl

namespace GoogleBcl

/-- The debounce block of `irq_handler` touches only the debounce counter and
the trace. -/
theorem irq_handler_vs_stats (env : Env) (s : bcl_device) (idx : Source) :
    (irq_handler env s idx).gra_cnt = (irq_handler_stats env s idx).gra_cnt ∧
    (irq_handler env s idx).gra_stats = (irq_handler_stats env s idx).gra_stats ∧
    (irq_handler env s idx).gra_tz = (irq_handler_stats env s idx).gra_tz ∧
    (irq_handler env s idx).batt_psy = (irq_handler_stats env s idx).batt_psy ∧
    (irq_handler env s idx).batt_psy_initialized
      = (irq_handler_stats env s idx).batt_psy_initialized := by
  rw [irq_handler_eq]
  split_ifs <;> exact ⟨rfl, rfl, rfl, rfl, rfl⟩

/-- An interrupt that finds the rail debouncing makes no call and leaves the
debounce counters alone. -/
theorem irq_handler_busy (env : Env) (s : bcl_device) (idx : Source)
    (h : s.gra_tz_cnt idx ≠ 0) :
    (irq_handler env s idx).trace = s.trace ∧
    (irq_handler env s idx).gra_tz_cnt = s.gra_tz_cnt := by
  obtain ⟨f1, f2, -⟩ := irq_handler_stats_fields env s idx
  have hc : ¬ (irq_handler_stats env s idx).gra_tz_cnt idx = 0 := by rw [f2]; exact h
  rw [irq_handler_eq, if_neg hc]
  exact ⟨f1, f2⟩

/-- An interrupt that finds the rail idle arms the debounce work, notifies the
governor when the zone is registered, and sets the debounce counter to 1. -/
theorem irq_handler_idle (env : Env) (s : bcl_device) (idx : Source)
    (h : s.gra_tz_cnt idx = 0) :
    (irq_handler env s idx).trace = s.trace ++
      (Event.queue_delayed_work (Work.gra_irq_work idx) ONE_SECOND ::
        (if s.gra_tz idx then [Event.thermal_zone_device_update (Zone.gra_tz idx)] else [])) ∧
    (irq_handler env s idx).gra_tz_cnt = upd s.gra_tz_cnt idx 1 := by
  obtain ⟨f1, f2, f3, -⟩ := irq_handler_stats_fields env s idx
  have hc : (irq_handler_stats env s idx).gra_tz_cnt idx = 0 := by rw [f2]; exact h
  rw [irq_handler_eq, if_pos hc]
  by_cases htz : s.gra_tz idx = true
  · have htz1 : (irq_handler_stats env s idx).gra_tz idx = true := by rw [f3]; exact htz
    rw [if_pos htz1]
    simp [emit, f1, f2, h, htz]
  · have htz1 : ¬ (irq_handler_stats env s idx).gra_tz idx = true := by rw [f3]; exact htz
    rw [if_neg htz1]
    simp [emit, f1, f2, h, htz]

/-- The occurrence counter across an interrupt. -/
theorem irq_handler_gra_cnt (env : Env) (s : bcl_device) (idx : Source) :
    (irq_handler env s idx).gra_cnt =
      if s.batt_psy_initialized then upd s.gra_cnt idx (s32 (s.gra_cnt idx + 1))
      else s.gra_cnt := by
  rw [(irq_handler_vs_stats env s idx).1]
  exact (irq_handler_stats_fields env s idx).2.2.2.2.2

/-- The snapshots across an interrupt. -/
theorem irq_handler_gra_stats (env : Env) (s : bcl_device) (idx j : Source) :
    (irq_handler env s idx).gra_stats j =
      if s.batt_psy_initialized = true ∧ s.batt_psy = true ∧ j = idx then snapshot_of env
      else s.gra_stats j := by
  rw [(irq_handler_vs_stats env s idx).2.1]
  exact irq_handler_stats_gra_stats env s idx j

/-- The telemetry flags across an interrupt. -/
theorem irq_handler_flags (env : Env) (s : bcl_device) (idx : Source) :
    (irq_handler env s idx).batt_psy = s.batt_psy ∧
    (irq_handler env s idx).gra_tz = s.gra_tz ∧
    (s.batt_psy_initialized = true → (irq_handler env s idx).batt_psy_initialized = true) := by
  obtain ⟨-, -, g3, g4, g5⟩ := irq_handler_vs_stats env s idx
  obtain ⟨-, -, f3, f4, f5, -⟩ := irq_handler_stats_fields env s idx
  exact ⟨g4.trans f4, g3.trans f3, fun h => g5.trans (f5 h)⟩

/-- A governor read makes no call and touches only the debounce counter. -/
theorem triggered_read_level_frame (hd : Header) (s : bcl_device) (idx : Source) :
    (triggered_read_level hd s idx).2.2.trace = s.trace ∧
    (triggered_read_level hd s idx).2.2.gra_tz = s.gra_tz ∧
    (triggered_read_level hd s idx).2.2.gra_cnt = s.gra_cnt ∧
    (triggered_read_level hd s idx).2.2.gra_stats = s.gra_stats ∧
    (triggered_read_level hd s idx).2.2.gra_lvl = s.gra_lvl := by
  simp only [triggered_read_level]
  split_ifs <;> exact ⟨rfl, rfl, rfl, rfl, rfl⟩

end GoogleBcl

namespace GoogleBcl

/-! ## C11 : notifications in a burst of interrupts -/

/-- While the rail is debouncing, interrupts and at most `5 - gra_tz_cnt` reads of
the rail make no call at all. -/
theorem run_ops_debouncing_trace (hd : Header) (idx : Source) (rest : List Op) :
    ∀ t : bcl_device, 1 ≤ t.gra_tz_cnt idx →
      t.gra_tz_cnt idx + ((rest.filter Op.is_read).length : Int) ≤ 5 →
      (∀ o ∈ rest, Op.on_rail idx o = true) →
      (run_ops hd t rest).trace = t.trace := by
  induction rest with
  | nil => intro t _ _ _; rfl
  | cons o rest ih =>
    intro t h1 h5 hon
    have ho := hon o (List.mem_cons_self o rest)
    have hrest : ∀ o' ∈ rest, Op.on_rail idx o' = true :=
      fun o' h => hon o' (List.mem_cons_of_mem o h)
    show (run_ops hd (Op.run hd t o) rest).trace = t.trace
    cases o with
    | irq e j =>
      have hj : j = idx := by simpa [Op.on_rail] using ho
      subst hj
      have hb := irq_handler_busy e t j (by omega)
      have h5r : t.gra_tz_cnt j + ((rest.filter Op.is_read).length : Int) ≤ 5 := by
        simpa [List.filter, Op.is_read] using h5
      have := ih (Op.run hd t (Op.irq e j))
        (by show 1 ≤ (irq_handler e t j).gra_tz_cnt j; rw [hb.2]; exact h1)
        (by show (irq_handler e t j).gra_tz_cnt j + _ ≤ 5; rw [hb.2]; exact h5r) hrest
      rw [this]
      exact hb.1
    | read j =>
      have hj : j = idx := by simpa [Op.on_rail] using ho
      subst hj
      have h5r : t.gra_tz_cnt j + 1 + ((rest.filter Op.is_read).length : Int) ≤ 5 := by
        have : ((Op.read j :: rest).filter Op.is_read).length
            = (rest.filter Op.is_read).length + 1 := by simp [List.filter, Op.is_read]
        rw [this] at h5
        push_cast at h5
        omega
      have hlen : (0 : Int) ≤ ((rest.filter Op.is_read).length : Int) := Int.natCast_nonneg _
      have hcond : t.gra_tz_cnt j ≠ 0 ∧ t.gra_tz_cnt j < THERMAL_IRQ_COUNTER_LIMIT := by
        unfold THERMAL_IRQ_COUNTER_LIMIT; omega
      have hcnt : (triggered_read_level hd t j).2.2.gra_tz_cnt j = t.gra_tz_cnt j + 1 := by
        simp [triggered_read_level, hcond, upd]
      have := ih (Op.run hd t (Op.read j))
        (by show 1 ≤ (triggered_read_level hd t j).2.2.gra_tz_cnt j; rw [hcnt]; omega)
        (by show (triggered_read_level hd t j).2.2.gra_tz_cnt j + _ ≤ 5; rw [hcnt]; exact h5r)
        hrest
      rw [this]
      exact (triggered_read_level_frame hd t j).1
    | work j => simp [Op.on_rail] at ho

/-- Short of the fifth read: starting from idle with the rail's thermal zone
registered, an interrupt followed by further interrupts of the same rail,
interleaved with at most four governor reads of the rail and with no run of the
debounce work, makes exactly two calls, one `queue_delayed_work` and one
`thermal_zone_device_update`. -/
theorem irq_burst_notifies_once (env : Env) (hd : Header) (s : bcl_device) (idx : Source)
    (rest : List Op) (hidle : s.gra_tz_cnt idx = 0) (htz : s.gra_tz idx = true)
    (hon : ∀ o ∈ rest, Op.on_rail idx o = true)
    (hreads : (rest.filter Op.is_read).length ≤ 4) :
    (run_ops hd s (Op.irq env idx :: rest)).trace = s.trace ++
      [Event.queue_delayed_work (Work.gra_irq_work idx) ONE_SECOND,
       Event.thermal_zone_device_update (Zone.gra_tz idx)] ∧
    notify_count idx (run_ops hd s (Op.irq env idx :: rest)).trace
      = notify_count idx s.trace + 1 ∧
    arm_count idx (run_ops hd s (Op.irq env idx :: rest)).trace = arm_count idx s.trace + 1 := by
  obtain ⟨i1, i2⟩ := irq_handler_idle env s idx hidle
  have hcnt : (irq_handler env s idx).gra_tz_cnt idx = 1 := by rw [i2]; simp [upd]
  have htr : (run_ops hd s (Op.irq env idx :: rest)).trace = s.trace ++
      [Event.queue_delayed_work (Work.gra_irq_work idx) ONE_SECOND,
       Event.thermal_zone_device_update (Zone.gra_tz idx)] := by
    show (run_ops hd (irq_handler env s idx) rest).trace = _
    rw [run_ops_debouncing_trace hd idx rest (irq_handler env s idx) (by rw [hcnt])
      (by rw [hcnt]; omega) hon, i1, htz]
    rfl
  refine ⟨htr, ?_, ?_⟩
  · rw [htr]; simp [notify_count, List.count_append, List.count_cons]
  · rw [htr]; simp [arm_count, List.count_append, List.count_cons]

/-- The rail `SMPL_WARN` idle, three interrupts interleaved with four reads. -/
theorem irq_burst_notifies_once_witness :
    notify_count Source.SMPL_WARN (run_ops hdr0 dev0
      [Op.irq env_ok Source.SMPL_WARN, Op.read Source.SMPL_WARN, Op.irq env_later Source.SMPL_WARN,
       Op.read Source.SMPL_WARN, Op.read Source.SMPL_WARN, Op.read Source.SMPL_WARN,
       Op.irq env_later Source.SMPL_WARN]).trace = notify_count Source.SMPL_WARN dev0.trace + 1 ∧
    arm_count Source.SMPL_WARN (run_ops hdr0 dev0
      [Op.irq env_ok Source.SMPL_WARN, Op.read Source.SMPL_WARN, Op.irq env_later Source.SMPL_WARN,
       Op.read Source.SMPL_WARN, Op.read Source.SMPL_WARN, Op.read Source.SMPL_WARN,
       Op.irq env_later Source.SMPL_WARN]).trace = arm_count Source.SMPL_WARN dev0.trace + 1 :=
  (irq_burst_notifies_once env_ok hdr0 dev0 Source.SMPL_WARN
    [Op.read Source.SMPL_WARN, Op.irq env_later Source.SMPL_WARN,
     Op.read Source.SMPL_WARN, Op.read Source.SMPL_WARN, Op.read Source.SMPL_WARN,
     Op.irq env_later Source.SMPL_WARN] rfl rfl (by decide) (by decide)).2

/-- C11 (the code at the failing input): `SMPL_WARN` idle with its zone
registered; an interrupt, five governor reads and a second interrupt, all before
the debounce work queued for `ONE_SECOND` runs. The fifth read has put the
debounce counter back to 0, so the second interrupt calls
`thermal_zone_device_update` and `queue_delayed_work` again: two notifications
and two arming calls inside one debounce window. -/
theorem five_reads_let_second_irq_notify :
    dev0.gra_tz_cnt Source.SMPL_WARN = 0 ∧ dev0.gra_tz Source.SMPL_WARN = true ∧
    notify_count Source.SMPL_WARN dev0.trace = 0 ∧ arm_count Source.SMPL_WARN dev0.trace = 0 ∧
    notify_count Source.SMPL_WARN (run_ops hdr0 dev0
      [Op.irq env_ok Source.SMPL_WARN, Op.read Source.SMPL_WARN, Op.read Source.SMPL_WARN,
       Op.read Source.SMPL_WARN, Op.read Source.SMPL_WARN, Op.read Source.SMPL_WARN,
       Op.irq env_ok Source.SMPL_WARN]).trace = 2 ∧
    arm_count Source.SMPL_WARN (run_ops hdr0 dev0
      [Op.irq env_ok Source.SMPL_WARN, Op.read Source.SMPL_WARN, Op.read Source.SMPL_WARN,
       Op.read Source.SMPL_WARN, Op.read Source.SMPL_WARN, Op.read Source.SMPL_WARN,
       Op.irq env_ok Source.SMPL_WARN]).trace = 2 := by
  refine ⟨rfl, rfl, rfl, rfl, ?_, ?_⟩ <;> decide

end GoogleBcl

namespace GoogleBcl

/-! ## C12 : the snapshot over a burst of interrupts -/

/-- A burst of interrupts keeps the telemetry flags and the snapshots of the
other rails. -/
theorem irq_burst_flags (idx : Source) (envs : List Env) :
    ∀ s : bcl_device, s.batt_psy_initialized = true → s.batt_psy = true →
      (irq_burst s idx envs).batt_psy_initialized = true ∧
      (irq_burst s idx envs).batt_psy = true ∧
      ∀ j, j ≠ idx → (irq_burst s idx envs).gra_stats j = s.gra_stats j := by
  induction envs with
  | nil => intro s hi hp; exact ⟨hi, hp, fun _ _ => rfl⟩
  | cons e envs ih =>
    intro s hi hp
    obtain ⟨f1, -, f3⟩ := irq_handler_flags e s idx
    obtain ⟨g1, g2, g3⟩ := ih (irq_handler e s idx) (f3 hi) (f1.trans hp)
    refine ⟨g1, g2, fun j hj => ?_⟩
    show (irq_burst (irq_handler e s idx) idx envs).gra_stats j = _
    rw [g3 j hj, irq_handler_gra_stats]
    simp [hj]

/-- C12 (as amended): with battery telemetry available (handle present and
telemetry initialised), every interrupt of a rail rewrites the rail's snapshot
`gra_stats[idx]`, whether it is the first of the debounce window or a later one:
after any sequence of interrupts of the rail the snapshot holds the time,
capacity and voltage sampled at the last interrupt. The snapshots of the other
rails are unchanged. -/
theorem irq_burst_snapshot_is_last (s : bcl_device) (idx : Source) (envs : List Env) (e : Env)
    (hi : s.batt_psy_initialized = true) (hp : s.batt_psy = true) :
    (irq_burst s idx (envs ++ [e])).gra_stats idx = snapshot_of e ∧
    ∀ j, j ≠ idx → (irq_burst s idx (envs ++ [e])).gra_stats j = s.gra_stats j := by
  refine ⟨?_, (irq_burst_flags idx (envs ++ [e]) s hi hp).2.2⟩
  obtain ⟨g1, g2, -⟩ := irq_burst_flags idx envs s hi hp
  have h : irq_burst s idx (envs ++ [e]) = irq_handler e (irq_burst s idx envs) idx := by
    simp [irq_burst, List.foldl_append]
  rw [h, irq_handler_gra_stats]
  simp [g1, g2]

/-- C12 witness: two interrupts of `SMPL_WARN`, the second at a later moment. -/
theorem irq_burst_snapshot_is_last_witness :
    (irq_burst dev_batt Source.SMPL_WARN ([env_ok] ++ [env_later])).gra_stats Source.SMPL_WARN
      = snapshot_of env_later :=
  (irq_burst_snapshot_is_last dev_batt Source.SMPL_WARN [env_ok] env_later rfl rfl).1

/-- C12 counterexample: telemetry available, `SMPL_WARN` idle. The first interrupt
stores the snapshot (1000 ms, 80 %, 4000000 uV) and starts the debounce window;
the second interrupt, inside the window, overwrites it with (1100 ms, 79 %,
3900000 uV). -/
theorem second_irq_rewrites_snapshot :
    dev_batt.gra_tz_cnt Source.SMPL_WARN = 0 ∧
    (irq_burst dev_batt Source.SMPL_WARN [env_ok]).gra_tz_cnt Source.SMPL_WARN = 1 ∧
    (irq_burst dev_batt Source.SMPL_WARN [env_ok]).gra_stats Source.SMPL_WARN
      = { time := 1000, capacity := 80, voltage := 4000000 } ∧
    (irq_burst dev_batt Source.SMPL_WARN [env_ok, env_later]).gra_tz_cnt Source.SMPL_WARN = 1 ∧
    (irq_burst dev_batt Source.SMPL_WARN [env_ok, env_later]).gra_stats Source.SMPL_WARN
      = { time := 1100, capacity := 79, voltage := 3900000 } := by
  refine ⟨rfl, ?_, ?_, ?_, ?_⟩ <;> decide

end GoogleBcl

namespace GoogleBcl

/-! ## C13 : the occurrence counters -/

/-- The occurrence counters of the polled rails across `google_bcl_irq_changed`. -/
theorem google_bcl_irq_changed_bcl_cnt (env : Env) (s : bcl_device) (idx : Source) :
    (google_bcl_irq_changed env s idx).bcl_cnt = upd s.bcl_cnt idx (s32 (s.bcl_cnt idx + 1)) := by
  simp only [google_bcl_irq_changed]
  split_ifs <;> simp only [emit] <;>
    exact (ocpsmpl_read_stats_fields env _ _ _).2.2.2.2.2.2.1

/-- C13 (as amended): an interrupt delivered for an interrupt-line rail increases
`gra_cnt[idx]` by exactly one when battery telemetry has been initialised
(`batt_psy_initialized`), and leaves it unchanged when it has not; a trigger
delivered for a polled rail increases `bcl_cnt[index]` by exactly one whatever
the telemetry state. Both hold whether the rail is Idle or Debouncing, for
counters below `INT_MAX`, and the counters of the other rails are unchanged. -/
theorem occurrence_counter_step (env : Env) (s : bcl_device) (idx : Source)
    (hg : -2147483648 ≤ s.gra_cnt idx ∧ s.gra_cnt idx < 2147483647)
    (hb : -2147483648 ≤ s.bcl_cnt idx ∧ s.bcl_cnt idx < 2147483647) :
    (s.batt_psy_initialized = true → (irq_handler env s idx).gra_cnt idx = s.gra_cnt idx + 1) ∧
    (s.batt_psy_initialized = false → (irq_handler env s idx).gra_cnt idx = s.gra_cnt idx) ∧
    (∀ j, j ≠ idx → (irq_handler env s idx).gra_cnt j = s.gra_cnt j) ∧
    (google_bcl_irq_changed env s idx).bcl_cnt idx = s.bcl_cnt idx + 1 ∧
    (∀ j, j ≠ idx → (google_bcl_irq_changed env s idx).bcl_cnt j = s.bcl_cnt j) := by
  have e1 : s32 (s.gra_cnt idx + 1) = s.gra_cnt idx + 1 :=
    s32_of_range _ (by omega) (by omega)
  have e2 : s32 (s.bcl_cnt idx + 1) = s.bcl_cnt idx + 1 :=
    s32_of_range _ (by omega) (by omega)
  rw [irq_handler_gra_cnt, google_bcl_irq_changed_bcl_cnt]
  refine ⟨fun h => ?_, fun h => ?_, fun j hj => ?_, ?_, fun j hj => ?_⟩
  · rw [if_pos h]; simp [upd, e1]
  · simp [h]
  · split_ifs <;> simp [upd, hj]
  · simp [upd, e2]
  · simp [upd, hj]

/-- C13 witness: telemetry initialised, both counters go from 0 to 1. -/
theorem occurrence_counter_step_witness :
    (irq_handler env_ok dev_batt Source.SMPL_WARN).gra_cnt Source.SMPL_WARN
      = dev_batt.gra_cnt Source.SMPL_WARN + 1 ∧
    (google_bcl_irq_changed env_ok dev_batt Source.SMPL_WARN).bcl_cnt Source.SMPL_WARN
      = dev_batt.bcl_cnt Source.SMPL_WARN + 1 :=
  ⟨(occurrence_counter_step env_ok dev_batt Source.SMPL_WARN (by decide) (by decide)).1 rfl,
   (occurrence_counter_step env_ok dev_batt Source.SMPL_WARN (by decide) (by decide)).2.2.2.1⟩

/-- C13 counterexample: telemetry not yet initialised, `SMPL_WARN` idle with its
zone registered. The interrupt is handled (the debounce window opens and the
governor is notified) but `gra_cnt[SMPL_WARN]` stays 0. -/
theorem irq_without_telemetry_not_counted :
    dev0.batt_psy_initialized = false ∧ dev0.gra_cnt Source.SMPL_WARN = 0 ∧
    (irq_handler env_ok dev0 Source.SMPL_WARN).gra_tz_cnt Source.SMPL_WARN = 1 ∧
    notify_count Source.SMPL_WARN (irq_handler env_ok dev0 Source.SMPL_WARN).trace = 1 ∧
    (irq_handler env_ok dev0 Source.SMPL_WARN).gra_cnt Source.SMPL_WARN = 0 := by
  refine ⟨rfl, rfl, ?_, ?_, ?_⟩ <;> decide

end GoogleBcl

namespace GoogleBcl

/-! ## C14 : expiry of the debounce work -/

/-- C14: when the debounce work of an interrupt-line rail runs, the rail's
debounce counter `gra_tz_cnt[idx]` becomes 0 and the counters of the other rails
are kept, no call is made (in particular no governor notification), the cached
levels, the occurrence counters and the snapshots are unchanged, and the next
`triggered_read_level` succeeds and outputs the cached level with no margin
added. -/
theorem debounce_work_returns_to_idle (hd : Header) (s : bcl_device) (idx : Source)
    (h : idx ∈ irq_rails) (hl : s.gra_lvl idx < 2147483648) :
    (debounce_work s idx).gra_tz_cnt idx = 0 ∧
    (∀ j, j ≠ idx → (debounce_work s idx).gra_tz_cnt j = s.gra_tz_cnt j) ∧
    (debounce_work s idx).trace = s.trace ∧
    (debounce_work s idx).gra_lvl = s.gra_lvl ∧
    (debounce_work s idx).gra_cnt = s.gra_cnt ∧
    (debounce_work s idx).gra_stats = s.gra_stats ∧
    (triggered_read_level hd (debounce_work s idx) idx).1 = 0 ∧
    (triggered_read_level hd (debounce_work s idx) idx).2.1 = (s.gra_lvl idx : Int) := by
  obtain ⟨r1, r2, -⟩ := read_after_work hd s idx h
  refine ⟨?_, ?_, ?_, ?_, ?_, ?_, r1, ?_⟩
  · rw [debounce_work_irq_rail s idx h]; simp [warn_work, upd]
  · intro j hj; rw [debounce_work_irq_rail s idx h]; simp [warn_work, upd, hj]
  · rw [debounce_work_irq_rail s idx h]; rfl
  · rw [debounce_work_irq_rail s idx h]; rfl
  · rw [debounce_work_irq_rail s idx h]; rfl
  · rw [debounce_work_irq_rail s idx h]; rfl
  · rw [r2]; exact s32_natCast _ hl

/-- C14 witness: `OCP_WARN_CPUCL1` debouncing after an interrupt, then its work
`google_cpu1_warn_work` runs. -/
theorem debounce_work_returns_to_idle_witness :
    (irq_handler env_ok dev_batt Source.OCP_WARN_CPUCL1).gra_tz_cnt Source.OCP_WARN_CPUCL1 = 1 ∧
    (debounce_work (irq_handler env_ok dev_batt Source.OCP_WARN_CPUCL1)
      Source.OCP_WARN_CPUCL1).gra_tz_cnt Source.OCP_WARN_CPUCL1 = 0 ∧
    (triggered_read_level hdr0 (debounce_work (irq_handler env_ok dev_batt Source.OCP_WARN_CPUCL1)
      Source.OCP_WARN_CPUCL1) Source.OCP_WARN_CPUCL1).2.1
      = ((irq_handler env_ok dev_batt Source.OCP_WARN_CPUCL1).gra_lvl Source.OCP_WARN_CPUCL1 : Int) :=
  ⟨by decide,
   (debounce_work_returns_to_idle hdr0 (irq_handler env_ok dev_batt Source.OCP_WARN_CPUCL1)
      Source.OCP_WARN_CPUCL1 (by decide) (by decide)).1,
   (debounce_work_returns_to_idle hdr0 (irq_handler env_ok dev_batt Source.OCP_WARN_CPUCL1)
      Source.OCP_WARN_CPUCL1 (by decide) (by decide)).2.2.2.2.2.2.2⟩

end GoogleBcl

namespace GoogleBcl

/-! ## C15 : triggered_read_level -/

/-- The debounce work of a rail is `warn_work` or nothing. -/
theorem debounce_work_cases (s : bcl_device) (idx : Source) :
    debounce_work s idx = warn_work s idx ∨ debounce_work s idx = s := by
  cases idx <;> first | exact Or.inl rfl | exact Or.inr rfl

/-- Interrupts, reads and debounce works keep every debounce counter between 0
and `THERMAL_IRQ_COUNTER_LIMIT`. -/
theorem run_ops_gra_tz_cnt_range (hd : Header) (ops : List Op) :
    ∀ s : bcl_device, (∀ j, 0 ≤ s.gra_tz_cnt j ∧ s.gra_tz_cnt j ≤ THERMAL_IRQ_COUNTER_LIMIT) →
      ∀ j, 0 ≤ (run_ops hd s ops).gra_tz_cnt j ∧
        (run_ops hd s ops).gra_tz_cnt j ≤ THERMAL_IRQ_COUNTER_LIMIT := by
  induction ops with
  | nil => intro s h; exact h
  | cons o rest ih =>
    intro s h
    apply ih (Op.run hd s o)
    intro j
    have hj := h j
    unfold THERMAL_IRQ_COUNTER_LIMIT at hj ⊢
    cases o with
    | irq e idx =>
      show 0 ≤ (irq_handler e s idx).gra_tz_cnt j ∧ (irq_handler e s idx).gra_tz_cnt j ≤ 5
      by_cases h0 : s.gra_tz_cnt idx = 0
      · rw [(irq_handler_idle e s idx h0).2]
        unfold upd
        split_ifs
        · omega
        · exact hj
      · rw [(irq_handler_busy e s idx h0).2]
        exact hj
    | read idx =>
      show 0 ≤ (triggered_read_level hd s idx).2.2.gra_tz_cnt j ∧
        (triggered_read_level hd s idx).2.2.gra_tz_cnt j ≤ 5
      have hi := h idx
      unfold THERMAL_IRQ_COUNTER_LIMIT at hi
      unfold triggered_read_level THERMAL_IRQ_COUNTER_LIMIT
      split_ifs with hc
      · show 0 ≤ upd s.gra_tz_cnt idx (s.gra_tz_cnt idx + 1) j ∧
          upd s.gra_tz_cnt idx (s.gra_tz_cnt idx + 1) j ≤ 5
        unfold upd
        split_ifs
        · omega
        · exact hj
      · show 0 ≤ upd s.gra_tz_cnt idx 0 j ∧ upd s.gra_tz_cnt idx 0 j ≤ 5
        unfold upd
        split_ifs
        · omega
        · exact hj
    | work idx =>
      show 0 ≤ (debounce_work s idx).gra_tz_cnt j ∧ (debounce_work s idx).gra_tz_cnt j ≤ 5
      rcases debounce_work_cases s idx with hw | hw <;> rw [hw]
      · show 0 ≤ upd s.gra_tz_cnt idx 0 j ∧ upd s.gra_tz_cnt idx 0 j ≤ 5
        unfold upd
        split_ifs
        · omega
        · exact hj
      · exact hj

/-- C15: `triggered_read_level` always returns 0 and never modifies `gra_lvl`.
For a debounce counter that is not negative (the driver keeps it between 0 and
5) and levels that fit an `int`: if `0 < gra_tz_cnt[id] < 5` it outputs
`gra_lvl[id] + THERMAL_HYST_LEVEL` and increments `gra_tz_cnt[id]` by one,
otherwise it outputs `gra_lvl[id]` and sets `gra_tz_cnt[id]` to 0. The counters
of the other rails are kept. -/
theorem triggered_read_level_spec (hd : Header) (s : bcl_device) (id : Source)
    (h0 : 0 ≤ s.gra_tz_cnt id)
    (hl : s.gra_lvl id + hd.THERMAL_HYST_LEVEL < 2147483648) :
    (triggered_read_level hd s id).1 = 0 ∧
    (triggered_read_level hd s id).2.2.gra_lvl = s.gra_lvl ∧
    (∀ j, j ≠ id → (triggered_read_level hd s id).2.2.gra_tz_cnt j = s.gra_tz_cnt j) ∧
    (0 < s.gra_tz_cnt id ∧ s.gra_tz_cnt id < 5 →
      (triggered_read_level hd s id).2.1 = (s.gra_lvl id : Int) + (hd.THERMAL_HYST_LEVEL : Int) ∧
      (triggered_read_level hd s id).2.2.gra_tz_cnt id = s.gra_tz_cnt id + 1) ∧
    (¬ (0 < s.gra_tz_cnt id ∧ s.gra_tz_cnt id < 5) →
      (triggered_read_level hd s id).2.1 = (s.gra_lvl id : Int) ∧
      (triggered_read_level hd s id).2.2.gra_tz_cnt id = 0) := by
  have e1 : s32 (u32 ((s.gra_lvl id : Int) + (hd.THERMAL_HYST_LEVEL : Int)) : Int)
      = (s.gra_lvl id : Int) + (hd.THERMAL_HYST_LEVEL : Int) := by
    rw [s32_u32]
    exact s32_of_range _ (by omega) (by omega)
  have e2 : s32 (s.gra_lvl id : Int) = (s.gra_lvl id : Int) := s32_natCast _ (by omega)
  refine ⟨?_, triggered_read_level_gra_lvl hd s id, ?_, ?_, ?_⟩
  · unfold triggered_read_level; split_ifs <;> rfl
  · intro j hj
    unfold triggered_read_level
    split_ifs <;> simp [upd, hj]
  · intro hc
    have hc2 : s.gra_tz_cnt id ≠ 0 ∧ s.gra_tz_cnt id < THERMAL_IRQ_COUNTER_LIMIT := by
      unfold THERMAL_IRQ_COUNTER_LIMIT; omega
    unfold triggered_read_level
    rw [if_pos hc2]
    exact ⟨e1, by simp [upd]⟩
  · intro hc
    have hc2 : ¬ (s.gra_tz_cnt id ≠ 0 ∧ s.gra_tz_cnt id < THERMAL_IRQ_COUNTER_LIMIT) := by
      unfold THERMAL_IRQ_COUNTER_LIMIT; omega
    unfold triggered_read_level
    rw [if_neg hc2]
    exact ⟨e2, by simp [upd]⟩

/-- C15 witness: the read that follows an interrupt on the idle rail `SMPL_WARN`
returns 0, outputs 9500 + 100 and moves the counter from 1 to 2. -/
theorem triggered_read_level_spec_witness :
    (triggered_read_level hdr0 (irq_handler env_ok dev0 Source.SMPL_WARN) Source.SMPL_WARN).1 = 0 ∧
    (triggered_read_level hdr0 (irq_handler env_ok dev0 Source.SMPL_WARN) Source.SMPL_WARN).2.1
      = ((irq_handler env_ok dev0 Source.SMPL_WARN).gra_lvl Source.SMPL_WARN : Int)
        + (hdr0.THERMAL_HYST_LEVEL : Int) ∧
    (triggered_read_level hdr0 (irq_handler env_ok dev0 Source.SMPL_WARN)
      Source.SMPL_WARN).2.2.gra_tz_cnt Source.SMPL_WARN
      = (irq_handler env_ok dev0 Source.SMPL_WARN).gra_tz_cnt Source.SMPL_WARN + 1 :=
  ⟨(triggered_read_level_spec hdr0 (irq_handler env_ok dev0 Source.SMPL_WARN) Source.SMPL_WARN
      (by decide) (by decide)).1,
   (triggered_read_level_spec hdr0 (irq_handler env_ok dev0 Source.SMPL_WARN) Source.SMPL_WARN
      (by decide) (by decide)).2.2.2.1 (by decide)⟩

end GoogleBcl

namespace GoogleBcl

/-! ## C16 : interrupts while battery telemetry is unavailable -/

/-- C16 (as amended): an interrupt handled on an idle rail whose zone is
registered always opens the debounce window and notifies the governor once,
whatever the telemetry state. If the handle is present and telemetry is
initialised, the snapshot is rewritten and a failed capacity or voltage query
stores -1 in that field; if there is no handle, or telemetry is not yet
initialised, the snapshot is left as it was. -/
theorem irq_snapshot_without_telemetry (env : Env) (s : bcl_device) (idx : Source)
    (hidle : s.gra_tz_cnt idx = 0) (htz : s.gra_tz idx = true) :
    (irq_handler env s idx).gra_tz_cnt idx = 1 ∧
    notify_count idx (irq_handler env s idx).trace = notify_count idx s.trace + 1 ∧
    (s.batt_psy_initialized = true → s.batt_psy = true →
      ((irq_handler env s idx).gra_stats idx).time = env.ktime_ms ∧
      (env.capacity_ret < 0 → ((irq_handler env s idx).gra_stats idx).capacity = -1) ∧
      (env.voltage_ret < 0 → ((irq_handler env s idx).gra_stats idx).voltage = -1)) ∧
    (s.batt_psy_initialized = false ∨ s.batt_psy = false →
      (irq_handler env s idx).gra_stats idx = s.gra_stats idx) := by
  obtain ⟨i1, i2⟩ := irq_handler_idle env s idx hidle
  refine ⟨by rw [i2]; simp [upd], ?_, ?_, ?_⟩
  · rw [i1, htz]
    simp [notify_count, List.count_append, List.count_cons]
  · intro hi hp
    rw [irq_handler_gra_stats, if_pos ⟨hi, hp, rfl⟩]
    refine ⟨rfl, fun h => ?_, fun h => ?_⟩
    · show (if env.capacity_ret < 0 then (-1 : Int) else env.capacity_val) = -1
      rw [if_pos h]
    · show (if env.voltage_ret < 0 then (-1 : Int) else env.voltage_val) = -1
      rw [if_pos h]
  · intro h
    rw [irq_handler_gra_stats]
    rcases h with h | h <;> simp [h]

/-- C16 witness: handle present and telemetry initialised, both queries fail. -/
theorem irq_snapshot_without_telemetry_witness :
    (irq_handler env_no_telemetry dev_batt Source.SMPL_WARN).gra_tz_cnt Source.SMPL_WARN = 1 ∧
    ((irq_handler env_no_telemetry dev_batt Source.SMPL_WARN).gra_stats Source.SMPL_WARN).capacity
      = -1 ∧
    ((irq_handler env_no_telemetry dev_batt Source.SMPL_WARN).gra_stats Source.SMPL_WARN).voltage
      = -1 :=
  ⟨(irq_snapshot_without_telemetry env_no_telemetry dev_batt Source.SMPL_WARN rfl rfl).1,
   ((irq_snapshot_without_telemetry env_no_telemetry dev_batt Source.SMPL_WARN rfl rfl).2.2.1
      rfl rfl).2.1 (by decide),
   ((irq_snapshot_without_telemetry env_no_telemetry dev_batt Source.SMPL_WARN rfl rfl).2.2.1
      rfl rfl).2.2 (by decide)⟩

/-- C16 counterexample: no power-supply handle and telemetry not initialised,
`SMPL_WARN` idle with its zone registered. The interrupt opens the debounce
window and notifies the governor, and the snapshot still holds capacity 0 and
voltage 0, not -1. -/
theorem no_handle_snapshot_not_unknown :
    dev0.batt_psy = false ∧ dev0.batt_psy_initialized = false ∧
    dev0.gra_tz_cnt Source.SMPL_WARN = 0 ∧
    (irq_handler env_ok dev0 Source.SMPL_WARN).gra_tz_cnt Source.SMPL_WARN = 1 ∧
    notify_count Source.SMPL_WARN (irq_handler env_ok dev0 Source.SMPL_WARN).trace = 1 ∧
    (irq_handler env_ok dev0 Source.SMPL_WARN).gra_stats Source.SMPL_WARN
      = { time := 0, capacity := 0, voltage := 0 } := by
  refine ⟨rfl, rfl, rfl, ?_, ?_, ?_⟩ <;> decide

end GoogleBcl

namespace GoogleBcl

/-! ## C17 : what the get-threshold operations change -/

/-- The OCP `*_lvl_show` body makes one register read and changes nothing else. -/
theorem ocp_lvl_show_state (env : Env) (s : bcl_device) (addr : Nat) (pmic : Pmic)
    (limit step : Nat) :
    (ocp_lvl_show env s addr pmic limit step).2 = emit s (Event.reg_read pmic addr) := by
  simp only [ocp_lvl_show, get_ocp_lvl, S2MPG1X_READ]
  split_ifs <;> rfl

/-- The function `smpl_lvl_show` makes at most one register read and changes
nothing else. -/
theorem smpl_lvl_show_state (env : Env) (hd : Header) (s : bcl_device) :
    (smpl_lvl_show env hd s).2 = s ∨
    (smpl_lvl_show env hd s).2 = emit s (Event.reg_read Pmic.MAIN hd.SMPL_WARN_CTRL) := by
  simp only [smpl_lvl_show, S2MPG1X_READ]
  split_ifs <;> first | exact Or.inl rfl | exact Or.inr rfl

/-- The device `uvlo_lvl_show` leaves when the read callback is installed. -/
theorem uvlo_lvl_show_state (env : Env) (hd : Header) (s : bcl_device) (m : Source)
    (hcb : ∀ ops, s.pmic_ops = some ops → ops.cb_uvlo_read = true) :
    ∃ r, uvlo_lvl_show env hd s m = some r ∧
      r.2 = if s.intf_pmic_i2c = true ∧ s.pmic_ops.isSome = true ∧ 0 ≤ env.uvlo_read_ret m then
          { s with
            bcl_lvl := upd s.bcl_lvl m
              (u32 ((hd.VD_BATTERY_VOLTAGE : Int) - (env.uvlo_read_val m : Int)))
            bcl_read_lvl := upd s.bcl_read_lvl m
              (u32 ((hd.VD_BATTERY_VOLTAGE : Int) - (env.uvlo_read_val m : Int)
                - (hd.THERMAL_HYST_LEVEL : Int))) }
        else s := by
  by_cases hi : s.intf_pmic_i2c = true
  · by_cases hs : s.pmic_ops.isSome = true
    · obtain ⟨ops, hops⟩ := Option.isSome_iff_exists.mp hs
      have hc := hcb ops hops
      by_cases hr : env.uvlo_read_ret m < 0
      · have e : uvlo_lvl_show env hd s m = some (Except.error (-EINVAL), s) := by
          simp [uvlo_lvl_show, bcl_cb_uvlo_read, hi, hops, hc, hr]
        exact ⟨_, e, (if_neg (fun h => (Int.not_le.mpr hr) h.2.2)).symm⟩
      · have e : uvlo_lvl_show env hd s m = some (Except.ok (env.uvlo_read_val m),
            { s with
              bcl_lvl := upd s.bcl_lvl m
                (u32 ((hd.VD_BATTERY_VOLTAGE : Int) - (env.uvlo_read_val m : Int)))
              bcl_read_lvl := upd s.bcl_read_lvl m
                (u32 ((hd.VD_BATTERY_VOLTAGE : Int) - (env.uvlo_read_val m : Int)
                  - (hd.THERMAL_HYST_LEVEL : Int))) }) := by
          simp [uvlo_lvl_show, bcl_cb_uvlo_read, hi, hops, hc, hr]
        exact ⟨_, e, (if_pos ⟨hi, hs, Int.not_lt.mp hr⟩).symm⟩
    · have hops : s.pmic_ops = none := by
        cases h : s.pmic_ops with
        | none => rfl
        | some o => rw [h] at hs; exact absurd rfl hs
      have e : uvlo_lvl_show env hd s m = some (Except.error (-EINVAL), s) := by
        simp [uvlo_lvl_show, bcl_cb_uvlo_read, hi, hops, ENODEV]
      exact ⟨_, e, (if_neg (fun h => hs h.2.1)).symm⟩
  · have e : uvlo_lvl_show env hd s m = some (Except.error (-EBUSY), s) := by
      simp [uvlo_lvl_show, hi]
    exact ⟨_, e, (if_neg (fun h => hi h.1)).symm⟩

/-- The device `batoilo_lvl_show` leaves when the read callback is installed. -/
theorem batoilo_lvl_show_state (env : Env) (hd : Header) (s : bcl_device)
    (hcb : ∀ ops, s.pmic_ops = some ops → ops.cb_batoilo_read = true) :
    ∃ r, batoilo_lvl_show env hd s = some r ∧
      r.2 = if s.intf_pmic_i2c = true ∧ s.pmic_ops.isSome = true ∧ 0 ≤ env.batoilo_read_ret then
          { s with bcl_lvl := upd s.bcl_lvl Source.BATOILO (u32 (env.batoilo_read_val : Int)) }
        else s := by
  by_cases hi : s.intf_pmic_i2c = true
  · by_cases hs : s.pmic_ops.isSome = true
    · obtain ⟨ops, hops⟩ := Option.isSome_iff_exists.mp hs
      have hc := hcb ops hops
      by_cases hr : env.batoilo_read_ret < 0
      · have e : batoilo_lvl_show env hd s = some (Except.error (-EINVAL), s) := by
          simp [batoilo_lvl_show, bcl_cb_batoilo_read, hi, hops, hc, hr]
        exact ⟨_, e, (if_neg (fun h => (Int.not_le.mpr hr) h.2.2)).symm⟩
      · have e : batoilo_lvl_show env hd s = some (Except.ok env.batoilo_read_val,
            { s with
              bcl_lvl := upd s.bcl_lvl Source.BATOILO (u32 (env.batoilo_read_val : Int)) }) := by
          simp [batoilo_lvl_show, bcl_cb_batoilo_read, hi, hops, hc, hr]
        exact ⟨_, e, (if_pos ⟨hi, hs, Int.not_lt.mp hr⟩).symm⟩
    · have hops : s.pmic_ops = none := by
        cases h : s.pmic_ops with
        | none => rfl
        | some o => rw [h] at hs; exact absurd rfl hs
      have e : batoilo_lvl_show env hd s = some (Except.error (-EINVAL), s) := by
        simp [batoilo_lvl_show, bcl_cb_batoilo_read, hi, hops, ENODEV]
      exact ⟨_, e, (if_neg (fun h => hs h.2.1)).symm⟩
  · have e : batoilo_lvl_show env hd s = some (Except.error (-EBUSY), s) := by
      simp [batoilo_lvl_show, hi]
    exact ⟨_, e, (if_neg (fun h => hi h.1)).symm⟩

/-- C17 (as amended): the eight OCP `*_lvl_show` functions and `smpl_lvl_show`
leave the whole driver state unchanged (only the log of bus transfers grows).
With the read callbacks installed, `uvlo1_lvl_show` and `uvlo2_lvl_show` return,
and on a successful read they overwrite the cached level `bcl_lvl[m]` with
`VD_BATTERY_VOLTAGE - lvl` and the reported level `bcl_read_lvl[m]` with
`VD_BATTERY_VOLTAGE - lvl - THERMAL_HYST_LEVEL`, everything else being unchanged;
`batoilo_lvl_show` returns and on a successful read overwrites the cached level
`bcl_lvl[BATOILO]` with the level read, leaving the levels of the other rails and
every field other than the levels unchanged (nothing is stated here about
`bcl_read_lvl[BATOILO]` after a successful read). A show whose chip is missing
or whose read fails changes nothing. -/
theorem lvl_show_frame (env : Env) (hd : Header) (s : bcl_device)
    (hcb : ∀ ops, s.pmic_ops = some ops →
      ops.cb_uvlo_read = true ∧ ops.cb_batoilo_read = true) :
    (∀ e ∈ ocp_lvl_shows, (e.1 env hd s).2 = { s with trace := (e.1 env hd s).2.trace }) ∧
    (smpl_lvl_show env hd s).2 = { s with trace := (smpl_lvl_show env hd s).2.trace } ∧
    (∃ r, uvlo1_lvl_show env hd s = some r ∧
      r.2 = if s.intf_pmic_i2c = true ∧ s.pmic_ops.isSome = true ∧
            0 ≤ env.uvlo_read_ret Source.UVLO1 then
          { s with
            bcl_lvl := upd s.bcl_lvl Source.UVLO1
              (u32 ((hd.VD_BATTERY_VOLTAGE : Int) - (env.uvlo_read_val Source.UVLO1 : Int)))
            bcl_read_lvl := upd s.bcl_read_lvl Source.UVLO1
              (u32 ((hd.VD_BATTERY_VOLTAGE : Int) - (env.uvlo_read_val Source.UVLO1 : Int)
                - (hd.THERMAL_HYST_LEVEL : Int))) }
        else s) ∧
    (∃ r, uvlo2_lvl_show env hd s = some r ∧
      r.2 = if s.intf_pmic_i2c = true ∧ s.pmic_ops.isSome = true ∧
            0 ≤ env.uvlo_read_ret Source.UVLO2 then
          { s with
            bcl_lvl := upd s.bcl_lvl Source.UVLO2
              (u32 ((hd.VD_BATTERY_VOLTAGE : Int) - (env.uvlo_read_val Source.UVLO2 : Int)))
            bcl_read_lvl := upd s.bcl_read_lvl Source.UVLO2
              (u32 ((hd.VD_BATTERY_VOLTAGE : Int) - (env.uvlo_read_val Source.UVLO2 : Int)
                - (hd.THERMAL_HYST_LEVEL : Int))) }
        else s) ∧
    (∃ r, batoilo_lvl_show env hd s = some r ∧
      { r.2 with bcl_lvl := s.bcl_lvl, bcl_read_lvl := s.bcl_read_lvl } = s ∧
      (∀ j, j ≠ Source.BATOILO →
        r.2.bcl_lvl j = s.bcl_lvl j ∧ r.2.bcl_read_lvl j = s.bcl_read_lvl j) ∧
      (s.intf_pmic_i2c = true ∧ s.pmic_ops.isSome = true ∧ 0 ≤ env.batoilo_read_ret →
        r.2.bcl_lvl Source.BATOILO = u32 (env.batoilo_read_val : Int)) ∧
      (¬ (s.intf_pmic_i2c = true ∧ s.pmic_ops.isSome = true ∧ 0 ≤ env.batoilo_read_ret) →
        r.2 = s)) := by
  refine ⟨?_, ?_, uvlo_lvl_show_state env hd s Source.UVLO1 (fun ops h => (hcb ops h).1),
    uvlo_lvl_show_state env hd s Source.UVLO2 (fun ops h => (hcb ops h).1), ?_⟩
  · intro e he
    simp only [ocp_lvl_shows, List.mem_cons, List.mem_nil_iff, or_false] at he
    rcases he with h | h | h | h | h | h | h | h <;> subst h <;>
      simp only [ocp_cpu1_lvl_show, ocp_cpu2_lvl_show, ocp_tpu_lvl_show, ocp_gpu_lvl_show,
        soft_ocp_cpu1_lvl_show, soft_ocp_cpu2_lvl_show, soft_ocp_tpu_lvl_show,
        soft_ocp_gpu_lvl_show, ocp_lvl_show_state] <;> rfl
  · rcases smpl_lvl_show_state env hd s with h | h <;> first | (rw [h]; rfl) | rw [h]
  · obtain ⟨r, h1, h2⟩ := batoilo_lvl_show_state env hd s (fun ops h => (hcb ops h).2)
    refine ⟨r, h1, ?_⟩
    by_cases hc : s.intf_pmic_i2c = true ∧ s.pmic_ops.isSome = true ∧ 0 ≤ env.batoilo_read_ret
    · rw [if_pos hc] at h2
      rw [h2]
      exact ⟨rfl, fun j hj => ⟨by simp [upd, hj], rfl⟩, fun _ => by simp [upd],
        fun h => absurd hc h⟩
    · rw [if_neg hc] at h2
      rw [h2]
      exact ⟨rfl, fun _ _ => ⟨rfl, rfl⟩, fun h => absurd h hc, fun _ => rfl⟩

/-- C17 witness: on the probed device `ocp_cpu1_lvl_show` changes nothing but
the transfer log, and `uvlo1_lvl_show` returns. -/
theorem lvl_show_frame_witness :
    (ocp_cpu1_lvl_show env_ok hdr0 dev0).2
      = { dev0 with trace := (ocp_cpu1_lvl_show env_ok hdr0 dev0).2.trace } ∧
    (smpl_lvl_show env_ok hdr0 dev0).2
      = { dev0 with trace := (smpl_lvl_show env_ok hdr0 dev0).2.trace } :=
  ⟨(lvl_show_frame env_ok hdr0 dev0
      (fun ops h => by
        have h1 : ops = ⟨true, true, true, true, true⟩ :=
          (Option.some.inj (h : some _ = some ops)).symm
        subst h1
        exact ⟨rfl, rfl⟩)).1
      (ocp_cpu1_lvl_show, Pmic.MAIN, Header.B3M_OCP_WARN, B3M_LOWER_LIMIT, B3M_UPPER_LIMIT,
        B3M_STEP) (by simp [ocp_lvl_shows]),
   (lvl_show_frame env_ok hdr0 dev0
      (fun ops h => by
        have h1 : ops = ⟨true, true, true, true, true⟩ :=
          (Option.some.inj (h : some _ = some ops)).symm
        subst h1
        exact ⟨rfl, rfl⟩)).2.1⟩

/-- C17 counterexample: on the probed device, with cached level 1000 and reported
level 900 for `UVLO1`, `uvlo1_lvl_show` reads 3000 mV, prints it, and leaves the
cached level at 4200 - 3000 = 1200 and the reported level at 1100;
`batoilo_lvl_show` leaves the cached level of `BATOILO` at 5000. -/
theorem uvlo1_lvl_show_rewrites_levels :
    dev0.bcl_lvl Source.UVLO1 = 1000 ∧ dev0.bcl_read_lvl Source.UVLO1 = 900 ∧
    dev0.bcl_lvl Source.BATOILO = 1000 ∧
    (uvlo1_lvl_show env_ok hdr0 dev0).map
        (fun r => (r.1, r.2.bcl_lvl Source.UVLO1, r.2.bcl_read_lvl Source.UVLO1))
      = some (Except.ok 3000, 1200, 1100) ∧
    (batoilo_lvl_show env_ok hdr0 dev0).map (fun r => (r.1, r.2.bcl_lvl Source.BATOILO))
      = some (Except.ok 5000, 5000) := by
  refine ⟨rfl, rfl, rfl, ?_, ?_⟩ <;> rfl

end GoogleBcl

namespace GoogleBcl

/-! ## C18 : the poll step of the polled rails -/

/-- C18: `google_bcl_intf_pmic_work` with the callback installed, the interface
chip present and a successful condition query. If the condition is still present
(`vdroop_ok` false) it returns 0, leaves every debounce counter `bcl_tz_cnt`
unchanged and makes exactly three calls: lock, `mod_delayed_work` of the rail's
poll after `VD_DELAY`, unlock; so no governor notification is emitted and the
poll is re-armed. If the condition is absent (`vdroop_ok` true), on a rail whose
zone is registered or which is idle, it returns 0, sets `bcl_tz_cnt[idx]` to 0
and `bcl_read_lvl[idx]` to `bcl_lvl[idx] - THERMAL_HYST_LEVEL` (unsigned), and
its only calls are lock, a governor notification when the rail was debouncing,
and unlock; so no poll is re-armed. -/
theorem intf_pmic_work_step (env : Env) (hd : Header) (s : bcl_device) (idx : Source)
    (ops : bcl_ifpmic_ops) (hops : s.pmic_ops = some ops) (hcb : ops.cb_get_vdroop_ok = true)
    (hi2c : s.intf_pmic_i2c = true) (hq : 0 ≤ env.vdroop_ok_ret) :
    (env.vdroop_ok_val = false →
      ∃ t, google_bcl_intf_pmic_work env hd s idx = some (0, t) ∧
        t.bcl_tz_cnt = s.bcl_tz_cnt ∧
        t.trace = s.trace ++
          [Event.mutex_lock (Lock.bcl_irq_lock idx),
           Event.mod_delayed_work (Work.bcl_irq_work idx) hd.VD_DELAY,
           Event.mutex_unlock (Lock.bcl_irq_lock idx)]) ∧
    (env.vdroop_ok_val = true → s.bcl_tz idx = true ∨ s.bcl_tz_cnt idx = 0 →
      ∃ t, google_bcl_intf_pmic_work env hd s idx = some (0, t) ∧
        t.bcl_tz_cnt idx = 0 ∧
        t.bcl_read_lvl idx = u32 ((s.bcl_lvl idx : Int) - (hd.THERMAL_HYST_LEVEL : Int)) ∧
        t.trace = s.trace ++
          (Event.mutex_lock (Lock.bcl_irq_lock idx) ::
            ((if s.bcl_tz_cnt idx ≠ 0 then [Event.thermal_zone_device_update (Zone.bcl_tz idx)]
              else []) ++ [Event.mutex_unlock (Lock.bcl_irq_lock idx)]))) := by
  have hq1 : ¬ env.vdroop_ok_ret < 0 := by omega
  refine ⟨fun hv => ?_, fun hv hz => ?_⟩
  · simp [google_bcl_intf_pmic_work, bcl_cb_vdroop_ok, emit, hops, hcb, hi2c, hq1, hv]
  · by_cases hc : s.bcl_tz_cnt idx = 0
    · simp [google_bcl_intf_pmic_work, bcl_cb_vdroop_ok, emit, hops, hcb, hi2c, hq1, hv, hc, upd]
    · have htz : s.bcl_tz idx = true := by
        rcases hz with h | h
        · exact h
        · exact absurd h hc
      simp [google_bcl_intf_pmic_work, bcl_cb_vdroop_ok, emit, hops, hcb, hi2c, hq1, hv, hc, htz,
        upd]

/-- C18 witness: `UVLO1` on the probed device, once with the droop still present
and once with the droop gone. -/
theorem intf_pmic_work_step_witness :
    (∃ t, google_bcl_intf_pmic_work env_droop hdr0 dev0 Source.UVLO1 = some (0, t) ∧
        t.bcl_tz_cnt = dev0.bcl_tz_cnt ∧
        t.trace = dev0.trace ++
          [Event.mutex_lock (Lock.bcl_irq_lock Source.UVLO1),
           Event.mod_delayed_work (Work.bcl_irq_work Source.UVLO1) hdr0.VD_DELAY,
           Event.mutex_unlock (Lock.bcl_irq_lock Source.UVLO1)]) ∧
    (∃ t, google_bcl_intf_pmic_work env_ok hdr0 dev0 Source.UVLO1 = some (0, t) ∧
        t.bcl_tz_cnt Source.UVLO1 = 0 ∧
        t.bcl_read_lvl Source.UVLO1
          = u32 ((dev0.bcl_lvl Source.UVLO1 : Int) - (hdr0.THERMAL_HYST_LEVEL : Int)) ∧
        t.trace = dev0.trace ++
          (Event.mutex_lock (Lock.bcl_irq_lock Source.UVLO1) ::
            ((if dev0.bcl_tz_cnt Source.UVLO1 ≠ 0 then
                [Event.thermal_zone_device_update (Zone.bcl_tz Source.UVLO1)]
              else []) ++ [Event.mutex_unlock (Lock.bcl_irq_lock Source.UVLO1)]))) :=
  ⟨(intf_pmic_work_step env_droop hdr0 dev0 Source.UVLO1 ⟨true, true, true, true, true⟩
      rfl rfl rfl (by decide)).1 rfl,
   (intf_pmic_work_step env_ok hdr0 dev0 Source.UVLO1 ⟨true, true, true, true, true⟩
      rfl rfl rfl (by decide)).2 rfl (Or.inl rfl)⟩

end GoogleBcl

namespace GoogleBcl

/-! ## C19 : error values of the failure classes -/

/-- C19 (as amended): the failure classes are distinguishable from the returned
error value only in part. `smpl_lvl_store` returns `-EINVAL` for an out-of-range
request, `-EIO` for a missing main chip and `-EBUSY` for a failed register read,
three different values. `uvlo1_lvl_store` and `uvlo2_lvl_store` return `-EINVAL`
for an out-of-range request, but `-EIO` both for a missing interface chip and
for a failed write. `set_ocp_lvl` returns `-EBUSY` both for an out-of-range
request and for a failed register read. -/
theorem threshold_failure_codes (env : Env) (hd : Header) (s : bcl_device) (value size : Nat) :
    ((value < SMPL_LOWER_LIMIT ∨ value > SMPL_UPPER_LIMIT →
        (smpl_lvl_store env hd s value size).map Prod.fst = some (-EINVAL)) ∧
      (¬ (value < SMPL_LOWER_LIMIT ∨ value > SMPL_UPPER_LIMIT) → s.main_pmic_i2c = false →
        (smpl_lvl_store env hd s value size).map Prod.fst = some (- EIO)) ∧
      (¬ (value < SMPL_LOWER_LIMIT ∨ value > SMPL_UPPER_LIMIT) → s.main_pmic_i2c = true →
        env.read_ret Pmic.MAIN hd.SMPL_WARN_CTRL ≠ 0 →
        (smpl_lvl_store env hd s value size).map Prod.fst = some (-EBUSY))) ∧
    (∀ e ∈ [(uvlo1_lvl_store, Source.UVLO1), (uvlo2_lvl_store, Source.UVLO2)],
      (value < hd.VD_LOWER_LIMIT ∨ value > hd.VD_UPPER_LIMIT →
        (e.1 env hd s value size).map Prod.fst = some (-EINVAL)) ∧
      (¬ (value < hd.VD_LOWER_LIMIT ∨ value > hd.VD_UPPER_LIMIT) → s.intf_pmic_i2c = false →
        (e.1 env hd s value size).map Prod.fst = some (- EIO)) ∧
      (¬ (value < hd.VD_LOWER_LIMIT ∨ value > hd.VD_UPPER_LIMIT) → s.intf_pmic_i2c = true →
        ∀ ops, s.pmic_ops = some ops → ops.cb_uvlo_write = true → env.uvlo_write_ret e.2 < 0 →
        (e.1 env hd s value size).map Prod.fst = some (- EIO))) ∧
    (∀ (addr : Nat) (pmic : Pmic) (mask llimit ulimit step : Nat) (id : Source),
      (value < llimit ∨ value > ulimit →
        (set_ocp_lvl env hd s value addr pmic mask llimit ulimit step id).map Prod.fst
          = some (-EBUSY)) ∧
      (¬ (value < llimit ∨ value > ulimit) → env.read_ret pmic addr ≠ 0 →
        (set_ocp_lvl env hd s value addr pmic mask llimit ulimit step id).map Prod.fst
          = some (-EBUSY))) ∧
    -EINVAL ≠ - EIO ∧ -EINVAL ≠ -EBUSY ∧ - EIO ≠ -EBUSY := by
  refine ⟨⟨fun h => ?_, fun h hi => ?_, fun h hi hr => ?_⟩, ?_, ?_, by decide, by decide,
    by decide⟩
  · simp [smpl_lvl_store, h]
  · simp [smpl_lvl_store, h, hi]
  · simp [smpl_lvl_store, S2MPG1X_READ, h, hi, hr]
  · intro e he
    simp only [List.mem_cons, List.mem_nil_iff, or_false] at he
    rcases he with he | he <;> subst he
    · refine ⟨fun h => ?_, fun h hi => ?_, fun h hi ops hops hcb hr => ?_⟩
      · simp [uvlo1_lvl_store, uvlo_lvl_store, h]
      · simp [uvlo1_lvl_store, uvlo_lvl_store, h, hi]
      · simp [uvlo1_lvl_store, uvlo_lvl_store, bcl_cb_uvlo_write, h, hi, hops, hcb, hr]
    · refine ⟨fun h => ?_, fun h hi => ?_, fun h hi ops hops hcb hr => ?_⟩
      · simp [uvlo2_lvl_store, uvlo_lvl_store, h]
      · simp [uvlo2_lvl_store, uvlo_lvl_store, h, hi]
      · simp [uvlo2_lvl_store, uvlo_lvl_store, bcl_cb_uvlo_write, h, hi, hops, hcb, hr]
  · intro addr pmic mask llimit ulimit step id
    refine ⟨fun h => ?_, fun h hr => ?_⟩
    · simp [set_ocp_lvl, h]
    · simp [set_ocp_lvl, S2MPG1X_READ, h, hr]

/-- C19 witness: the three error values of `smpl_lvl_store` on the probed device:
2000 mV is out of range, the main chip is missing, the register read fails. -/
theorem threshold_failure_codes_witness :
    (smpl_lvl_store env_ok hdr0 dev0 2000 4).map Prod.fst = some (-EINVAL) ∧
    (smpl_lvl_store env_ok hdr0 { dev0 with main_pmic_i2c := false } 3000 4).map Prod.fst
      = some (- EIO) ∧
    (smpl_lvl_store env_read_fail hdr0 dev0 3000 4).map Prod.fst = some (-EBUSY) :=
  ⟨(threshold_failure_codes env_ok hdr0 dev0 2000 4).1.1 (by decide),
   (threshold_failure_codes env_ok hdr0 { dev0 with main_pmic_i2c := false } 3000 4).1.2.1
      (by decide) rfl,
   (threshold_failure_codes env_read_fail hdr0 dev0 3000 4).1.2.2 (by decide) rfl (by decide)⟩

/-- C19 counterexample: on the probed device `uvlo1_lvl_store` of 3000 mV returns
-5 (`-EIO`) when the interface chip is missing and -5 again when the chip is
present and the write callback fails; `set_ocp_lvl` for `ocp_cpu1` returns -16
(`-EBUSY`) for the out-of-range request 100 mA and -16 again for the in-range
request 6000 mA whose register read fails. -/
theorem missing_chip_and_failed_write_same_code :
    (uvlo1_lvl_store env_ok hdr0 { dev0 with intf_pmic_i2c := false } 3000 4).map Prod.fst
      = some (-5) ∧
    (uvlo1_lvl_store env_cb_write_fail hdr0 dev0 3000 4).map Prod.fst = some (-5) ∧
    (set_ocp_lvl env_ok hdr0 dev0 100 hdr0.B3M_OCP_WARN Pmic.MAIN OCP_WARN_MASK
      B3M_LOWER_LIMIT B3M_UPPER_LIMIT B3M_STEP Source.OCP_WARN_CPUCL1).map Prod.fst
      = some (-16) ∧
    (set_ocp_lvl env_read_fail hdr0 dev0 6000 hdr0.B3M_OCP_WARN Pmic.MAIN OCP_WARN_MASK
      B3M_LOWER_LIMIT B3M_UPPER_LIMIT B3M_STEP Source.OCP_WARN_CPUCL1).map Prod.fst
      = some (-16) := by
  refine ⟨?_, ?_, ?_, ?_⟩ <;> decide

end GoogleBcl

namespace GoogleBcl

/-! ## C20 : the mitigation switch -/

/-- Bits of `x | 0x1`. -/
theorem or_one_testBit (x k : Nat) : (x ||| 1).testBit k = (decide (k = 0) || x.testBit k) := by
  rw [Nat.testBit_or]
  cases k with
  | zero => simp
  | succ j => simp [Nat.testBit_succ, Bool.or_comm]

/-- Bits of `x & ~(1 << 0)` for a 32-bit word. -/
theorem and_not_one_testBit (x k : Nat) (hx : x < 4294967296) :
    (x &&& 4294967294).testBit k = (!decide (k = 0) && x.testBit k) := by
  rw [Nat.testBit_and]
  cases k with
  | zero => simp
  | succ j =>
    have h1 : (4294967294 : Nat).testBit (j + 1) = decide (j < 31) := by
      rw [Nat.testBit_succ]
      exact Nat.testBit_two_pow_sub_one 31 j
    rw [h1]
    by_cases hj : j < 31
    · simp [hj]
    · have := testBit_small x 32 (j + 1) (by norm_num; exact hx) (by omega)
      simp [hj, this]

theorem or_one_lt (x : Nat) (hx : x < 4294967296) : x ||| 1 < 4294967296 :=
  Nat.or_lt_two_pow (n := 32) hx (by norm_num)

theorem and_not_one_lt (x : Nat) (hx : x < 4294967296) : x &&& 4294967294 < 4294967296 :=
  lt_of_le_of_lt Nat.and_le_left hx

/-- The loop of `enable_mitigation_store` when the three CPU blocks are mapped. -/
theorem clkdivstep_loop_spec (s : bcl_device) (f : Nat → Nat)
    (h0 : s.base_mem SUBSYSTEM_SOURCE.CPU0 = true) (h1 : s.base_mem SUBSYSTEM_SOURCE.CPU1 = true)
    (h2 : s.base_mem SUBSYSTEM_SOURCE.CPU2 = true) :
    ∃ t, clkdivstep_loop s f = some t ∧
      t.enabled = s.enabled ∧ t.gpu_clkdivstep = s.gpu_clkdivstep ∧
      t.tpu_clkdivstep = s.tpu_clkdivstep ∧
      (∀ i ∈ [SUBSYSTEM_SOURCE.CPU0, SUBSYSTEM_SOURCE.CPU1, SUBSYSTEM_SOURCE.CPU2],
        t.iomem i CLKDIVSTEP = u32 (f (u32 (s.iomem i CLKDIVSTEP : Int)) : Int)) ∧
      (∀ i off, i = SUBSYSTEM_SOURCE.TPU ∨ i = SUBSYSTEM_SOURCE.GPU ∨ off ≠ CLKDIVSTEP →
        t.iomem i off = s.iomem i off) := by
  simp [clkdivstep_loop, clkdivstep_update, emit, h0, h1, h2]
  intro i off h
  rcases h with h | h | h <;> simp [h]


/-- Bit `k` of a 32-bit word after `x | 0x1` (`v` true) or `x & ~(1 << 0)`
(`v` false). -/
theorem bit0_word (x k : Nat) (v : Bool) (hx : x < 4294967296) :
    (u32 ((if v = true then x ||| 1 else x &&& 4294967294 : Nat) : Int)).testBit k
      = if k = 0 then v else x.testBit k := by
  cases v
  · simp only [Bool.false_eq_true, if_false]
    rw [u32_natCast _ (and_not_one_lt x hx), and_not_one_testBit x k hx]
    by_cases hk : k = 0 <;> simp [hk]
  · simp only [if_true]
    rw [u32_natCast _ (or_one_lt x hx), or_one_testBit]
    by_cases hk : k = 0 <;> simp [hk]

/-- The function `enable_mitigation_store` when the flag changes and the three
CPU blocks are mapped. -/
theorem enable_mitigation_store_flip (s : bcl_device) (v : Bool) (size : Nat)
    (hne : s.enabled ≠ v)
    (h0 : s.base_mem SUBSYSTEM_SOURCE.CPU0 = true) (h1 : s.base_mem SUBSYSTEM_SOURCE.CPU1 = true)
    (h2 : s.base_mem SUBSYSTEM_SOURCE.CPU2 = true) :
    ∃ t, enable_mitigation_store s v size = some ((size : Int), t) ∧
      t.enabled = v ∧
      t.gpu_clkdivstep = u32 ((if v = true then s.gpu_clkdivstep ||| 1
        else s.gpu_clkdivstep &&& 4294967294 : Nat) : Int) ∧
      t.tpu_clkdivstep = u32 ((if v = true then s.tpu_clkdivstep ||| 1
        else s.tpu_clkdivstep &&& 4294967294 : Nat) : Int) ∧
      (∀ i ∈ [SUBSYSTEM_SOURCE.CPU0, SUBSYSTEM_SOURCE.CPU1, SUBSYSTEM_SOURCE.CPU2],
        t.iomem i CLKDIVSTEP = u32 ((if v = true then u32 (s.iomem i CLKDIVSTEP : Int) ||| 1
          else u32 (s.iomem i CLKDIVSTEP : Int) &&& 4294967294 : Nat) : Int)) ∧
      (∀ i off, i = SUBSYSTEM_SOURCE.TPU ∨ i = SUBSYSTEM_SOURCE.GPU ∨ off ≠ CLKDIVSTEP →
        t.iomem i off = s.iomem i off) := by
  cases v
  · obtain ⟨t, ht, e1, e2, e3, e4, e5⟩ := clkdivstep_loop_spec
      { s with
        enabled := false
        gpu_clkdivstep := u32 ((s.gpu_clkdivstep &&& 4294967294 : Nat) : Int)
        tpu_clkdivstep := u32 ((s.tpu_clkdivstep &&& 4294967294 : Nat) : Int) }
      (fun reg => reg &&& 4294967294) h0 h1 h2
    have e : enable_mitigation_store s false size = some ((size : Int), t) := by
      unfold enable_mitigation_store
      rw [if_neg hne]
      exact congrArg (Option.map fun s4 => ((size : Int), s4)) ht
    exact ⟨t, e, e1, e2, e3, e4, e5⟩
  · obtain ⟨t, ht, e1, e2, e3, e4, e5⟩ := clkdivstep_loop_spec
      { s with
        enabled := true
        gpu_clkdivstep := u32 ((s.gpu_clkdivstep ||| 1 : Nat) : Int)
        tpu_clkdivstep := u32 ((s.tpu_clkdivstep ||| 1 : Nat) : Int) }
      (fun reg => reg ||| 1) h0 h1 h2
    have e : enable_mitigation_store s true size = some ((size : Int), t) := by
      unfold enable_mitigation_store
      rw [if_neg hne]
      exact congrArg (Option.map fun s4 => ((size : Int), s4)) ht
    exact ⟨t, e, e1, e2, e3, e4, e5⟩

/-- C20: `enable_mitigation_store` with a parsed boolean `v`, the three CPU
register blocks mapped and 32-bit words. If `v` equals the current `enabled`
flag it returns the size and changes nothing, making no register access.
Otherwise it returns the size, `enabled` becomes `v`, and in each of
`gpu_clkdivstep`, `tpu_clkdivstep` and the `CLKDIVSTEP` registers of CPU0, CPU1
and CPU2 bit 0 becomes `v` while every other bit is unchanged; no other
memory-mapped register changes. -/
theorem enable_mitigation_store_bit0 (s : bcl_device) (v : Bool) (size : Nat)
    (h0 : s.base_mem SUBSYSTEM_SOURCE.CPU0 = true) (h1 : s.base_mem SUBSYSTEM_SOURCE.CPU1 = true)
    (h2 : s.base_mem SUBSYSTEM_SOURCE.CPU2 = true)
    (hg : s.gpu_clkdivstep < 4294967296) (ht : s.tpu_clkdivstep < 4294967296)
    (hr : ∀ i, s.iomem i CLKDIVSTEP < 4294967296) :
    (s.enabled = v → enable_mitigation_store s v size = some ((size : Int), s)) ∧
    (s.enabled ≠ v →
      ∃ t, enable_mitigation_store s v size = some ((size : Int), t) ∧
        t.enabled = v ∧
        (∀ k, t.gpu_clkdivstep.testBit k = if k = 0 then v else s.gpu_clkdivstep.testBit k) ∧
        (∀ k, t.tpu_clkdivstep.testBit k = if k = 0 then v else s.tpu_clkdivstep.testBit k) ∧
        (∀ i ∈ [SUBSYSTEM_SOURCE.CPU0, SUBSYSTEM_SOURCE.CPU1, SUBSYSTEM_SOURCE.CPU2],
          ∀ k, (t.iomem i CLKDIVSTEP).testBit k
            = if k = 0 then v else (s.iomem i CLKDIVSTEP).testBit k) ∧
        (∀ i off, i = SUBSYSTEM_SOURCE.TPU ∨ i = SUBSYSTEM_SOURCE.GPU ∨ off ≠ CLKDIVSTEP →
          t.iomem i off = s.iomem i off)) := by
  refine ⟨fun h => ?_, fun hne => ?_⟩
  · unfold enable_mitigation_store
    rw [if_pos h]
  · obtain ⟨t, e, e1, e2, e3, e4, e5⟩ := enable_mitigation_store_flip s v size hne h0 h1 h2
    refine ⟨t, e, e1, fun k => ?_, fun k => ?_, fun i hi k => ?_, e5⟩
    · rw [e2]; exact bit0_word _ k v hg
    · rw [e3]; exact bit0_word _ k v ht
    · rw [e4 i hi, u32_natCast _ (hr i)]; exact bit0_word _ k v (hr i)

/-- C20 witness: mitigation enabled, words 0x41, 0x43 and 0x45; writing false
clears bit 0 of each and nothing else. -/
theorem enable_mitigation_store_bit0_witness :
    ∃ t, enable_mitigation_store dev_clk false 6 = some ((6 : Int), t) ∧
      t.enabled = false ∧
      (∀ k, t.gpu_clkdivstep.testBit k
        = if k = 0 then false else dev_clk.gpu_clkdivstep.testBit k) ∧
      (∀ k, t.tpu_clkdivstep.testBit k
        = if k = 0 then false else dev_clk.tpu_clkdivstep.testBit k) ∧
      (∀ i ∈ [SUBSYSTEM_SOURCE.CPU0, SUBSYSTEM_SOURCE.CPU1, SUBSYSTEM_SOURCE.CPU2],
        ∀ k, (t.iomem i CLKDIVSTEP).testBit k
          = if k = 0 then false else (dev_clk.iomem i CLKDIVSTEP).testBit k) ∧
      (∀ i off, i = SUBSYSTEM_SOURCE.TPU ∨ i = SUBSYSTEM_SOURCE.GPU ∨ off ≠ CLKDIVSTEP →
        t.iomem i off = dev_clk.iomem i off) :=
  (enable_mitigation_store_bit0 dev_clk false 6 rfl rfl rfl (by decide) (by decide)
    (fun i => by cases i <;> decide)).2 (by decide)

end GoogleBcl

namespace GoogleBcl

/-! ## C21 : the read-modify-write of set_ocp_lvl -/

/-- Bits 5 and above of `(b & 0xE0) | f` are those of the byte `b` when the
field `f` fits five bits. -/
theorem field_keeps_high_bits (b f k : Nat) (hb : b < 256) (hf : f < 32) (hk : 5 ≤ k) :
    ((b &&& 224) ||| f).testBit k = b.testBit k := by
  rw [Nat.testBit_or, Nat.testBit_and, testBit_small f 5 k (by norm_num; exact hf) hk,
    Bool.or_false]
  by_cases h8 : k < 8
  · have h224 : (224 : Nat).testBit k = true := by
      interval_cases k <;> decide
    rw [h224, Bool.and_true]
  · rw [testBit_small b 8 k (by norm_num; exact hb) (by omega)]
    rfl

/-- C21: for each of the four OCP families, with the level field at bit 0, every
old register byte `b` and every in-range `val`: when the register read and the
register write both succeed on a registered zone, `set_ocp_lvl` returns, its bus
transfers are exactly one read and one write, both to the address `addr` of the
chip `pmic`, and the byte `w` written (which the register then holds) has its
level bitfield `w & 0x1F` equal to the encoded field `(ulimit - val) / step` and
every bit outside that bitfield equal to the corresponding bit of `b`. -/
theorem set_ocp_lvl_read_modify_write (env : Env) (hd : Header) (s : bcl_device)
    (val addr : Nat) (pmic : Pmic) (id : Source) (lower upper step : Nat)
    (hfam : (lower, upper, step) ∈ ocp_families)
    (hshift : hd.OCP_WARN_LVL_SHIFT = 0)
    (hl : lower ≤ val) (hu : val ≤ upper)
    (hrd : env.read_ret pmic addr = 0) (hwr : env.write_ret pmic addr = 0)
    (htz : s.gra_tz id = true) :
    ∃ r w, set_ocp_lvl env hd s val addr pmic OCP_WARN_MASK lower upper step id = some r ∧
      (r.2.trace.drop s.trace.length).filter Event.is_bus
        = [Event.reg_read pmic addr, Event.reg_write pmic addr w] ∧
      r.2.regs pmic addr = w ∧
      w &&& OCP_WARN_MASK = (upper - val) / step ∧
      ∀ k, 5 ≤ k → w.testBit k = (u8 (s.regs pmic addr)).testBit k := by
  have hf := ocp_field_le lower upper step val hfam hl
  have hb := set_ocp_lvl_byte_shift0 hd (s.regs pmic addr) val upper step hshift hf
  obtain ⟨s1, h1, -, h3, -, -, h6⟩ :=
    set_ocp_lvl_ok env hd s val addr pmic OCP_WARN_MASK lower upper step id hl hu hrd hwr htz
  refine ⟨_, set_ocp_lvl_byte hd (s.regs pmic addr) val upper step, h1, ?_, h3, hb.2, ?_⟩
  · show (s1.trace.drop s.trace.length).filter Event.is_bus = _
    rw [h6, List.drop_left]
    rfl
  · intro k hk
    rw [hb.1]
    exact field_keeps_high_bits _ _ k (u8_lt _) (by omega) hk

/-- C21 witness: `ocp_cpu1` programmed to 6000 mA over the old byte 0xE0: the
byte written is 0xE0 | 18. -/
theorem set_ocp_lvl_read_modify_write_witness :
    ∃ r w, set_ocp_lvl env_ok hdr0 dev0 6000 hdr0.B3M_OCP_WARN Pmic.MAIN OCP_WARN_MASK
        B3M_LOWER_LIMIT B3M_UPPER_LIMIT B3M_STEP Source.OCP_WARN_CPUCL1 = some r ∧
      (r.2.trace.drop dev0.trace.length).filter Event.is_bus
        = [Event.reg_read Pmic.MAIN hdr0.B3M_OCP_WARN,
           Event.reg_write Pmic.MAIN hdr0.B3M_OCP_WARN w] ∧
      r.2.regs Pmic.MAIN hdr0.B3M_OCP_WARN = w ∧
      w &&& OCP_WARN_MASK = (B3M_UPPER_LIMIT - 6000) / B3M_STEP ∧
      ∀ k, 5 ≤ k → w.testBit k = (u8 (dev0.regs Pmic.MAIN hdr0.B3M_OCP_WARN)).testBit k :=
  set_ocp_lvl_read_modify_write env_ok hdr0 dev0 6000 hdr0.B3M_OCP_WARN Pmic.MAIN
    Source.OCP_WARN_CPUCL1 B3M_LOWER_LIMIT B3M_UPPER_LIMIT B3M_STEP (by simp [ocp_families])
    rfl (by decide) (by decide) rfl rfl rfl

end GoogleBcl

namespace GoogleBcl

/-! ## C22 : a failed condition query in the poll step -/

/-- C22: if the condition query `bcl_cb_vdroop_ok` fails inside
`google_bcl_intf_pmic_work` (no callback table, no interface chip, or the
callback returns a negative code), the function returns the negative error
`-ENODEV` and the device is exactly as it was, apart from the lock and unlock
calls in the trace: `bcl_read_lvl[idx]`, `bcl_lvl[idx]` and `bcl_tz_cnt[idx]`
keep their values and no governor notification is emitted. -/
theorem intf_pmic_work_query_fails (env : Env) (hd : Header) (s : bcl_device) (idx : Source)
    (hcb : ∀ ops, s.pmic_ops = some ops → ops.cb_get_vdroop_ok = true)
    (hfail : s.pmic_ops = none ∨ s.intf_pmic_i2c = false ∨ env.vdroop_ok_ret < 0) :
    google_bcl_intf_pmic_work env hd s idx
      = some (-ENODEV, { s with trace := s.trace ++
          [Event.mutex_lock (Lock.bcl_irq_lock idx), Event.mutex_unlock (Lock.bcl_irq_lock idx)] }) ∧
    -ENODEV < 0 := by
  refine ⟨?_, by decide⟩
  cases hops : s.pmic_ops with
  | none => simp [google_bcl_intf_pmic_work, bcl_cb_vdroop_ok, emit, hops, ENODEV]
  | some ops =>
    have hc := hcb ops hops
    by_cases hi : s.intf_pmic_i2c = true
    · have hr : env.vdroop_ok_ret < 0 := by
        rcases hfail with h | h | h
        · rw [hops] at h; exact absurd h (by simp)
        · rw [hi] at h; exact absurd h (by simp)
        · exact h
      simp [google_bcl_intf_pmic_work, bcl_cb_vdroop_ok, emit, hops, hc, hi, hr]
    · simp [google_bcl_intf_pmic_work, bcl_cb_vdroop_ok, emit, hops, hi, ENODEV]

/-- C22 witness: `UVLO1` debouncing on the probed device, the callback answers
`-EIO`. -/
theorem intf_pmic_work_query_fails_witness :
    google_bcl_intf_pmic_work { env_ok with vdroop_ok_ret := -5 } hdr0
        (polled_trigger env_ok hdr0 dev0 Source.UVLO1) Source.UVLO1
      = some (-ENODEV, { polled_trigger env_ok hdr0 dev0 Source.UVLO1 with
          trace := (polled_trigger env_ok hdr0 dev0 Source.UVLO1).trace ++
            [Event.mutex_lock (Lock.bcl_irq_lock Source.UVLO1),
             Event.mutex_unlock (Lock.bcl_irq_lock Source.UVLO1)] }) :=
  (intf_pmic_work_query_fails { env_ok with vdroop_ok_ret := -5 } hdr0
    (polled_trigger env_ok hdr0 dev0 Source.UVLO1) Source.UVLO1
    (fun ops h => by
      have h1 : ops = ⟨true, true, true, true, true⟩ :=
        (Option.some.inj (h : some _ = some ops)).symm
      subst h1
      rfl)
    (Or.inr (Or.inr (by decide)))).1

end GoogleBcl

namespace GoogleBcl

/-! ## C23 : the occurrence counters at their maximum -/

/-- C23 (as amended): the occurrence counters `gra_cnt` (with telemetry
initialised) and `bcl_cnt` are 32-bit `atomic_t` values incremented by
`atomic_inc`. Below the maximum `2^31 - 1` an increment raises the counter by
exactly one, so it never decreases there; at `2^31 - 1` the increment wraps to
`-2^31`, it does not saturate. -/
theorem occurrence_counter_wraps (env : Env) (s : bcl_device) (idx : Source)
    (hi : s.batt_psy_initialized = true)
    (hg : -2147483648 ≤ s.gra_cnt idx ∧ s.gra_cnt idx ≤ 2147483647)
    (hb : -2147483648 ≤ s.bcl_cnt idx ∧ s.bcl_cnt idx ≤ 2147483647) :
    (s.gra_cnt idx < 2147483647 →
      (irq_handler env s idx).gra_cnt idx = s.gra_cnt idx + 1) ∧
    (s.gra_cnt idx = 2147483647 → (irq_handler env s idx).gra_cnt idx = -2147483648) ∧
    (s.bcl_cnt idx < 2147483647 →
      (google_bcl_irq_changed env s idx).bcl_cnt idx = s.bcl_cnt idx + 1) ∧
    (s.bcl_cnt idx = 2147483647 →
      (google_bcl_irq_changed env s idx).bcl_cnt idx = -2147483648) := by
  have eg : (irq_handler env s idx).gra_cnt idx = s32 (s.gra_cnt idx + 1) := by
    rw [irq_handler_gra_cnt, if_pos hi]; simp [upd]
  have eb : (google_bcl_irq_changed env s idx).bcl_cnt idx = s32 (s.bcl_cnt idx + 1) := by
    rw [google_bcl_irq_changed_bcl_cnt]; simp [upd]
  rw [eg, eb]
  refine ⟨fun h => ?_, fun h => ?_, fun h => ?_, fun h => ?_⟩
  · exact s32_of_range _ (by omega) (by omega)
  · rw [h]; decide
  · exact s32_of_range _ (by omega) (by omega)
  · rw [h]; decide

/-- C23 witness: from 0 both counters go to 1. -/
theorem occurrence_counter_wraps_witness :
    (irq_handler env_ok dev_batt Source.SMPL_WARN).gra_cnt Source.SMPL_WARN
      = dev_batt.gra_cnt Source.SMPL_WARN + 1 ∧
    (google_bcl_irq_changed env_ok dev_batt Source.UVLO1).bcl_cnt Source.UVLO1
      = dev_batt.bcl_cnt Source.UVLO1 + 1 :=
  ⟨(occurrence_counter_wraps env_ok dev_batt Source.SMPL_WARN rfl (by decide) (by decide)).1
      (by decide),
   (occurrence_counter_wraps env_ok dev_batt Source.UVLO1 rfl (by decide) (by decide)).2.2.1
      (by decide)⟩

/-- C23 counterexample: with `gra_cnt[SMPL_WARN]` and `bcl_cnt[UVLO1]` at
2147483647, one more interrupt leaves -2147483648 in each: the counter has
decreased and is not at its maximum. -/
theorem counter_at_int_max_wraps :
    dev_cnt_max.gra_cnt Source.SMPL_WARN = 2147483647 ∧
    (irq_handler env_ok dev_cnt_max Source.SMPL_WARN).gra_cnt Source.SMPL_WARN = -2147483648 ∧
    dev_cnt_max.bcl_cnt Source.UVLO1 = 2147483647 ∧
    (google_bcl_irq_changed env_ok dev_cnt_max Source.UVLO1).bcl_cnt Source.UVLO1
      = -2147483648 := by
  refine ⟨rfl, ?_, rfl, ?_⟩ <;> decide

end GoogleBcl

namespace GoogleBcl

/-! ## C24 : retries of the deferred initialisation -/

/-- A failing run of `google_set_intf_pmic_work` only queues `init_work` again. -/
theorem google_set_intf_pmic_work_fails (env : Env) (hd : Header) (s : bcl_device)
    (h : init_attempt_fails env s = true) :
    google_set_intf_pmic_work env hd s = some (retry_init_work s) := by
  unfold init_attempt_fails at h
  unfold google_set_intf_pmic_work
  by_cases hi : s.intf_pmic_i2c = true
  · cases hops : s.pmic_ops with
    | none => simp [hi]
    | some ops =>
      rw [hops] at h
      by_cases hc : ops.cb_uvlo_read = true
      · by_cases h1 : env.uvlo_read_ret Source.UVLO1 < 0
        · simp [hi, hc, h1, bcl_cb_uvlo_read, hops]
        · by_cases h2 : env.uvlo_read_ret Source.UVLO2 < 0
          · simp [hi, hc, h1, h2, bcl_cb_uvlo_read, hops]
          · have h3 : ops.cb_batoilo_read = true ∧ env.batoilo_read_ret < 0 := by
              simpa [hi, hc, h1, h2] using h
            simp [hi, hc, h1, h2, h3.1, h3.2, bcl_cb_uvlo_read, bcl_cb_batoilo_read, hops]
      · simp [hi, hc]
  · simp [hi]

/-- Consecutive failing runs change nothing but the trace, which gains one
`queue_delayed_work(.., &init_work, THERMAL_DELAY_INIT_MS)` per run. -/
theorem init_attempts_fail (hd : Header) (envs : List Env) :
    ∀ s : bcl_device, (∀ e ∈ envs, init_attempt_fails e s = true) →
      init_attempts hd envs s = some { s with trace := (s.trace ++
        List.replicate envs.length
          (Event.queue_delayed_work Work.init_work THERMAL_DELAY_INIT_MS)) } := by
  induction envs with
  | nil => intro s _; simp [init_attempts]
  | cons e es ih =>
    intro s h
    have he := h e (List.mem_cons_self e es)
    have hes : ∀ e' ∈ es, init_attempt_fails e' (retry_init_work s) = true :=
      fun e' h' => h e' (List.mem_cons_of_mem e h')
    show (google_set_intf_pmic_work e hd s).bind (init_attempts hd es) = _
    rw [google_set_intf_pmic_work_fails e hd s he]
    show init_attempts hd es (retry_init_work s) = _
    rw [ih (retry_init_work s) hes]
    simp [retry_init_work, emit, List.replicate_succ]

/-- C24 (as amended): retries of the companion-chip initialisation are not
bounded. For every number of consecutive failed runs of
`google_set_intf_pmic_work` (interface chip missing, callback table or
`cb_uvlo_read` missing, or a level read failing), every run returns, changes no
state, and schedules exactly one further run after the fixed delay
`THERMAL_DELAY_INIT_MS` (1000 ms): after `n` failed runs `init_work` has been
queued `n` more times. -/
theorem init_retry_unbounded (hd : Header) (envs : List Env) (s : bcl_device)
    (hfail : ∀ e ∈ envs, init_attempt_fails e s = true) :
    ∃ t, init_attempts hd envs s = some t ∧
      t = { s with trace := t.trace } ∧
      t.trace = s.trace ++ List.replicate envs.length
        (Event.queue_delayed_work Work.init_work THERMAL_DELAY_INIT_MS) ∧
      init_arm_count t.trace = init_arm_count s.trace + envs.length := by
  refine ⟨_, init_attempts_fail hd envs s hfail, rfl, rfl, ?_⟩
  simp [init_arm_count, List.count_append, List.count_replicate_self]

/-- C24 witness: three runs on the probed device without the interface chip. -/
theorem init_retry_unbounded_witness :
    ∃ t, init_attempts hdr0 [env_ok, env_ok, env_ok] dev_no_chip = some t ∧
      t = { dev_no_chip with trace := t.trace } ∧
      t.trace = dev_no_chip.trace ++ List.replicate [env_ok, env_ok, env_ok].length
        (Event.queue_delayed_work Work.init_work THERMAL_DELAY_INIT_MS) ∧
      init_arm_count t.trace = init_arm_count dev_no_chip.trace + [env_ok, env_ok, env_ok].length :=
  init_retry_unbounded hdr0 [env_ok, env_ok, env_ok] dev_no_chip
    (fun e he => by
      simp only [List.mem_cons, List.mem_nil_iff, or_false, or_self] at he
      subst he
      rfl)

/-- C24 counterexample: on the probed device without the interface chip every
run fails, and there is no `N` such that the run after `N` failed runs leaves
the number of queued retries where it was: the `n`-th failed run always queues
the `(n+1)`-th. -/
theorem init_retry_has_no_bound :
    init_attempt_fails env_ok dev_no_chip = true ∧
    ¬ ∃ N : Nat, init_arm_count (init_retry_trace hdr0 env_ok dev_no_chip (N + 1))
      ≤ init_arm_count (init_retry_trace hdr0 env_ok dev_no_chip N) := by
  refine ⟨rfl, ?_⟩
  have key : ∀ n, init_arm_count (init_retry_trace hdr0 env_ok dev_no_chip n) = n := by
    intro n
    have h := init_attempts_fail hdr0 (List.replicate n env_ok) dev_no_chip
      (fun e he => by
        rw [List.eq_of_mem_replicate he]
        rfl)
    unfold init_retry_trace
    rw [h]
    show init_arm_count (dev_no_chip.trace ++ _) = n
    have e0 : dev_no_chip.trace = [] := rfl
    rw [e0]
    simp [init_arm_count, List.count_replicate_self]
  rintro ⟨N, hN⟩
  rw [key, key] at hN
  omega

end GoogleBcl

namespace GoogleBcl

/-! ## C25 : which paths take the rail's lock -/

/-- Appending a call that is not `mutex_lock` takes no lock. -/
theorem locks_taken_append (a b : List Event) :
    locks_taken (a ++ b) = locks_taken a ++ locks_taken b := by
  simp [locks_taken, List.filterMap_append]

/-- The function `smpl_lvl_store` takes no lock. -/
theorem smpl_lvl_store_locks (env : Env) (hd : Header) (s : bcl_device) (val size : Nat)
    (r : Int × bcl_device) (h : smpl_lvl_store env hd s val size = some r) :
    locks_taken r.2.trace = locks_taken s.trace := by
  unfold smpl_lvl_store at h
  by_cases hr : val < SMPL_LOWER_LIMIT ∨ val > SMPL_UPPER_LIMIT
  · simp [hr] at h; subst h; rfl
  · by_cases hi : s.main_pmic_i2c = true
    · by_cases hrd : env.read_ret Pmic.MAIN hd.SMPL_WARN_CTRL = 0
      · by_cases hwr : env.write_ret Pmic.MAIN hd.SMPL_WARN_CTRL = 0
        · by_cases htz : s.gra_tz Source.SMPL_WARN = true
          · simp [hr, hi, hrd, hwr, htz, S2MPG1X_READ, S2MPG1X_WRITE, emit] at h
            subst h
            simp [locks_taken, List.filterMap_append]
          · simp [hr, hi, hrd, hwr, htz, S2MPG1X_READ, S2MPG1X_WRITE, emit] at h
        · simp [hr, hi, hrd, hwr, S2MPG1X_READ, S2MPG1X_WRITE, emit] at h
          subst h
          simp [locks_taken, List.filterMap_append]
      · simp [hr, hi, hrd, S2MPG1X_READ, emit] at h
        subst h
        simp [locks_taken, List.filterMap_append]
    · simp [hr, hi] at h; subst h; rfl

/-- The functions `uvlo1_lvl_store` and `uvlo2_lvl_store` take no lock. -/
theorem uvlo_lvl_store_locks (env : Env) (hd : Header) (s : bcl_device) (m : Source)
    (val size : Nat) (r : Int × bcl_device) (h : uvlo_lvl_store env hd s m val size = some r) :
    locks_taken r.2.trace = locks_taken s.trace := by
  unfold uvlo_lvl_store at h
  by_cases hr : val < hd.VD_LOWER_LIMIT ∨ val > hd.VD_UPPER_LIMIT
  · simp [hr] at h; subst h; rfl
  · by_cases hi : s.intf_pmic_i2c = true
    · cases hw : bcl_cb_uvlo_write env s m val with
      | none => simp [hr, hi, hw] at h
      | some ret =>
        by_cases hret : ret < 0
        · simp [hr, hi, hw, hret] at h; subst h; rfl
        · by_cases htz : s.bcl_tz m = true
          · simp [hr, hi, hw, hret, htz, emit] at h
            subst h
            simp [locks_taken, List.filterMap_append]
          · simp [hr, hi, hw, hret, htz] at h
    · simp [hr, hi] at h; subst h; rfl

/-- The body of `google_bcl_intf_pmic_enable_timer` lies between the lock and
the unlock of `bcl_irq_lock[idx]`. -/
theorem enable_timer_bracket (hd : Header) (s : bcl_device) (idx : Source) :
    ∃ mid, (google_bcl_intf_pmic_enable_timer hd s idx).trace = s.trace ++
        (Event.mutex_lock (Lock.bcl_irq_lock idx) :: mid ++
          [Event.mutex_unlock (Lock.bcl_irq_lock idx)]) ∧
      locks_taken mid = [] := by
  unfold google_bcl_intf_pmic_enable_timer
  simp only [emit]
  split_ifs
  · exact ⟨[Event.thermal_zone_device_update (Zone.bcl_tz idx),
      Event.mod_delayed_work (Work.bcl_irq_work idx) hd.VD_DELAY], by simp, rfl⟩
  · exact ⟨[Event.mod_delayed_work (Work.bcl_irq_work idx) hd.VD_DELAY], by simp, rfl⟩
  · exact ⟨[Event.mod_delayed_work (Work.bcl_irq_work idx) hd.VD_DELAY], by simp, rfl⟩

/-- The body of `google_bcl_intf_pmic_work` lies between the lock and the unlock
of `bcl_irq_lock[idx]`. -/
theorem intf_pmic_work_bracket (env : Env) (hd : Header) (s : bcl_device) (idx : Source)
    (r : Int × bcl_device) (h : google_bcl_intf_pmic_work env hd s idx = some r) :
    ∃ mid, r.2.trace = s.trace ++
        (Event.mutex_lock (Lock.bcl_irq_lock idx) :: mid ++
          [Event.mutex_unlock (Lock.bcl_irq_lock idx)]) ∧
      locks_taken mid = [] := by
  unfold google_bcl_intf_pmic_work at h
  cases hv : bcl_cb_vdroop_ok env (emit s (Event.mutex_lock (Lock.bcl_irq_lock idx))) false with
  | none => simp only [emit] at hv; simp [emit, hv] at h
  | some p =>
    obtain ⟨ret, ok⟩ := p
    simp only [emit] at hv
    by_cases hret : ret < 0
    · simp [hv, hret, emit] at h
      subst h
      exact ⟨[], by simp, rfl⟩
    · cases ok with
      | true =>
        by_cases hc : s.bcl_tz_cnt idx = 0
        · simp [hv, hret, hc, emit] at h
          subst h
          exact ⟨[], by simp, rfl⟩
        · by_cases htz : s.bcl_tz idx = true
          · simp [hv, hret, hc, htz, emit] at h
            subst h
            exact ⟨[Event.thermal_zone_device_update (Zone.bcl_tz idx)], by simp, rfl⟩
          · simp [hv, hret, hc, htz, emit] at h
      | false =>
        simp [hv, hret, emit] at h
        subst h
        exact ⟨[Event.mod_delayed_work (Work.bcl_irq_work idx) hd.VD_DELAY], by simp, rfl⟩

/-- An in-range call of `set_ocp_lvl` takes `gra_irq_lock[id]` first, makes its
bus transfers and the `set_trip_temp` call before the unlock, and after the
unlock makes at most the governor notification. -/
theorem set_ocp_lvl_bracket (env : Env) (hd : Header) (s : bcl_device) (val addr : Nat)
    (pmic : Pmic) (m ll ul st : Nat) (id : Source) (hl : ll ≤ val) (hu : val ≤ ul)
    (r : Int × bcl_device) (h : set_ocp_lvl env hd s val addr pmic m ll ul st id = some r) :
    ∃ mid post, r.2.trace = s.trace ++
        (Event.mutex_lock (Lock.gra_irq_lock id) :: mid ++
          Event.mutex_unlock (Lock.gra_irq_lock id) :: post) ∧
      locks_taken mid = [] ∧
      (post = [] ∨ post = [Event.thermal_zone_device_update (Zone.gra_tz id)]) := by
  have hr : ¬ (val < ll ∨ val > ul) := by omega
  unfold set_ocp_lvl at h
  simp only [hr, if_false] at h
  by_cases hrd : env.read_ret pmic addr = 0
  · by_cases hwr : env.write_ret pmic addr = 0
    · by_cases htz : s.gra_tz id = true
      · simp [hrd, hwr, htz, S2MPG1X_READ, S2MPG1X_WRITE, emit] at h
        subst h
        exact ⟨[Event.reg_read pmic addr, Event.reg_write pmic addr _,
          Event.set_trip_temp (Zone.gra_tz id) 0 _], _, rfl, rfl, Or.inr rfl⟩
      · simp [hrd, hwr, htz, S2MPG1X_READ, S2MPG1X_WRITE, emit] at h
    · by_cases htz : s.gra_tz id = true
      · simp [hrd, hwr, htz, S2MPG1X_READ, S2MPG1X_WRITE, emit] at h
        subst h
        exact ⟨[Event.reg_read pmic addr, Event.reg_write pmic addr _], _, rfl, rfl,
          Or.inr rfl⟩
      · simp [hrd, hwr, htz, S2MPG1X_READ, S2MPG1X_WRITE, emit] at h
        subst h
        exact ⟨[Event.reg_read pmic addr, Event.reg_write pmic addr _], [], rfl, rfl,
          Or.inl rfl⟩
  · simp [hrd, S2MPG1X_READ, emit] at h
    subst h
    exact ⟨[Event.reg_read pmic addr], [], rfl, rfl, Or.inl rfl⟩

/-- The function `google_bcl_irq_changed` takes no lock. -/
theorem google_bcl_irq_changed_locks (env : Env) (s : bcl_device) (idx : Source) :
    locks_taken (google_bcl_irq_changed env s idx).trace = locks_taken s.trace := by
  unfold google_bcl_irq_changed
  simp only [emit]
  split_ifs
  · show locks_taken ((ocpsmpl_read_stats env _ _ _).2.trace ++ _) = _
    rw [locks_taken_append, (ocpsmpl_read_stats_fields env _ _ _).1]
    simp [locks_taken]
  · show locks_taken (ocpsmpl_read_stats env _ _ _).2.trace = _
    rw [(ocpsmpl_read_stats_fields env _ _ _).1]

/-- The function `irq_handler` takes no lock. -/
theorem irq_handler_locks (env : Env) (s : bcl_device) (idx : Source) :
    locks_taken (irq_handler env s idx).trace = locks_taken s.trace := by
  by_cases h0 : s.gra_tz_cnt idx = 0
  · rw [(irq_handler_idle env s idx h0).1, locks_taken_append]
    cases s.gra_tz idx <;> simp [locks_taken]
  · rw [(irq_handler_busy env s idx h0).1]

/-- The `get_temp` callbacks of the polled rails take no lock. -/
theorem polled_read_temp_locks (hd : Header) (s : bcl_device) (idx : Source) :
    locks_taken (polled_read_temp hd s idx).2.2.trace = locks_taken s.trace := by
  have h : (google_bcl_miti_read_level hd s Source.UVLO1).2.2.trace = s.trace := by
    simp only [google_bcl_miti_read_level]
    split_ifs <;> rfl
  cases idx <;> first | rfl | exact congrArg locks_taken h

/-- C25 (as amended): of the paths that mutate a rail's runtime state, only
threshold programming through `set_ocp_lvl` (lock `gra_irq_lock[id]`) and the
timer and poll work of the polled rails (`google_bcl_intf_pmic_enable_timer`,
`google_bcl_intf_pmic_work`: lock `bcl_irq_lock[idx]`) run under the rail's
lock: their calls start with the lock, and after the unlock `set_ocp_lvl` makes
at most the governor notification. Interrupt handling (`irq_handler`,
`google_bcl_irq_changed`), the debounce work functions, the governor read
callbacks, `smpl_lvl_store` and the UVLO stores take no lock at all. Stores to
memory are not calls, so the statement is about the calls in program order. -/
theorem rail_lock_coverage (env : Env) (hd : Header) (s : bcl_device) (idx : Source) :
    (locks_taken (irq_handler env s idx).trace = locks_taken s.trace ∧
      locks_taken (google_bcl_irq_changed env s idx).trace = locks_taken s.trace ∧
      locks_taken (debounce_work s idx).trace = locks_taken s.trace ∧
      locks_taken (triggered_read_level hd s idx).2.2.trace = locks_taken s.trace ∧
      locks_taken (polled_read_temp hd s idx).2.2.trace = locks_taken s.trace ∧
      (∀ val size r, smpl_lvl_store env hd s val size = some r →
        locks_taken r.2.trace = locks_taken s.trace) ∧
      (∀ val size r, uvlo_lvl_store env hd s idx val size = some r →
        locks_taken r.2.trace = locks_taken s.trace)) ∧
    (∃ mid, (google_bcl_intf_pmic_enable_timer hd s idx).trace = s.trace ++
        (Event.mutex_lock (Lock.bcl_irq_lock idx) :: mid ++
          [Event.mutex_unlock (Lock.bcl_irq_lock idx)]) ∧
      locks_taken mid = []) ∧
    (∀ r, google_bcl_intf_pmic_work env hd s idx = some r →
      ∃ mid, r.2.trace = s.trace ++
          (Event.mutex_lock (Lock.bcl_irq_lock idx) :: mid ++
            [Event.mutex_unlock (Lock.bcl_irq_lock idx)]) ∧
        locks_taken mid = []) ∧
    (∀ (val addr : Nat) (pmic : Pmic) (m ll ul st : Nat) (r : Int × bcl_device),
      ll ≤ val → val ≤ ul →
      set_ocp_lvl env hd s val addr pmic m ll ul st idx = some r →
      ∃ mid post, r.2.trace = s.trace ++
          (Event.mutex_lock (Lock.gra_irq_lock idx) :: mid ++
            Event.mutex_unlock (Lock.gra_irq_lock idx) :: post) ∧
        locks_taken mid = [] ∧
        (post = [] ∨ post = [Event.thermal_zone_device_update (Zone.gra_tz idx)])) := by
  refine ⟨⟨irq_handler_locks env s idx, google_bcl_irq_changed_locks env s idx, ?_,
    congrArg locks_taken (triggered_read_level_frame hd s idx).1,
    polled_read_temp_locks hd s idx,
    fun val size r h => smpl_lvl_store_locks env hd s val size r h,
    fun val size r h => uvlo_lvl_store_locks env hd s idx val size r h⟩,
    enable_timer_bracket hd s idx,
    fun r h => intf_pmic_work_bracket env hd s idx r h,
    fun val addr pmic m ll ul st r hl hu h =>
      set_ocp_lvl_bracket env hd s val addr pmic m ll ul st idx hl hu r h⟩
  rcases debounce_work_cases s idx with h | h <;> first | (rw [h]; rfl) | rw [h]

/-- C25 counterexample: on the probed device the interrupt of `SMPL_WARN` moves
the debounce counter from 0 to 1 and the debounce work moves it back to 0, and
neither takes any lock. -/
theorem irq_handler_takes_no_lock :
    dev0.gra_tz_cnt Source.SMPL_WARN = 0 ∧
    (irq_handler env_ok dev0 Source.SMPL_WARN).gra_tz_cnt Source.SMPL_WARN = 1 ∧
    locks_taken (irq_handler env_ok dev0 Source.SMPL_WARN).trace = [] ∧
    (google_smpl_warn_work (irq_handler env_ok dev0 Source.SMPL_WARN)).gra_tz_cnt
      Source.SMPL_WARN = 0 ∧
    locks_taken (google_smpl_warn_work (irq_handler env_ok dev0 Source.SMPL_WARN)).trace = [] := by
  refine ⟨rfl, ?_, ?_, ?_, ?_⟩ <;> decide

end GoogleBcl

namespace GoogleBcl

/-! ## C26 : five reads after the transition -/

/-- A read that finds the debounce counter between 1 and 4. -/
theorem triggered_read_level_elevated (hd : Header) (s : bcl_device) (idx : Source)
    (h1 : 0 < s.gra_tz_cnt idx) (h5 : s.gra_tz_cnt idx < 5) :
    triggered_read_level hd s idx =
      (0, s32 (u32 ((s.gra_lvl idx : Int) + (hd.THERMAL_HYST_LEVEL : Int)) : Int),
        { s with gra_tz_cnt := upd s.gra_tz_cnt idx (s.gra_tz_cnt idx + 1) }) := by
  have hc : s.gra_tz_cnt idx ≠ 0 ∧ s.gra_tz_cnt idx < THERMAL_IRQ_COUNTER_LIMIT := by
    unfold THERMAL_IRQ_COUNTER_LIMIT; omega
  unfold triggered_read_level
  rw [if_pos hc]

/-- A read that finds the debounce counter at the limit. -/
theorem triggered_read_level_limit (hd : Header) (s : bcl_device) (idx : Source)
    (h5 : s.gra_tz_cnt idx = 5) :
    triggered_read_level hd s idx =
      (0, s32 (s.gra_lvl idx : Int), { s with gra_tz_cnt := upd s.gra_tz_cnt idx 0 }) := by
  have hc : ¬ (s.gra_tz_cnt idx ≠ 0 ∧ s.gra_tz_cnt idx < THERMAL_IRQ_COUNTER_LIMIT) := by
    unfold THERMAL_IRQ_COUNTER_LIMIT; omega
  unfold triggered_read_level
  rw [if_neg hc]

/-- C26: from the state right after an Idle-to-Debouncing transition of an
interrupt-line rail (`gra_tz_cnt[idx] = 1`), with no further interrupt and no
run of the debounce work, five successive `triggered_read_level` calls output
`gra_lvl + THERMAL_HYST_LEVEL` four times and then `gra_lvl`; after the fourth
call the counter is 5, after the fifth it is 0, so the rail is Idle again
although no debounce work has run. The reads make no call. -/
theorem five_reads_after_transition (hd : Header) (s : bcl_device) (idx : Source)
    (h1 : s.gra_tz_cnt idx = 1)
    (hl : s.gra_lvl idx + hd.THERMAL_HYST_LEVEL < 2147483648) :
    (read_seq hd idx 5 s).1 =
      [(s.gra_lvl idx : Int) + (hd.THERMAL_HYST_LEVEL : Int),
       (s.gra_lvl idx : Int) + (hd.THERMAL_HYST_LEVEL : Int),
       (s.gra_lvl idx : Int) + (hd.THERMAL_HYST_LEVEL : Int),
       (s.gra_lvl idx : Int) + (hd.THERMAL_HYST_LEVEL : Int),
       (s.gra_lvl idx : Int)] ∧
    (read_seq hd idx 4 s).2.gra_tz_cnt idx = 5 ∧
    (read_seq hd idx 5 s).2.gra_tz_cnt idx = 0 ∧
    (read_seq hd idx 5 s).2.trace = s.trace ∧
    (read_seq hd idx 5 s).2.gra_lvl = s.gra_lvl := by
  have e1 : s32 (u32 ((s.gra_lvl idx : Int) + (hd.THERMAL_HYST_LEVEL : Int)) : Int)
      = (s.gra_lvl idx : Int) + (hd.THERMAL_HYST_LEVEL : Int) := by
    rw [s32_u32]
    exact s32_of_range _ (by omega) (by omega)
  have e2 : s32 (s.gra_lvl idx : Int) = (s.gra_lvl idx : Int) := s32_natCast _ (by omega)
  simp only [read_seq]
  rw [triggered_read_level_elevated hd s idx (by omega) (by omega)]
  rw [triggered_read_level_elevated hd _ idx (by simp [upd, h1]) (by simp [upd, h1])]
  rw [triggered_read_level_elevated hd _ idx (by simp [upd, h1]) (by simp [upd, h1])]
  rw [triggered_read_level_elevated hd _ idx (by simp [upd, h1]) (by simp [upd, h1])]
  rw [triggered_read_level_limit hd _ idx (by simp [upd, h1])]
  simp [upd, h1, e1, e2]

/-- C26 witness: `SMPL_WARN` on the probed device right after its interrupt. -/
theorem five_reads_after_transition_witness :
    (read_seq hdr0 Source.SMPL_WARN 5 (irq_handler env_ok dev0 Source.SMPL_WARN)).1
      = [9600, 9600, 9600, 9600, 9500] ∧
    (read_seq hdr0 Source.SMPL_WARN 5
      (irq_handler env_ok dev0 Source.SMPL_WARN)).2.gra_tz_cnt Source.SMPL_WARN = 0 :=
  ⟨(five_reads_after_transition hdr0 (irq_handler env_ok dev0 Source.SMPL_WARN)
      Source.SMPL_WARN (by decide) (by decide)).1,
   (five_reads_after_transition hdr0 (irq_handler env_ok dev0 Source.SMPL_WARN)
      Source.SMPL_WARN (by decide) (by decide)).2.2.1⟩

end GoogleBcl

namespace GoogleBcl

/-! ## C27 : the relation between reported and cached level of a polled rail -/

/-- Subtracting the margin from a cached 32-bit level. -/
theorem u32_u32_sub (x y : Int) : u32 ((u32 x : Int) - y) = u32 (x - y) := by
  have h := u32_u32_add x (-y)
  simpa [sub_eq_add_neg] using h

/-- Both levels set from one value satisfy the relation. -/
theorem lvl_inv_of_set (hd : Header) (s : bcl_device) (i : Source) (x : Int)
    (h1 : s.bcl_lvl i = u32 x)
    (h2 : s.bcl_read_lvl i = u32 (x - (hd.THERMAL_HYST_LEVEL : Int))) :
    lvl_inv hd s i = true := by
  unfold lvl_inv
  rw [h1, h2, u32_u32_sub]
  simp

/-- The relation depends only on the two levels of the rail. -/
theorem lvl_inv_congr (hd : Header) (s t : bcl_device) (i : Source)
    (h1 : t.bcl_lvl i = s.bcl_lvl i) (h2 : t.bcl_read_lvl i = s.bcl_read_lvl i) :
    lvl_inv hd t i = lvl_inv hd s i := by
  unfold lvl_inv
  rw [h1, h2]

/-- A successful run of `google_set_intf_pmic_work` establishes the relation for
the three polled rails. -/
theorem google_set_intf_pmic_work_lvl_inv (env : Env) (hd : Header) (s t : bcl_device)
    (h : google_set_intf_pmic_work env hd s = some t)
    (hok : init_attempt_fails env s = false) (i : Source) (hi : i ∈ polled_rails) :
    lvl_inv hd t i = true := by
  unfold init_attempt_fails at hok
  unfold google_set_intf_pmic_work at h
  have hi2c : s.intf_pmic_i2c = true := by
    cases h' : s.intf_pmic_i2c
    · simp [h'] at hok
    · rfl
  cases hops : s.pmic_ops with
  | none => simp [hi2c, hops] at hok
  | some ops =>
    simp [hi2c, hops] at hok
    obtain ⟨⟨⟨hc, h1⟩, h2⟩, h3⟩ := hok
    by_cases hb : ops.cb_batoilo_read = true
    · have h3' : ¬ env.batoilo_read_ret < 0 := by
        have := h3 hb; omega
      have h1' : ¬ env.uvlo_read_ret Source.UVLO1 < 0 := by omega
      have h2' : ¬ env.uvlo_read_ret Source.UVLO2 < 0 := by omega
      simp [hi2c, hops, hc, hb, h1', h2', h3', bcl_cb_uvlo_read, bcl_cb_batoilo_read,
        register_bcl_tz, emit] at h
      simp only [polled_rails, List.mem_cons, List.mem_nil_iff, or_false] at hi
      rcases hi with hi | hi | hi <;> subst hi <;> subst h <;>
        (unfold lvl_inv; split_ifs <;> simp [upd])
    · have h1' : ¬ env.uvlo_read_ret Source.UVLO1 < 0 := by omega
      have h2' : ¬ env.uvlo_read_ret Source.UVLO2 < 0 := by omega
      simp [hi2c, hops, hc, hb, h1', h2', bcl_cb_uvlo_read, bcl_cb_batoilo_read] at h

/-- The four ways an operation on a polled rail changes the two levels, each of
which keeps the relation. -/
theorem lvl_inv_step (hd : Header) (s t : bcl_device) (i : Source)
    (hinv : lvl_inv hd s i = true)
    (h : (t.bcl_lvl = s.bcl_lvl ∧ t.bcl_read_lvl = s.bcl_read_lvl) ∨
      (∃ m x, t.bcl_lvl = upd s.bcl_lvl m (u32 x) ∧
        t.bcl_read_lvl = upd s.bcl_read_lvl m (u32 (x - (hd.THERMAL_HYST_LEVEL : Int)))) ∨
      (∃ m, t.bcl_lvl = s.bcl_lvl ∧ t.bcl_read_lvl = upd s.bcl_read_lvl m (s.bcl_lvl m)) ∨
      (∃ m, t.bcl_lvl = s.bcl_lvl ∧ t.bcl_read_lvl = upd s.bcl_read_lvl m
        (u32 ((s.bcl_lvl m : Int) - (hd.THERMAL_HYST_LEVEL : Int))))) :
    lvl_inv hd t i = true := by
  rcases h with ⟨h1, h2⟩ | ⟨m, x, h1, h2⟩ | ⟨m, h1, h2⟩ | ⟨m, h1, h2⟩
  · rw [lvl_inv_congr hd s t i (by rw [h1]) (by rw [h2])]; exact hinv
  · by_cases hm : i = m
    · exact lvl_inv_of_set hd t i x (by rw [h1]; simp [upd, hm]) (by rw [h2]; simp [upd, hm])
    · rw [lvl_inv_congr hd s t i (by rw [h1]; simp [upd, hm]) (by rw [h2]; simp [upd, hm])]
      exact hinv
  · by_cases hm : i = m
    · unfold lvl_inv; rw [h1, h2]; simp [upd, hm]
    · rw [lvl_inv_congr hd s t i (by rw [h1]) (by rw [h2]; simp [upd, hm])]
      exact hinv
  · by_cases hm : i = m
    · unfold lvl_inv; rw [h1, h2]; simp [upd, hm]
    · rw [lvl_inv_congr hd s t i (by rw [h1]) (by rw [h2]; simp [upd, hm])]
      exact hinv

/-- The functions `uvlo1_lvl_show` and `uvlo2_lvl_show` keep the relation. -/
theorem uvlo_lvl_show_lvl_inv (env : Env) (hd : Header) (s : bcl_device) (m i : Source)
    (r : Except Int Nat × bcl_device) (h : uvlo_lvl_show env hd s m = some r)
    (hinv : lvl_inv hd s i = true) : lvl_inv hd r.2 i = true := by
  apply lvl_inv_step hd s r.2 i hinv
  unfold uvlo_lvl_show at h
  by_cases hi : s.intf_pmic_i2c = true
  · cases hv : bcl_cb_uvlo_read env s m 0 with
    | none => simp [hi, hv] at h
    | some p =>
      obtain ⟨ret, lvl⟩ := p
      by_cases hret : ret < 0
      · simp [hi, hv, hret] at h; subst h; exact Or.inl ⟨rfl, rfl⟩
      · simp [hi, hv, hret] at h; subst h
        exact Or.inr (Or.inl ⟨m, (hd.VD_BATTERY_VOLTAGE : Int) - (lvl : Int), rfl, rfl⟩)
  · simp [hi] at h; subst h; exact Or.inl ⟨rfl, rfl⟩

/-- The functions `uvlo1_lvl_store` and `uvlo2_lvl_store` keep the relation. -/
theorem uvlo_lvl_store_lvl_inv (env : Env) (hd : Header) (s : bcl_device) (m i : Source)
    (val size : Nat) (r : Int × bcl_device) (h : uvlo_lvl_store env hd s m val size = some r)
    (hinv : lvl_inv hd s i = true) : lvl_inv hd r.2 i = true := by
  apply lvl_inv_step hd s r.2 i hinv
  unfold uvlo_lvl_store at h
  by_cases hr : val < hd.VD_LOWER_LIMIT ∨ val > hd.VD_UPPER_LIMIT
  · simp [hr] at h; subst h; exact Or.inl ⟨rfl, rfl⟩
  · by_cases hi : s.intf_pmic_i2c = true
    · cases hw : bcl_cb_uvlo_write env s m val with
      | none => simp [hr, hi, hw] at h
      | some ret =>
        by_cases hret : ret < 0
        · simp [hr, hi, hw, hret] at h; subst h; exact Or.inl ⟨rfl, rfl⟩
        · by_cases htz : s.bcl_tz m = true
          · simp [hr, hi, hw, hret, htz, emit] at h
            subst h
            exact Or.inr (Or.inl ⟨m, (hd.VD_BATTERY_VOLTAGE : Int) - (val : Int), rfl, rfl⟩)
          · simp [hr, hi, hw, hret, htz] at h
    · simp [hr, hi] at h; subst h; exact Or.inl ⟨rfl, rfl⟩

/-- The function `batoilo_lvl_store` keeps the relation. -/
theorem batoilo_lvl_store_lvl_inv (env : Env) (hd : Header) (s : bcl_device) (i : Source)
    (val size : Nat) (r : Int × bcl_device) (h : batoilo_lvl_store env hd s val size = some r)
    (hinv : lvl_inv hd s i = true) : lvl_inv hd r.2 i = true := by
  apply lvl_inv_step hd s r.2 i hinv
  unfold batoilo_lvl_store at h
  by_cases hr : val < hd.BO_LOWER_LIMIT ∨ val > hd.BO_UPPER_LIMIT
  · simp [hr] at h; subst h; exact Or.inl ⟨rfl, rfl⟩
  · cases hw : bcl_cb_batoilo_write env s val with
    | none => simp [hr, hw] at h
    | some ret =>
      by_cases hret : ret < 0
      · simp [hr, hw, hret] at h; subst h; exact Or.inl ⟨rfl, rfl⟩
      · by_cases htz : s.bcl_tz Source.BATOILO = true
        · simp [hr, hw, hret, htz, emit] at h
          subst h
          exact Or.inr (Or.inl ⟨Source.BATOILO, (val : Int), rfl, rfl⟩)
        · simp [hr, hw, hret, htz] at h

/-- The function `google_bcl_intf_pmic_enable_timer` keeps the relation. -/
theorem enable_timer_lvl_inv (hd : Header) (s : bcl_device) (idx i : Source)
    (hinv : lvl_inv hd s i = true) :
    lvl_inv hd (google_bcl_intf_pmic_enable_timer hd s idx) i = true := by
  apply lvl_inv_step hd s _ i hinv
  unfold google_bcl_intf_pmic_enable_timer
  simp only [emit]
  split_ifs
  · exact Or.inr (Or.inr (Or.inl ⟨idx, rfl, rfl⟩))
  · exact Or.inl ⟨rfl, rfl⟩
  · exact Or.inl ⟨rfl, rfl⟩

/-- The function `google_bcl_intf_pmic_work` keeps the relation. -/
theorem intf_pmic_work_lvl_inv (env : Env) (hd : Header) (s : bcl_device) (idx i : Source)
    (r : Int × bcl_device) (h : google_bcl_intf_pmic_work env hd s idx = some r)
    (hinv : lvl_inv hd s i = true) : lvl_inv hd r.2 i = true := by
  apply lvl_inv_step hd s r.2 i hinv
  unfold google_bcl_intf_pmic_work at h
  cases hv : bcl_cb_vdroop_ok env (emit s (Event.mutex_lock (Lock.bcl_irq_lock idx))) false with
  | none => simp only [emit] at hv; simp [emit, hv] at h
  | some p =>
    obtain ⟨ret, ok⟩ := p
    simp only [emit] at hv
    by_cases hret : ret < 0
    · simp [hv, hret, emit] at h
      subst h
      exact Or.inl ⟨rfl, rfl⟩
    · cases ok with
      | true =>
        by_cases hc : s.bcl_tz_cnt idx = 0
        · simp [hv, hret, hc, emit] at h
          subst h
          exact Or.inr (Or.inr (Or.inr ⟨idx, rfl, rfl⟩))
        · by_cases htz : s.bcl_tz idx = true
          · simp [hv, hret, hc, htz, emit] at h
            subst h
            exact Or.inr (Or.inr (Or.inr ⟨idx, rfl, rfl⟩))
          · simp [hv, hret, hc, htz, emit] at h
      | false =>
        simp [hv, hret, emit] at h
        subst h
        exact Or.inr (Or.inr (Or.inl ⟨idx, rfl, rfl⟩))

/-- The relation is established by `google_set_intf_pmic_work` and kept, for
every polled rail, by the UVLO shows, the three stores, the timer and the poll
work; `batoilo_lvl_show` keeps it for UVLO1 and UVLO2, and for BATOILO when the
level it reads is the cached one. -/
theorem polled_ops_keep_lvl_inv (env : Env) (hd : Header) (s : bcl_device) (i : Source)
    (hinv : lvl_inv hd s i = true) :
    (∀ m r, uvlo_lvl_show env hd s m = some r → lvl_inv hd r.2 i = true) ∧
    (∀ m val size r, uvlo_lvl_store env hd s m val size = some r → lvl_inv hd r.2 i = true) ∧
    (∀ val size r, batoilo_lvl_store env hd s val size = some r → lvl_inv hd r.2 i = true) ∧
    (∀ idx, lvl_inv hd (google_bcl_intf_pmic_enable_timer hd s idx) i = true) ∧
    (∀ idx r, google_bcl_intf_pmic_work env hd s idx = some r → lvl_inv hd r.2 i = true) ∧
    (∀ r, batoilo_lvl_show env hd s = some r →
      i ≠ Source.BATOILO ∨ r.2.bcl_lvl Source.BATOILO = s.bcl_lvl Source.BATOILO →
      lvl_inv hd r.2 i = true) := by
  refine ⟨fun m r h => uvlo_lvl_show_lvl_inv env hd s m i r h hinv,
    fun m val size r h => uvlo_lvl_store_lvl_inv env hd s m i val size r h hinv,
    fun val size r h => batoilo_lvl_store_lvl_inv env hd s i val size r h hinv,
    fun idx => enable_timer_lvl_inv hd s idx i hinv,
    fun idx r h => intf_pmic_work_lvl_inv env hd s idx i r h hinv, ?_⟩
  intro r h hcase
  have hread : r.2.bcl_read_lvl = s.bcl_read_lvl ∧
      ∀ j, j ≠ Source.BATOILO → r.2.bcl_lvl j = s.bcl_lvl j := by
    unfold batoilo_lvl_show at h
    by_cases hi : s.intf_pmic_i2c = true
    · cases hv : bcl_cb_batoilo_read env s 0 with
      | none => simp [hi, hv] at h
      | some p =>
        obtain ⟨ret, lvl⟩ := p
        by_cases hret : ret < 0
        · simp [hi, hv, hret] at h; subst h; exact ⟨rfl, fun _ _ => rfl⟩
        · simp [hi, hv, hret] at h; subst h
          exact ⟨rfl, fun j hj => by simp [upd, hj]⟩
    · simp [hi] at h; subst h; exact ⟨rfl, fun _ _ => rfl⟩
  have hl : r.2.bcl_lvl i = s.bcl_lvl i := by
    rcases hcase with hne | he
    · exact hread.2 i hne
    · by_cases hb : i = Source.BATOILO
      · rw [hb]; exact he
      · exact hread.2 i hb
  rw [lvl_inv_congr hd s r.2 i hl (by rw [hread.1])]
  exact hinv

/-- C27 (the code at the failing input): after `google_set_intf_pmic_work` has
initialised the polled rails with a BATOILO level of 5000 mA the relation holds
(`bcl_lvl` 5000, `bcl_read_lvl` 4900). A `batoilo_lvl_show` that reads 5200 mA
then leaves `bcl_lvl[BATOILO]` at 5200 and `bcl_read_lvl[BATOILO]` at 4900, which
is neither 5200 nor 5100: the relation is broken. The sibling `uvlo1_lvl_show`
under the same environment keeps it. -/
theorem batoilo_lvl_show_breaks_lvl_inv :
    google_set_intf_pmic_work env_ok hdr0 dev0 = some dev_polled ∧
    lvl_inv hdr0 dev_polled Source.BATOILO = true ∧
    dev_polled.bcl_lvl Source.BATOILO = 5000 ∧ dev_polled.bcl_read_lvl Source.BATOILO = 4900 ∧
    (batoilo_lvl_show env_batoilo_5200 hdr0 dev_polled).map
        (fun r => (r.2.bcl_lvl Source.BATOILO, r.2.bcl_read_lvl Source.BATOILO,
          lvl_inv hdr0 r.2 Source.BATOILO))
      = some (5200, 4900, false) ∧
    (uvlo1_lvl_show env_batoilo_5200 hdr0 dev_polled).map
        (fun r => lvl_inv hdr0 r.2 Source.UVLO1) = some true := by
  refine ⟨rfl, ?_, ?_, ?_, ?_, ?_⟩ <;> decide

end GoogleBcl

namespace GoogleBcl

/-! ## C28 : cached levels at initialisation and after a store -/

/-- The cached level the initialisation computes for each OCP rail. -/
theorem init_gra_lvl_ocp (hd : Header) (pm : s2mpg10_platform_data)
    (ps : s2mpg11_platform_data) (s : bcl_device) :
    ∀ e ∈ ocp_rails,
      (google_set_sub_pmic_gra_lvl hd ps (google_set_main_pmic_gra_lvl hd pm s)).gra_lvl e.1
        = u32 ((e.2.2.2.2.1 : Int) - (hd.THERMAL_HYST_LEVEL : Int)
            - ((e.2.2.2.2.2.2 pm ps * e.2.2.2.2.2.1 : Nat) : Int)) := by
  intro e he
  simp only [ocp_rails, List.mem_cons, List.mem_nil_iff, or_false] at he
  rcases he with h | h | h | h | h | h | h | h <;> subst h <;>
    simp [google_set_sub_pmic_gra_lvl, google_set_main_pmic_gra_lvl, upd]

/-- For each of the eight OCP rails and every platform level field `f ≤ 31`, the
cached level computed at initialisation equals the one `set_ocp_lvl` leaves after
successfully programming `upper - f * step`. -/
theorem ocp_init_level_matches_store (env : Env) (hd : Header) (pm : s2mpg10_platform_data)
    (ps : s2mpg11_platform_data) (s s0 : bcl_device) :
    ∀ e ∈ ocp_rails, e.2.2.2.2.2.2 pm ps ≤ 31 →
      ∀ r, set_ocp_lvl env hd s0 (e.2.2.2.2.1 - e.2.2.2.2.2.2 pm ps * e.2.2.2.2.2.1)
          (e.2.2.1 hd) e.2.1 OCP_WARN_MASK e.2.2.2.1 e.2.2.2.2.1 e.2.2.2.2.2.1 e.1 = some (0, r) →
        r.gra_lvl e.1
          = (google_set_sub_pmic_gra_lvl hd ps (google_set_main_pmic_gra_lvl hd pm s)).gra_lvl
              e.1 := by
  intro e he hf r hr
  rw [init_gra_lvl_ocp hd pm ps s e he]
  have hz := (set_ocp_lvl_zero_inv env hd s0 r _ _ _ _ _ _ _ _ hr).2.2.2.2.2.2.2.1
  rw [hz]
  have hfam : e.2.2.2.2.2.2 pm ps * e.2.2.2.2.2.1 ≤ e.2.2.2.2.1 := by
    simp only [ocp_rails, List.mem_cons, List.mem_nil_iff, or_false] at he
    rcases he with h | h | h | h | h | h | h | h <;> subst h <;>
      simp only [B3M_UPPER_LIMIT, B3M_STEP, B2M_UPPER_LIMIT, B2M_STEP, B10M_UPPER_LIMIT,
        B10M_STEP, B2S_UPPER_LIMIT, B2S_STEP] at hf ⊢ <;> omega
  congr 1
  rw [Nat.cast_sub hfam]
  ring

/-- For `SMPL_WARN` and every platform level field `f ≤ 7`, the cached level
computed at initialisation is `4200 - (f * 100 + 2600)`, while `smpl_lvl_store`
of that voltage leaves `4200 - (f * 100 + 2600) - THERMAL_HYST_LEVEL`: the
initial level is higher by the margin. -/
theorem smpl_init_level_exceeds_store (env : Env) (hd : Header) (pm : s2mpg10_platform_data)
    (s s0 : bcl_device) (size : Nat) (hf : pm.smpl_warn_lvl ≤ 7)
    (hh : hd.THERMAL_HYST_LEVEL + pm.smpl_warn_lvl * 100 ≤ 1600)
    (hi2c : s0.main_pmic_i2c = true)
    (hrd : env.read_ret Pmic.MAIN hd.SMPL_WARN_CTRL = 0)
    (hwr : env.write_ret Pmic.MAIN hd.SMPL_WARN_CTRL = 0)
    (htz : s0.gra_tz Source.SMPL_WARN = true) :
    ∃ r, smpl_lvl_store env hd s0 (pm.smpl_warn_lvl * SMPL_STEP + SMPL_LOWER_LIMIT) size
        = some ((size : Int), r) ∧
      (google_set_main_pmic_gra_lvl hd pm s).gra_lvl Source.SMPL_WARN
        = r.gra_lvl Source.SMPL_WARN + hd.THERMAL_HYST_LEVEL := by
  obtain ⟨r, h1, -, h3⟩ := smpl_lvl_store_ok env hd s0
    (pm.smpl_warn_lvl * SMPL_STEP + SMPL_LOWER_LIMIT) size
    (by unfold SMPL_STEP SMPL_LOWER_LIMIT; omega)
    (by unfold SMPL_STEP SMPL_LOWER_LIMIT SMPL_UPPER_LIMIT; omega) hi2c hrd hwr htz
  refine ⟨r, h1, ?_⟩
  rw [h3]
  simp only [google_set_main_pmic_gra_lvl, upd, SMPL_STEP, SMPL_LOWER_LIMIT,
    SMPL_BATTERY_VOLTAGE]
  simp only [u32]
  simp
  omega

/-- C28 (the code at the failing input): with the platform level field 3 and the
margin 100, `google_set_main_pmic` caches `4200 - 2900 = 1300` for `SMPL_WARN`,
while `smpl_lvl_store` of the voltage 2900 mV that the field encodes succeeds and
leaves 1200. For `ocp_cpu1` with the same field both paths give
`9600 - 3 * 200 - 100 = 8900`. -/
theorem smpl_init_level_omits_margin :
    (google_set_main_pmic_gra_lvl hdr0 pdata_main0 dev0).gra_lvl Source.SMPL_WARN = 1300 ∧
    (smpl_lvl_store env_ok hdr0 dev0 (3 * SMPL_STEP + SMPL_LOWER_LIMIT) 4).map
        (fun r => (r.1, r.2.gra_lvl Source.SMPL_WARN)) = some (4, 1200) ∧
    (google_set_main_pmic_gra_lvl hdr0 pdata_main0 dev0).gra_lvl Source.OCP_WARN_CPUCL1 = 8900 ∧
    (ocp_cpu1_lvl_store env_ok hdr0 dev0 (B3M_UPPER_LIMIT - 3 * B3M_STEP) 4).map
        (fun r => (r.1, r.2.gra_lvl Source.OCP_WARN_CPUCL1)) = some (4, 8900) := by
  refine ⟨?_, ?_, ?_, ?_⟩ <;> decide

end GoogleBcl

namespace GoogleBcl

/-! ## C29 : the PPM enable bits after the probe sequence -/

/-- Setting the bits of a mask makes them read back set. -/
theorem or_and_mask (x m : Nat) : (x ||| m) &&& m = m := by
  apply Nat.eq_of_testBit_eq
  intro i
  rw [Nat.testBit_and, Nat.testBit_or]
  cases x.testBit i <;> cases m.testBit i <;> rfl

/-- What `google_bcl_init_instruction` leaves when every mapping succeeds. -/
theorem google_bcl_init_instruction_ok (env : Env) (s : bcl_device)
    (hmap : ∀ i, env.ioremap_ok i = true) (hsys : env.ioremap_sysreg_ok = true) :
    (google_bcl_init_instruction env s).1 = 0 ∧
    (google_bcl_init_instruction env s).2.sysreg_cpucl0 = true ∧
    (google_bcl_init_instruction env s).2.sysreg CLUSTER0_PPM
      = u32 ((u32 (s.sysreg CLUSTER0_PPM : Int) ||| PPMEN_MASK : Nat) : Int) := by
  simp [google_bcl_init_instruction, map_base_mem, sysreg_set_bits, emit, hmap, hsys,
    CLUSTER0_PPM, CLUSTER0_GENERAL_CTRL_64]

/-- What `google_set_throttling` leaves in `CLUSTER0_PPM` when the block is
mapped. -/
theorem google_set_throttling_ppm (env : Env) (s : bcl_device) (h : s.sysreg_cpucl0 = true) :
    (google_set_throttling env s).sysreg CLUSTER0_PPM = property_or_zero env.ppm_settings := by
  simp [google_set_throttling, sysreg_write, emit, h, CLUSTER0_PPM, CLUSTER0_MPMM]

/-- C29 (as amended): with every register block mapped, after
`google_bcl_init_instruction` the PPM enable bits `PPMEN_MASK` (0x3 << 8) are
set in `CLUSTER0_PPM`; `google_set_throttling` then stores `ppm_settings` as the
whole content of the register, so after the sequence run by `google_bcl_probe`
the register holds exactly the configured value (0 when the property is absent)
and the enable bits are set if and only if the configured value has them. -/
theorem probe_ppm_register (env : Env) (s : bcl_device)
    (hmap : ∀ i, env.ioremap_ok i = true) (hsys : env.ioremap_sysreg_ok = true)
    (hreg : s.sysreg CLUSTER0_PPM < 4294967296) :
    (google_bcl_init_instruction env s).1 = 0 ∧
    (google_bcl_init_instruction env s).2.sysreg CLUSTER0_PPM &&& PPMEN_MASK = PPMEN_MASK ∧
    (probe_instruction env s).1 = 0 ∧
    (probe_instruction env s).2.sysreg CLUSTER0_PPM = property_or_zero env.ppm_settings ∧
    ((probe_instruction env s).2.sysreg CLUSTER0_PPM &&& PPMEN_MASK = PPMEN_MASK ↔
      property_or_zero env.ppm_settings &&& PPMEN_MASK = PPMEN_MASK) ∧
    (env.ppm_settings = none → (probe_instruction env s).2.sysreg CLUSTER0_PPM = 0) := by
  obtain ⟨i1, i2, i3⟩ := google_bcl_init_instruction_ok env s hmap hsys
  have hp : probe_instruction env s
      = (0, google_set_throttling env (google_bcl_init_instruction env s).2) := by
    unfold probe_instruction
    simp only [i1]
    rfl
  have hppm : (probe_instruction env s).2.sysreg CLUSTER0_PPM
      = property_or_zero env.ppm_settings := by
    rw [hp]
    exact google_set_throttling_ppm env _ i2
  refine ⟨i1, ?_, by rw [hp], hppm, by rw [hppm], fun h => ?_⟩
  · rw [i3, u32_natCast _ hreg,
      u32_natCast _ (Nat.or_lt_two_pow (n := 32) hreg (by decide))]
    exact or_and_mask _ _
  · rw [hppm, h]
    rfl

/-- C29 witness: a device tree with `ppm_settings = 0x31a` leaves the enable
bits set. -/
theorem probe_ppm_register_witness :
    (probe_instruction env_ppm bcl_device.zero).2.sysreg CLUSTER0_PPM
      = property_or_zero env_ppm.ppm_settings ∧
    (probe_instruction env_ppm bcl_device.zero).2.sysreg CLUSTER0_PPM &&& PPMEN_MASK
      = PPMEN_MASK :=
  ⟨(probe_ppm_register env_ppm bcl_device.zero (fun _ => rfl) rfl (by decide)).2.2.2.1,
   (probe_ppm_register env_ppm bcl_device.zero (fun _ => rfl) rfl (by decide)).2.2.2.2.1.mpr
     (by decide)⟩

/-- C29 counterexample: on the zero-filled device with every block mapped and no
`ppm_settings` property, `google_bcl_init_instruction` leaves 0x300 in
`CLUSTER0_PPM`, and after `google_set_throttling` the register holds 0: the
enable bits are cleared. -/
theorem default_ppm_settings_clear_enable :
    env_ok.ppm_settings = none ∧
    (google_bcl_init_instruction env_ok bcl_device.zero).1 = 0 ∧
    (google_bcl_init_instruction env_ok bcl_device.zero).2.sysreg CLUSTER0_PPM = 768 ∧
    (probe_instruction env_ok bcl_device.zero).1 = 0 ∧
    (probe_instruction env_ok bcl_device.zero).2.sysreg_cpucl0 = true ∧
    (probe_instruction env_ok bcl_device.zero).2.sysreg CLUSTER0_PPM = 0 ∧
    (probe_instruction env_ok bcl_device.zero).2.sysreg CLUSTER0_PPM &&& PPMEN_MASK
      ≠ PPMEN_MASK := by
  refine ⟨rfl, ?_, ?_, ?_, ?_, ?_, ?_⟩ <;> decide

end GoogleBcl

namespace GoogleBcl

/-! ## C30 : registration of the interface PMIC callbacks -/

/-- C30: `google_bcl_register_ifpmic` returns 0 if and only if the device handle
is not NULL and the table is not NULL with all five callbacks present, and then
it installs the table in `pmic_ops` and changes nothing else. With a NULL handle
it returns `-EIO`; with a non-NULL handle and a NULL table or a missing callback
it returns `-EINVAL` and leaves the device, the installed `pmic_ops` included,
exactly as it was. -/
theorem register_ifpmic_spec (bcl_dev : Option bcl_device) (pmic_ops : Option bcl_ifpmic_ops) :
    ((google_bcl_register_ifpmic bcl_dev pmic_ops).1 = 0 ↔
      ∃ s ops, bcl_dev = some s ∧ pmic_ops = some ops ∧
        ops = ⟨true, true, true, true, true⟩) ∧
    (∀ s ops, bcl_dev = some s → pmic_ops = some ops → ops = ⟨true, true, true, true, true⟩ →
      google_bcl_register_ifpmic bcl_dev pmic_ops = (0, some { s with pmic_ops := some ops })) ∧
    (bcl_dev = none → google_bcl_register_ifpmic bcl_dev pmic_ops = (- EIO, none)) ∧
    (∀ s, bcl_dev = some s →
      (pmic_ops = none ∨ ∃ ops, pmic_ops = some ops ∧ ops ≠ ⟨true, true, true, true, true⟩) →
      google_bcl_register_ifpmic bcl_dev pmic_ops = (-EINVAL, some s)) ∧
    - EIO ≠ 0 ∧ -EINVAL ≠ 0 := by
  refine ⟨?_, ?_, ?_, ?_, by decide, by decide⟩
  · cases bcl_dev with
    | none => simp [google_bcl_register_ifpmic, EIO]
    | some s =>
      cases pmic_ops with
      | none => simp [google_bcl_register_ifpmic, EINVAL]
      | some ops =>
        obtain ⟨a, b, c, d, e⟩ := ops
        cases a <;> cases b <;> cases c <;> cases d <;> cases e <;>
          simp [google_bcl_register_ifpmic, EINVAL]
  · intro s ops h1 h2 h3
    subst h1 h2 h3
    rfl
  · intro h
    subst h
    rfl
  · intro s h1 h2
    subst h1
    rcases h2 with h2 | ⟨ops, h2, h3⟩
    · subst h2; rfl
    · subst h2
      obtain ⟨a, b, c, d, e⟩ := ops
      cases a <;> cases b <;> cases c <;> cases d <;> cases e <;>
        first | rfl | exact absurd rfl h3

end GoogleBcl
